import Mathlib

/-!
# MCKineticsObserver: contacts, odometry, fault detection and recovery of the floating-base estimation

A shallow embedding of `src/src/MCKineticsObserver.cpp` (and of the contact record of
`src/include/mc_state_observation/measurements/ContactWithSensor.h`).

Conventions of the embedding.

* Scalars (`double`) are the elements of a linearly ordered field `R` with a floor function; the
  definitions run on `ℚ`. Rounding of the machine arithmetic is outside the model, but for the two
  quotients that `configure` truncates to the `int` members `fbBackupCapacity_` and
  `invincibilityFrame_` (lines 282 and 287): there the truncation makes the rounding of the division
  visible, and the quotient is rounded as IEEE 754 binary64 rounds it (`roundDouble`).
* `int` members are `Int`; no operation of the modelled code can leave the range of `int` on the
  values the theorems consider (the counter is bounded by the window length).
* What `run` obtains from its collaborators (the estimator `observer_`, the tilt observer, the robots,
  the logger, the contacts manager) is an input of the tick, see `Tick` and `Lib`; the calls `run` makes to
  the estimator are recorded, in order, in the result of the tick.
-/

set_option linter.unusedSectionVars false

namespace mc_state_observation

/-! ## Linear algebra and rigid-body records -/

/-- The type `so::Vector3`. -/
abbrev Vector3 (R : Type) := Fin 3 → R

/-- The type `so::Matrix3`. -/
abbrev Matrix3 (R : Type) := Matrix (Fin 3) (Fin 3) R

/-- The type `so::Vector6`, held as its two blocks `segment<3>(0)` and `segment<3>(3)`. -/
structure Vector6 (R : Type) where
  seg0 : Vector3 R
  seg3 : Vector3 R

/-- The value `so::Vector6::Zero()`. -/
def Vector6.Zero {R : Type} [Zero R] : Vector6 R := ⟨0, 0⟩

/-- The type `sva::PTransformd`. -/
structure PTransformd (R : Type) where
  rotation : Matrix3 R
  translation : Vector3 R

/-- The type `sva::MotionVecd`. -/
structure MotionVecd (R : Type) where
  angular : Vector3 R
  linear : Vector3 R

/-- The type `sva::ForceVecd`; `moment()` is the field `couple`. -/
structure ForceVecd (R : Type) where
  couple : Vector3 R
  force : Vector3 R

/-- The value `sva::PTransformd::Identity()`. -/
def PTransformd.Identity {R : Type} [Zero R] [One R] : PTransformd R := ⟨1, 0⟩

/-- The value `sva::MotionVecd::Zero()`. -/
def MotionVecd.Zero {R : Type} [Zero R] : MotionVecd R := ⟨0, 0⟩

/-- The record `so::kine::Kinematics`. `orientation` holds the matrix `orientation.toMatrix3()`.
The per-field validity flags of the library record are not part of the model: a field the code leaves
unset holds zero here (the identity for the orientation). -/
structure Kinematics (R : Type) where
  position : Vector3 R
  orientation : Matrix3 R
  linVel : Vector3 R
  angVel : Vector3 R
  linAcc : Vector3 R
  angAcc : Vector3 R

/-- The record `fbFb` after `setZero<so::Matrix3>(Flags::all)`; it also stands for a default-constructed
record and for `Kinematics::zeroKinematics(Flags::pose)`, whose unset fields hold zero in the model. -/
def Kinematics.zeroKinematics {R : Type} [Zero R] [One R] : Kinematics R :=
  { position := 0, orientation := 1, linVel := 0, angVel := 0, linAcc := 0, angAcc := 0 }

/-- Eigen's `v / s`: every component is divided by the scalar. -/
def vdiv {R : Type} [Div R] (v : Vector3 R) (s : R) : Vector3 R := fun i => v i / s

/-- Eigen's `a.cross(b)`. -/
def cross {R : Type} [Mul R] [Sub R] (a b : Vector3 R) : Vector3 R :=
  ![a 1 * b 2 - a 2 * b 1, a 2 * b 0 - a 0 * b 2, a 0 * b 1 - a 1 * b 0]

/-- Eigen's `M.inverse()` of a 3x3 matrix: the adjugate divided by the determinant. For a singular matrix
the program yields non-finite entries; the field division of the model yields zero. -/
def inverse {R : Type} [Field R] (M : Matrix3 R) : Matrix3 R := (M.det)⁻¹ • M.adjugate

/-- The conversion `int(x)` of a `double`: truncation toward zero. -/
def toInt {R : Type} [LinearOrderedField R] [FloorRing R] (x : R) : Int :=
  if 0 ≤ x then ⌊x⌋ else ⌈x⌉

/-- Eigen's `m.diagonal() = src.diagonal()`: the diagonal of `m` is overwritten, the other entries
stay. -/
def assignDiagonal {R : Type} {n : Nat} (m src : Matrix (Fin n) (Fin n) R) : Matrix (Fin n) (Fin n) R :=
  fun i j => if i = j then src i j else m i j

/-- Eigen's `m(a, b) = x`. -/
def assignEntry {R : Type} {n : Nat} (m : Matrix (Fin n) (Fin n) R) (a b : Fin n) (x : R) :
    Matrix (Fin n) (Fin n) R :=
  fun i j => if i = a ∧ j = b then x else m i j

/-- Eigen's `m.block<3, 3>(k, k) = v.asDiagonal()`: the 3x3 block at row and column `k` is overwritten
with the diagonal matrix of `v`. -/
def assignDiagonalBlock {R : Type} [Zero R] {n : Nat} (m : Matrix (Fin n) (Fin n) R) (k : Nat)
    (v : Fin 3 → R) : Matrix (Fin n) (Fin n) R :=
  fun i j =>
    if h : (k ≤ i.val ∧ i.val < k + 3) ∧ (k ≤ j.val ∧ j.val < k + 3) then
      Matrix.diagonal v ⟨i.val - k, by omega⟩ ⟨j.val - k, by omega⟩
    else m i j

/-- Rounding to the nearest integer, a tie going to the even integer. -/
def roundHalfEven {R : Type} [LinearOrderedField R] [FloorRing R] (y : R) : Int :=
  if y - (⌊y⌋ : R) < 1 / 2 then ⌊y⌋
  else if 1 / 2 < y - (⌊y⌋ : R) then ⌊y⌋ + 1
  else if ⌊y⌋ % 2 = 0 then ⌊y⌋
  else ⌊y⌋ + 1

/-- The rounding of IEEE 754 binary64 (`double`), to nearest, ties to even: a non-zero `x` with
`2 ^ e ≤ |x| < 2 ^ (e + 1)` is rounded to a multiple of `2 ^ (e - 52)`, which leaves 53 significant
bits. Overflow and subnormal numbers are outside the model: the exponent is not bounded. -/
def roundDouble {R : Type} [LinearOrderedField R] [FloorRing R] (x : R) : R :=
  if x = 0 then 0
  else (roundHalfEven (x / (2 : R) ^ (Int.log 2 |x| - 52)) : R) * (2 : R) ^ (Int.log 2 |x| - 52)

/-! ## The history buffer (`boost::circular_buffer`) -/

/-- A `boost::circular_buffer`: a capacity and the stored entries, oldest first. -/
structure CircularBuffer (α : Type) where
  capacity : Nat
  data : List α

namespace CircularBuffer

/-- The call `push_back(x)`: appends; a full buffer drops its oldest entry, a buffer of capacity zero
stores nothing. -/
def push_back {α : Type} (b : CircularBuffer α) (x : α) : CircularBuffer α :=
  if b.capacity = 0 then b
  else if b.data.length < b.capacity then { b with data := b.data ++ [x] }
  else { b with data := b.data.drop 1 ++ [x] }

/-- The call `set_capacity(n)` with `n` converted to `std::size_t`; entries beyond the new capacity are
removed from the back. -/
def set_capacity {α : Type} (b : CircularBuffer α) (n : Int) : CircularBuffer α :=
  let c := (n % 2 ^ 64).toNat
  { capacity := c, data := b.data.take c }

/-- The call `empty()`. -/
def empty {α : Type} (b : CircularBuffer α) : Bool := b.data.isEmpty

/-- The call `back()`. It is defined on a non-empty buffer only; on an empty one the model returns the
value `outOfContract` supplied by the caller. -/
def back {α : Type} (b : CircularBuffer α) (outOfContract : α) : α :=
  (b.data.getLast?).getD outOfContract

end CircularBuffer

/-! ## Contacts, sensors and robots -/

/-- The enumeration `measurements::OdometryType`. -/
inductive OdometryType where
  | Odometry6d
  | Flat
  | None
  deriving DecidableEq, Repr

/-- The enumeration `KoContactsManager::ContactsDetection`. -/
inductive ContactsDetection where
  | Solver
  | Surfaces
  | Sensors
  | Undefined
  deriving DecidableEq, Repr

/-- The contact record seen by the observer: `measurements::ContactWithSensor` with the members of its
base `Contact` (`id_`, `name_`, `surface_`, `isSet_`, `wasAlreadySet_`) and the two kinematics the observer
caches on it (`fbContactKine_`, `contactSensorKine_`). -/
structure KoContactWithSensor (R : Type) where
  id_ : Int
  name_ : String
  surface_ : String
  isSet_ : Bool
  wasAlreadySet_ : Bool
  forceSensorName_ : String
  wrenchInCentroid_ : Vector6 R
  forceNorm_ : R
  sensorEnabled_ : Bool
  sensorWasEnabled_ : Bool
  contactWrenchVector_ : Vector6 R
  sensorAttachedToSurface_ : Bool
  fbContactKine_ : Kinematics R
  contactSensorKine_ : Kinematics R

namespace ContactWithSensor

/-- The function `ContactWithSensor::resetContact` (lines 45-52). -/
def resetContact {R : Type} (contact : KoContactWithSensor R) : KoContactWithSensor R :=
  { contact with wasAlreadySet_ := false, isSet_ := false, sensorWasEnabled_ := false }

/-- The default member initialisers of `ContactWithSensor` (lines 57-72), applied to the object `raw`
that the default constructor of the base `Contact` leaves; the members without initialiser
(`contactWrenchVector_`, `forceSensorName_`) keep what `raw` holds. -/
def memberInitialisers {R : Type} [Zero R] (raw : KoContactWithSensor R) : KoContactWithSensor R :=
  { raw with
    wrenchInCentroid_ := ⟨0, 0⟩
    forceNorm_ := 0
    sensorEnabled_ := true
    sensorWasEnabled_ := false
    sensorAttachedToSurface_ := true }

/-- The constructor `ContactWithSensor(int id, std::string forceSensorName)` (lines 21-28), for a
contact that is not associated to a surface. -/
def create {R : Type} [Zero R] (raw : KoContactWithSensor R) (id : Int) (forceSensorName : String) :
    KoContactWithSensor R :=
  resetContact
    { memberInitialisers raw with id_ := id, name_ := forceSensorName, forceSensorName_ := forceSensorName }

/-- The constructor `ContactWithSensor(id, forceSensorName, surfaceName, sensorAttachedToSurface)`
(lines 31-43), for a contact associated to a surface. -/
def createWithSurface {R : Type} [Zero R] (raw : KoContactWithSensor R) (id : Int)
    (forceSensorName surfaceName : String) (sensorAttachedToSurface : Bool) : KoContactWithSensor R :=
  { resetContact { memberInitialisers raw with id_ := id, name_ := surfaceName } with
    surface_ := surfaceName
    forceSensorName_ := forceSensorName
    sensorAttachedToSurface_ := sensorAttachedToSurface }

end ContactWithSensor

/-- An entry of `listIMUs_`. -/
structure IMU (R : Type) where
  id : Int
  name : String
  gyroBias : Vector3 R
  fbImuKine : Kinematics R

/-- What the code reads of a `mc_rbdyn::ForceSensor`. -/
structure ForceSensor (R : Type) where
  name : String
  parentBody : String
  X_p_f : PTransformd R

/-- What the code reads of a `mc_rbdyn::Surface`. -/
structure Surface (R : Type) where
  bodyName : String
  X_b_s : PTransformd R

/-- What the code reads of a `mc_rbdyn::Robot`; bodies are addressed by name
(`mbc().bodyPosW[bodyIndexByName(name)]`). -/
structure Robot (R : Type) where
  forceSensor : String → ForceSensor R
  surface : String → Surface R
  surfacePose : String → PTransformd R
  bodyPosW : String → PTransformd R
  bodyVelW : String → MotionVecd R
  com : Vector3 R
  comVelocity : Vector3 R
  /-- The sensors `forceSensors()`, in the order of the iteration. -/
  forceSensors : List (ForceSensor R)

/-- Functions of the libraries the observer is built on, which the source uses and does not define. -/
structure Lib (R : Type) where
  /-- The product `a * b` of `so::kine::Kinematics`. -/
  kineMul : Kinematics R → Kinematics R → Kinematics R
  /-- The call `k.getInverse()`. -/
  kineInverse : Kinematics R → Kinematics R
  /-- The call `conversions::kinematics::fromSva(pose, Flags::vel)`. -/
  fromSva : PTransformd R → Kinematics R
  /-- The call `conversions::kinematics::fromSva(pose, vel, true)`. -/
  fromSvaVel : PTransformd R → MotionVecd R → Kinematics R
  /-- The call `forceSensor.wrenchWithoutGravity(robot)`. -/
  wrenchWithoutGravity : ForceSensor R → Robot R → ForceVecd R
  /-- The call `forceSensor.worldWrenchWithoutGravity(robot)`. -/
  worldWrenchWithoutGravity : ForceSensor R → Robot R → ForceVecd R
  /-- The function `std::sqrt`, through which `v.norm()` is computed. -/
  sqrt : R → R
  /-- The function `std::asin`. -/
  asin : R → R
  /-- The matrix `so::kine::Orientation(Eigen::AngleAxisd(angle, axis)).toMatrix3()`. -/
  angleAxisToMatrix3 : R → Vector3 R → Matrix3 R

/-- Eigen's `v.norm()`. -/
def norm {R : Type} [Field R] (lib : Lib R) (v : Vector3 R) : R :=
  lib.sqrt (v 0 * v 0 + v 1 * v 1 + v 2 * v 2)

/-- The type `so::Matrix6`. -/
abbrev Matrix6 (R : Type) := Matrix (Fin 6) (Fin 6) R

/-- The type `so::Matrix12`. -/
abbrev Matrix12 (R : Type) := Matrix (Fin 12) (Fin 12) R

/-- A call made to the estimator `observer_`, with its arguments in the order of the call site. -/
inductive ObserverCall (R : Type) where
  | setWorldCentroidStateKinematics (kine : Kinematics R) (resetCovariance : Bool)
  | setStateUnmodeledWrench (wrench : Vector6 R) (resetCovariance : Bool)
  | setGyroBias (bias : Vector3 R) (numberOfIMU : Nat) (resetCovariance : Bool)
  | setStateContact (contactNbr : Int) (worldContactRefKine : Kinematics R) (contactWrench : Vector6 R)
      (resetCovariance : Bool)
  | addContact (worldContactKineRef : Kinematics R) (initCovariance processCovariance : Matrix12 R)
      (contactNbr : Int) (linStiffness linDamping angStiffness angDamping : Matrix3 R)
  | updateContactWithWrenchSensor (wrench : Vector6 R) (wrenchCovariance : Matrix6 R)
      (fbContactKine : Kinematics R) (contactNbr : Int)
  | updateContactWithNoSensor (fbContactKine : Kinematics R) (contactNbr : Int)
  | removeContact (contactNbr : Int)

/-- The three values of `estimationState_`: `noIssue` is the state Nominal, `invincibilityFrame` the
state Recovering and `errorDetected` the state FaultDetected. -/
inductive EstimationState where
  | noIssue
  | invincibilityFrame
  | errorDetected
  deriving DecidableEq, Repr

/-- The two warnings of the `errorDetected` case of `run`. -/
inductive BackupWarning where
  | calledBeforeRequiredTime
  | calledAgainTooQuickly
  deriving DecidableEq, Repr

/-! ## The observer -/

/-- The members of `MCKineticsObserver` the modelled functions read or write. `contacts` is
`contactsManager_.contacts()` in iteration order, `contactsDetection` is
`contactsManager_.getContactsDetection()`, `nanDetected_` is `observer_.nanDetected_` and
`tiltBackupFbKinematics_` is `tiltObserver_.backupFbKinematics_`. -/
structure MCKineticsObserver (R : Type) where
  odometryType_ : OdometryType
  contactsDetection : ContactsDetection
  linStiffness_ : Matrix3 R
  linDamping_ : Matrix3 R
  angStiffness_ : Matrix3 R
  angDamping_ : Matrix3 R
  contactProcessCovariance_ : Matrix12 R
  contactSensorCovariance_ : Matrix6 R
  contactInitCovarianceFirstContacts_ : Matrix12 R
  contactInitCovarianceNewContacts_ : Matrix12 R
  contactInitCovarianceFirstContacts_flat_ : Matrix12 R
  contactInitCovarianceNewContacts_flat_ : Matrix12 R
  forceSensorsAsInput_ : List String
  listIMUs_ : List (IMU R)
  contacts : List (String × KoContactWithSensor R)
  fbBackupCapacity_ : Int
  invincibilityFrame_ : Int
  X_0_fb_ : PTransformd R
  v_fb_0_ : MotionVecd R
  a_fb_0_ : MotionVecd R
  lastBackupIter_ : Int
  invincibilityIter_ : Int
  estimationState_ : EstimationState
  koBackupFbKinematics_ : CircularBuffer (Kinematics R)
  tiltBackupFbKinematics_ : CircularBuffer (Kinematics R)
  nanDetected_ : Bool

namespace MCKineticsObserver

variable {R : Type} [LinearOrderedField R] [FloorRing R]

/-- The function `MCKineticsObserver::updateContactForceMeasurement` (lines 883-903): stores the
measured wrench in `contactWrenchVector_`, expressed in the frame of the contact when the kinematics of
the sensor in that frame are given (`contactSensorKine`, `none` for `nullptr`). -/
def updateContactForceMeasurement (contact : KoContactWithSensor R) (measuredWrench : ForceVecd R)
    (contactSensorKine : Option (Kinematics R)) : KoContactWithSensor R :=
  match contactSensorKine with
  | none =>
    { contact with contactWrenchVector_ := ⟨measuredWrench.force, measuredWrench.couple⟩ }
  | some k =>
    let seg0 := k.orientation.mulVec measuredWrench.force
    { contact with
      contactWrenchVector_ := ⟨seg0, k.orientation.mulVec measuredWrench.couple + cross k.position seg0⟩ }

/-- The function `MCKineticsObserver::getContactWorldKinematics` (lines 815-881): the kinematics of the
contact in the world frame of `currentRobot`, and the contact, whose wrench (and `contactSensorKine_`) is
refreshed when a measured wrench is passed. The value first assigned from `surfacePose` at line 857 is
overwritten at line 870 and is not computed here. -/
def getContactWorldKinematics (lib : Lib R) (contactsDetection : ContactsDetection)
    (contact : KoContactWithSensor R) (currentRobot : Robot R) (fs : ForceSensor R)
    (measuredWrench : Option (ForceVecd R)) : Kinematics R × KoContactWithSensor R :=
  let bodyContactSensorKine := lib.fromSva fs.X_p_f
  let worldBodyKine :=
    lib.fromSvaVel (currentRobot.bodyPosW fs.parentBody) (currentRobot.bodyVelW fs.parentBody)
  let worldSensorKine := lib.kineMul worldBodyKine bodyContactSensorKine
  if contactsDetection = ContactsDetection.Sensors then
    match measuredWrench with
    | none => (worldSensorKine, contact)
    | some w => (worldSensorKine, updateContactForceMeasurement contact w none)
  else
    let contactSurface := currentRobot.surface contact.surface_
    let bodyContactKine := lib.fromSva contactSurface.X_b_s
    let worldSurfaceBodyKine :=
      lib.fromSvaVel (currentRobot.bodyPosW contactSurface.bodyName)
        (currentRobot.bodyVelW contactSurface.bodyName)
    let worldContactKine := lib.kineMul worldSurfaceBodyKine bodyContactKine
    match measuredWrench with
    | none => (worldContactKine, contact)
    | some w =>
      let nc_contact :=
        { contact with contactSensorKine_ := lib.kineMul (lib.kineInverse worldContactKine) worldSensorKine }
      (worldContactKine, updateContactForceMeasurement nc_contact w (some nc_contact.contactSensorKine_))

/-- The function `MCKineticsObserver::getOdometryWorldContactRest` (lines 905-965): writes the rest
position and orientation of the contact into `worldContactKineRef`. `getGlobalKinematicsOf` is the answer
of `observer_.getGlobalKinematicsOf` at the time of the call. The call of `getContactWorldKinematics` in
the Flat branch has no measured wrench, changes nothing and its result is unused. Where the program
divides by a zero norm (an IEEE NaN), the field division of the model gives zero. -/
def getOdometryWorldContactRest (lib : Lib R) (self : MCKineticsObserver R)
    (getGlobalKinematicsOf : Kinematics R → Kinematics R) (contact : KoContactWithSensor R)
    (worldContactKineRef : Kinematics R) : Kinematics R :=
  let contactForceMeas := contact.contactWrenchVector_.seg0
  let contactTorqueMeas := contact.contactWrenchVector_.seg3
  let worldContactKine := getGlobalKinematicsOf contact.fbContactKine_
  let position : Vector3 R :=
    (worldContactKine.orientation * inverse self.linStiffness_).mulVec
        (contactForceMeas
          + (worldContactKine.orientation.transpose * self.linDamping_).mulVec worldContactKine.linVel)
      + worldContactKine.position
  let flexRotDiff : Vector3 R :=
    (((-2 : R) • worldContactKine.orientation) * inverse self.angStiffness_).mulVec
      (contactTorqueMeas
        + (worldContactKine.orientation.transpose * self.angDamping_).mulVec worldContactKine.angVel)
  let flexRotAxis := vdiv flexRotDiff (norm lib flexRotDiff)
  let diffNorm0 := norm lib flexRotDiff / 2
  let diffNorm : R := if diffNorm0 > 1 then 1 else if diffNorm0 < -1 then -1 else diffNorm0
  let flexRotAngle := lib.asin diffNorm
  let flexRotMatrix := lib.angleAxisToMatrix3 flexRotAngle flexRotAxis
  let orientation := flexRotMatrix.transpose * worldContactKine.orientation
  if self.odometryType_ = OdometryType.Flat then
    { worldContactKineRef with position := Function.update position 2 0, orientation := orientation }
  else
    { worldContactKineRef with position := position, orientation := orientation }

/-- The function `MCKineticsObserver::setNewContact` (lines 967-1025), without its log entries: the
contact after the call and the calls made to the estimator. `robot` is `ctl.robot(robot_)`. -/
def setNewContact (lib : Lib R) (self : MCKineticsObserver R)
    (getGlobalKinematicsOf : Kinematics R → Kinematics R) (robot inputRobot : Robot R)
    (contact : KoContactWithSensor R) (initCovariance : Matrix12 R) :
    KoContactWithSensor R × List (ObserverCall R) :=
  let measuredWrench := lib.wrenchWithoutGravity (robot.forceSensor contact.forceSensorName_) inputRobot
  let forceSensor := robot.forceSensor contact.forceSensorName_
  let r := getContactWorldKinematics lib self.contactsDetection contact inputRobot forceSensor
    (some measuredWrench)
  let contact1 := { r.2 with fbContactKine_ := r.1 }
  let worldContactKineRef :=
    if self.odometryType_ ≠ OdometryType.None then
      getOdometryWorldContactRest lib self getGlobalKinematicsOf contact1 Kinematics.zeroKinematics
    else
      (getContactWorldKinematics lib self.contactsDetection contact1 robot forceSensor none).1
  let add := ObserverCall.addContact worldContactKineRef initCovariance self.contactProcessCovariance_
    contact1.id_ self.linStiffness_ self.linDamping_ self.angStiffness_ self.angDamping_
  if contact1.sensorEnabled_ then
    (contact1, [add, ObserverCall.updateContactWithWrenchSensor contact1.contactWrenchVector_
      self.contactSensorCovariance_ contact1.fbContactKine_ contact1.id_])
  else
    (contact1, [add, ObserverCall.updateContactWithNoSensor contact1.fbContactKine_ contact1.id_])

/-- The backup part of `MCKineticsObserver::configure` (lines 279-287). `backupInterval` is the option of
that name (`none` when it is absent, the default is 1) and `timeStep` is `ctl.timeStep`. The two
divisions are divisions of `double`: the quotient is rounded (`roundDouble`) before `int(...)` truncates
it; the `int` `backupInterval` and the literal `1.5` are converted without error. -/
def configureBackup (backupInterval : Option Int) (timeStep : R) (self : MCKineticsObserver R) :
    MCKineticsObserver R :=
  let backupInterval : Int := backupInterval.getD 1
  let fbBackupCapacity := toInt (roundDouble ((backupInterval : R) / timeStep))
  { self with
    fbBackupCapacity_ := fbBackupCapacity
    koBackupFbKinematics_ := self.koBackupFbKinematics_.set_capacity fbBackupCapacity
    tiltBackupFbKinematics_ := self.tiltBackupFbKinematics_.set_capacity fbBackupCapacity
    invincibilityFrame_ := toInt (roundDouble ((3 / 2 : R) / timeStep)) }

/-- The initialisation of variables in `MCKineticsObserver::reset` (lines 361-365 and 375);
`realRobotPosW` is `realRobot.posW()`. -/
def reset (realRobotPosW : PTransformd R) (self : MCKineticsObserver R) : MCKineticsObserver R :=
  { self with
    X_0_fb_ := ⟨1, realRobotPosW.translation⟩
    v_fb_0_ := MotionVecd.Zero
    a_fb_0_ := MotionVecd.Zero
    lastBackupIter_ := 0
    invincibilityIter_ := 0 }

/-- What one call of `run` obtains from its collaborators. -/
structure Tick (R : Type) where
  /-- The value `ctl.timeStep`. -/
  timeStep : R
  /-- The value `logger.t()`. -/
  loggerT : R
  /-- The robot `ctl.robot(robot_)`. -/
  robot : Robot R
  /-- The robot `inputRobot` once `update(inputRobot)` has placed its floating base at the given pose and
  velocity and `forwardKinematics()` has run. -/
  inputRobot : PTransformd R → MotionVecd R → Robot R
  /-- The effect of `updateContacts(ctl, logger)` (line 433) on the registry of contacts. -/
  updateContacts : List (String × KoContactWithSensor R) → List (String × KoContactWithSensor R)
  /-- The kinematics `worldImuKine` of line 807 for the IMU of the given name. -/
  worldImuKine : String → Kinematics R
  /-- The flag `observer_.nanDetected_` as line 453 reads it, after `observer_.update()`. -/
  nanDetected : Bool
  /-- The answer of `observer_.getGlobalKinematicsOf`, which may depend on the calls this tick has
  already made to the estimator. -/
  getGlobalKinematicsOf : List (ObserverCall R) → Kinematics R → Kinematics R
  /-- The call `tiltObserver_.applyLastTransformation`. -/
  applyLastTransformation : Kinematics R → Kinematics R
  /-- The call `tiltObserver_.backupFb(&koBackupFbKinematics_)`: its result and the buffer it leaves. -/
  backupFb : CircularBuffer (Kinematics R) → Kinematics R × CircularBuffer (Kinematics R)
  /-- What `koBackupFbKinematics_.back()` yields if the buffer is empty (outside its contract). -/
  backOfEmpty : Kinematics R

/-- What one call of `run` leaves: the observer, the calls made to the estimator from line 453 on, the
warnings logged, and whether every `back()` was made on a non-empty buffer. -/
structure RunResult (R : Type) where
  self : MCKineticsObserver R
  calls : List (ObserverCall R)
  warnings : List BackupWarning
  backInContract : Bool

/-- Lines 453-455 of `run`: the state of the tick. -/
def selectEstimationState (nanDetected : Bool) (invincibilityIter invincibilityFrame : Int) :
    EstimationState :=
  if nanDetected then EstimationState.errorDetected
  else if invincibilityIter > 0 ∧ invincibilityIter < invincibilityFrame then
    EstimationState.invincibilityFrame
  else EstimationState.noIssue

/-- The body of the loops over `contactsManager_.contacts()` (lines 524-556 and 617-647) for one
contact: the contact after the iteration and the calls it made. `calls` are the calls made so far in the
tick, `sensorRobot` is the robot whose force sensor is taken (`robot` at line 529, `inputRobot` at line
622) and `resetCovariance` is the last argument of `setStateContact`. -/
def resyncContact (lib : Lib R) (t : Tick R) (self : MCKineticsObserver R)
    (sensorRobot inputRobot : Robot R) (resetCovariance : Bool) (calls : List (ObserverCall R))
    (contact : KoContactWithSensor R) : KoContactWithSensor R × List (ObserverCall R) :=
  if !contact.isSet_ then (contact, [])
  else
    let forceSensor := sensorRobot.forceSensor contact.forceSensorName_
    let contact1 :=
      if self.contactsDetection = ContactsDetection.Sensors then
        updateContactForceMeasurement contact (lib.wrenchWithoutGravity forceSensor inputRobot) none
      else
        updateContactForceMeasurement contact (lib.wrenchWithoutGravity forceSensor inputRobot)
          (some contact.contactSensorKine_)
    let newWorldContactKineRef :=
      if self.odometryType_ ≠ OdometryType.None then
        getOdometryWorldContactRest lib self (t.getGlobalKinematicsOf calls) contact1
          Kinematics.zeroKinematics
      else
        (getContactWorldKinematics lib self.contactsDetection contact1 t.robot forceSensor none).1
    (contact1, [ObserverCall.setStateContact contact1.id_ newWorldContactKineRef
      contact1.contactWrenchVector_ resetCovariance])

/-- The loops over `contactsManager_.contacts()` (lines 524-556 and 617-647): the registry after the
loop and the calls made so far, those of the loop included. -/
def resyncContacts (lib : Lib R) (t : Tick R) (self : MCKineticsObserver R)
    (sensorRobot inputRobot : Robot R) (resetCovariance : Bool) :
    List (String × KoContactWithSensor R) → List (ObserverCall R) →
      List (String × KoContactWithSensor R) × List (ObserverCall R)
  | [], calls => ([], calls)
  | (name, contact) :: rest, calls =>
    let r := resyncContact lib t self sensorRobot inputRobot resetCovariance calls contact
    let rs := resyncContacts lib t self sensorRobot inputRobot resetCovariance rest (calls ++ r.2)
    ((name, r.1) :: rs.1, rs.2)

/-- The loop over `listIMUs_` of lines 610-615, from index `i` on. -/
def gyroBiasCalls (i : Nat) : List (IMU R) → List (ObserverCall R)
  | [] => []
  | imu :: rest => ObserverCall.setGyroBias imu.gyroBias i true :: gyroBiasCalls (i + 1) rest

/-- The function `MCKineticsObserver::run` from the update of the contacts on. Of lines 397-448 the model
keeps what they leave for the rest of the tick: the registry of contacts, the kinematics of the IMUs
and the fault flag of the estimator. Lines 659-699 (debug logs, display robot) are not modelled; the
function returns `true`. -/
def run (lib : Lib R) (t : Tick R) (self : MCKineticsObserver R) : RunResult R :=
  let contacts := t.updateContacts self.contacts
  let listIMUs := self.listIMUs_.map (fun imu => { imu with fbImuKine := t.worldImuKine imu.name })
  let self : MCKineticsObserver R :=
    { self with contacts := contacts, listIMUs_ := listIMUs, nanDetected_ := t.nanDetected }
  let estimationState :=
    selectEstimationState self.nanDetected_ self.invincibilityIter_ self.invincibilityFrame_
  let self : MCKineticsObserver R := { self with estimationState_ := estimationState }
  match estimationState with
  | EstimationState.noIssue =>
    let fbFb : Kinematics R := Kinematics.zeroKinematics
    let mcko_K_0_fb := t.getGlobalKinematicsOf [] fbFb
    { self :=
        { self with
          koBackupFbKinematics_ := self.koBackupFbKinematics_.push_back mcko_K_0_fb
          X_0_fb_ := ⟨mcko_K_0_fb.orientation.transpose, mcko_K_0_fb.position⟩
          v_fb_0_ := ⟨mcko_K_0_fb.angVel, mcko_K_0_fb.linVel⟩
          a_fb_0_ := ⟨mcko_K_0_fb.angAcc, mcko_K_0_fb.linAcc⟩ }
      calls := []
      warnings := []
      backInContract := true }
  | EstimationState.invincibilityFrame =>
    let mcko_K_0_fb := t.applyLastTransformation (self.koBackupFbKinematics_.back t.backOfEmpty)
    let X_0_fb : PTransformd R := ⟨mcko_K_0_fb.orientation.transpose, mcko_K_0_fb.position⟩
    let a_fb_0 : MotionVecd R :=
      ⟨vdiv (mcko_K_0_fb.angVel - self.v_fb_0_.angular) t.timeStep,
        vdiv (mcko_K_0_fb.linVel - self.v_fb_0_.linear) t.timeStep⟩
    let v_fb_0 : MotionVecd R := ⟨mcko_K_0_fb.angVel, mcko_K_0_fb.linVel⟩
    let invincibilityIter : Int := self.invincibilityIter_ + 1
    let self1 : MCKineticsObserver R :=
      { self with
        koBackupFbKinematics_ := self.koBackupFbKinematics_.push_back mcko_K_0_fb
        X_0_fb_ := X_0_fb
        a_fb_0_ := a_fb_0
        v_fb_0_ := v_fb_0
        invincibilityIter_ := invincibilityIter }
    if invincibilityIter = self.invincibilityFrame_ then
      let inputRobot := t.inputRobot X_0_fb v_fb_0
      let newWorldCentroidKine : Kinematics R :=
        { Kinematics.zeroKinematics with
          position := inputRobot.com
          orientation := mcko_K_0_fb.orientation
          linVel := inputRobot.comVelocity
          angVel := mcko_K_0_fb.angVel }
      let calls := [ObserverCall.setWorldCentroidStateKinematics newWorldCentroidKine false]
      let rs := resyncContacts lib t self1 t.robot inputRobot false self1.contacts calls
      { self := { self1 with contacts := rs.1 }
        calls := rs.2
        warnings := []
        backInContract := !self.koBackupFbKinematics_.empty }
    else
      { self := self1
        calls := []
        warnings := []
        backInContract := !self.koBackupFbKinematics_.empty }
  | EstimationState.errorDetected =>
    let warnings1 :=
      if t.loggerT / t.timeStep < (self.fbBackupCapacity_ : R) then
        [BackupWarning.calledBeforeRequiredTime]
      else []
    let warnings2 :=
      if t.loggerT / t.timeStep - (self.lastBackupIter_ : R) < (self.fbBackupCapacity_ : R) then
        [BackupWarning.calledAgainTooQuickly]
      else []
    let pushed := self.koBackupFbKinematics_.push_back Kinematics.zeroKinematics
    let backup := t.backupFb pushed
    let mcko_K_0_fb := backup.1
    let X_0_fb : PTransformd R := ⟨mcko_K_0_fb.orientation.transpose, mcko_K_0_fb.position⟩
    let a_fb_0 : MotionVecd R :=
      ⟨vdiv (mcko_K_0_fb.angVel - self.v_fb_0_.angular) t.timeStep,
        vdiv (mcko_K_0_fb.linVel - self.v_fb_0_.linear) t.timeStep⟩
    let v_fb_0 : MotionVecd R := ⟨mcko_K_0_fb.angVel, mcko_K_0_fb.linVel⟩
    let inputRobot := t.inputRobot X_0_fb v_fb_0
    let newWorldCentroidKine : Kinematics R :=
      { Kinematics.zeroKinematics with
        position := inputRobot.com
        linVel := inputRobot.comVelocity
        orientation := mcko_K_0_fb.orientation
        angVel := mcko_K_0_fb.angVel }
    let calls :=
      [ObserverCall.setWorldCentroidStateKinematics newWorldCentroidKine true,
        ObserverCall.setStateUnmodeledWrench Vector6.Zero true]
        ++ gyroBiasCalls 0 self.listIMUs_
    let self1 : MCKineticsObserver R :=
      { self with
        koBackupFbKinematics_ := backup.2
        X_0_fb_ := X_0_fb
        a_fb_0_ := a_fb_0
        v_fb_0_ := v_fb_0 }
    let rs := resyncContacts lib t self1 inputRobot inputRobot true self1.contacts calls
    { self :=
        { self1 with
          contacts := rs.1
          invincibilityIter_ := 1
          lastBackupIter_ := toInt (t.loggerT / t.timeStep)
          nanDetected_ := false }
      calls := rs.2
      warnings := warnings1 ++ warnings2
      backInContract := true }

/-- The observers after each of the ticks `ts`, run in order from `self`. -/
def runTicks (lib : Lib R) : List (Tick R) → MCKineticsObserver R → List (RunResult R)
  | [], _ => []
  | t :: ts, self => run lib t self :: runTicks lib ts (run lib t self).self

/-- The counter `invincibilityIter_` after a tick, from the state of the tick and the counter before it
(lines 503 and 650; the `noIssue` case does not write it). -/
def nextInvincibilityIter (st : EstimationState) (invincibilityIter : Int) : Int :=
  match st with
  | EstimationState.noIssue => invincibilityIter
  | EstimationState.invincibilityFrame => invincibilityIter + 1
  | EstimationState.errorDetected => 1

/-- The value of `estimationState_` on each of the ticks `ts`, run in order from `self`. -/
def estimationStates (lib : Lib R) (ts : List (Tick R)) (self : MCKineticsObserver R) :
    List EstimationState :=
  (runTicks lib ts self).map (fun r => r.self.estimationState_)

/-- The states selected by lines 453-455 along a sequence of values of the fault flag, the counter being
updated as by `run`. -/
def selectedStates (invincibilityFrame : Int) : Int → List Bool → List EstimationState
  | _, [] => []
  | invincibilityIter, nan :: nans =>
    selectEstimationState nan invincibilityIter invincibilityFrame
      :: selectedStates invincibilityFrame
          (nextInvincibilityIter (selectEstimationState nan invincibilityIter invincibilityFrame)
            invincibilityIter) nans

/-- Whether the call is a `setStateContact`. -/
def isSetStateContact : ObserverCall R → Bool
  | ObserverCall.setStateContact _ _ _ _ => true
  | _ => false

/-- The observer after all the ticks `ts`, run in order from `self`. -/
def runAll (lib : Lib R) : List (Tick R) → MCKineticsObserver R → MCKineticsObserver R
  | [], self => self
  | t :: ts, self => runAll lib ts (run lib t self).self

/-- The argument of the one call `koBackupFbKinematics_.push_back(...)` that `run` makes in the state of
the tick: line 471 (`noIssue`), line 491 (`invincibilityFrame`) or line 583 (`errorDetected`). -/
def pushedEntry (t : Tick R) (self : MCKineticsObserver R) : Kinematics R :=
  match selectEstimationState t.nanDetected self.invincibilityIter_ self.invincibilityFrame_ with
  | EstimationState.noIssue => t.getGlobalKinematicsOf [] Kinematics.zeroKinematics
  | EstimationState.invincibilityFrame =>
    t.applyLastTransformation (self.koBackupFbKinematics_.back t.backOfEmpty)
  | EstimationState.errorDetected => Kinematics.zeroKinematics

/-- The arguments of the call if it is a `setGyroBias`. -/
def gyroBiasArgs : ObserverCall R → Option (Vector3 R × Nat × Bool)
  | ObserverCall.setGyroBias bias numberOfIMU resetCovariance =>
    some (bias, numberOfIMU, resetCovariance)
  | _ => none

/-- The arguments of the call if it is a `setStateUnmodeledWrench`. -/
def unmodeledWrenchArgs : ObserverCall R → Option (Vector6 R × Bool)
  | ObserverCall.setStateUnmodeledWrench wrench resetCovariance => some (wrench, resetCovariance)
  | _ => none

/-- Modelled from the spec: the constructor `IMU(id, name)` of `measurements::IMU`, whose declaration is
not among the sources. The spec has the gyroscope bias reset to zero on a fault, and the source resets
it to the member `gyroBias` of the IMU, which it never writes: a new IMU holds a zero bias. -/
def IMU.create (id : Int) (name : String) : IMU R :=
  { id := id, name := name, gyroBias := 0, fbImuKine := Kinematics.zeroKinematics }

/-- The loop of line 35 of `configure`, from index `i` on. -/
def imusFrom (i : Nat) : List String → List (IMU R)
  | [] => []
  | name :: names => IMU.create (i : Int) name :: imusFrom (i + 1) names

/-- Lines 31-37 of `MCKineticsObserver::configure`: the list of IMUs, from the option `imuNames` or,
when it is empty, from the body sensor of the robot (`bodySensorName`). -/
def configureIMUs (imuNames : List String) (bodySensorName : String) (self : MCKineticsObserver R) :
    MCKineticsObserver R :=
  if !imuNames.isEmpty then { self with listIMUs_ := imusFrom 0 imuNames }
  else { self with listIMUs_ := [IMU.create 0 bodySensorName] }

/-- Lines 933-936 of `getOdometryWorldContactRest`: the vector `flexRotDiff`; `worldContactKine` is the
kinematics of the contact given by the estimator (line 922). -/
def flexRotDiff (self : MCKineticsObserver R) (worldContactKine : Kinematics R)
    (contact : KoContactWithSensor R) : Vector3 R :=
  (((-2 : R) • worldContactKine.orientation) * inverse self.angStiffness_).mulVec
    (contact.contactWrenchVector_.seg3
      + (worldContactKine.orientation.transpose * self.angDamping_).mulVec worldContactKine.angVel)

/-- Line 939 of `getOdometryWorldContactRest`: the axis `flexRotAxis`. -/
def flexRotAxis (lib : Lib R) (self : MCKineticsObserver R) (worldContactKine : Kinematics R)
    (contact : KoContactWithSensor R) : Vector3 R :=
  vdiv (flexRotDiff self worldContactKine contact) (norm lib (flexRotDiff self worldContactKine contact))

/-- Lines 941-946 of `getOdometryWorldContactRest`: the angle `flexRotAngle`. -/
def flexRotAngle (lib : Lib R) (self : MCKineticsObserver R) (worldContactKine : Kinematics R)
    (contact : KoContactWithSensor R) : R :=
  let diffNorm0 := norm lib (flexRotDiff self worldContactKine contact) / 2
  let diffNorm : R := if diffNorm0 > 1 then 1 else if diffNorm0 < -1 then -1 else diffNorm0
  lib.asin diffNorm

/-- The kinematics assigned to `contact.fbContactKine_` at lines 988 and 1045: the result of
`getContactWorldKinematics(contact, inputRobot, forceSensor, &measuredWrench)`. -/
def fbContactKineOf (lib : Lib R) (self : MCKineticsObserver R) (robot inputRobot : Robot R)
    (contact : KoContactWithSensor R) : Kinematics R :=
  (getContactWorldKinematics lib self.contactsDetection contact inputRobot
    (robot.forceSensor contact.forceSensorName_)
    (some (lib.wrenchWithoutGravity (robot.forceSensor contact.forceSensorName_) inputRobot))).1

/-- The function `MCKineticsObserver::updateContact` (lines 1027-1054): the contact after the call and
the call made to the estimator. `robot` is `ctl.robot(robot_)`. -/
def updateContact (lib : Lib R) (self : MCKineticsObserver R) (robot inputRobot : Robot R)
    (contact : KoContactWithSensor R) : KoContactWithSensor R × List (ObserverCall R) :=
  let measuredWrench := lib.wrenchWithoutGravity (robot.forceSensor contact.forceSensorName_) inputRobot
  let forceSensor := robot.forceSensor contact.forceSensorName_
  let r := getContactWorldKinematics lib self.contactsDetection contact inputRobot forceSensor
    (some measuredWrench)
  let contact1 := { r.2 with fbContactKine_ := r.1 }
  if contact1.sensorEnabled_ then
    (contact1, [ObserverCall.updateContactWithWrenchSensor contact1.contactWrenchVector_
      self.contactSensorCovariance_ contact1.fbContactKine_ contact1.id_])
  else
    (contact1, [ObserverCall.updateContactWithNoSensor contact1.fbContactKine_ contact1.id_])

/-- Whether the call is one of the two update calls of a contact, `updateContactWithWrenchSensor` or
`updateContactWithNoSensor`. -/
def isContactUpdate : ObserverCall R → Bool
  | ObserverCall.updateContactWithWrenchSensor _ _ _ _ => true
  | ObserverCall.updateContactWithNoSensor _ _ => true
  | _ => false

/-- Whether the call is an `addContact`. -/
def isAddContact : ObserverCall R → Bool
  | ObserverCall.addContact _ _ _ _ _ _ _ _ => true
  | _ => false

/-- The argument `initCovariance` of the call if it is an `addContact`. -/
def initCovarianceArg : ObserverCall R → Option (Matrix12 R)
  | ObserverCall.addContact _ initCovariance _ _ _ _ _ _ => some initCovariance
  | _ => none

/-- Modelled from the spec: the call `contactsManager_.findContact(name)` of the contacts manager, which
is not among the sources. The registry is a keyed collection of contacts (spec, section 2); the call
yields the contact stored under the key `name`, `none` standing for the null pointer. -/
def findContact (contacts : List (String × KoContactWithSensor R)) (name : String) :
    Option (KoContactWithSensor R) :=
  match contacts with
  | [] => none
  | (key, contact) :: rest => if key = name then some contact else findContact rest name

/-- The assignment `contact->sensorEnabled_ = false` (lines 90 and 116) through the pointer that
`findContact(name)` returned. -/
def disableFoundContactSensor (name : String) :
    List (String × KoContactWithSensor R) → List (String × KoContactWithSensor R)
  | [] => []
  | (key, contact) :: rest =>
    if key = name then (key, { contact with sensorEnabled_ := false }) :: rest
    else (key, contact) :: disableFoundContactSensor name rest

/-- The loop over `contactSensorsDisabledInit` of lines 82-91, repeated at lines 108-117: the registry
after the loop, or the message of `error_and_throw`. -/
def disableContactSensors :
    List String → List (String × KoContactWithSensor R) →
      Except String (List (String × KoContactWithSensor R))
  | [], contacts => Except.ok contacts
  | contactSensorDisabledInit :: rest, contacts =>
    match findContact contacts contactSensorDisabledInit with
    | none =>
      Except.error ("The force sensor " ++ contactSensorDisabledInit
        ++ " set as disabled on initialization does not exist.")
    | some _ => disableContactSensors rest (disableFoundContactSensor contactSensorDisabledInit contacts)

/-- The configuration of the contacts manager in `MCKineticsObserver::configure` (lines 58-130), as far
as the registry is concerned. `contactsDetectionMethod` is the policy read from the configuration,
`initContacts` the registry that `contactsManager_.init` leaves and `contactSensorsDisabledInit` the
option of that name (empty when it is absent). The three tests of the source are on the same value, so
that at most one of the branches runs; `init` receives the configuration of the policy, which the
manager records. The result is the observer, or the message of the exception that ends `configure`. -/
def configureContacts (contactsDetectionMethod : ContactsDetection)
    (initContacts : List (String × KoContactWithSensor R)) (contactSensorsDisabledInit : List String)
    (self : MCKineticsObserver R) : Except String (MCKineticsObserver R) :=
  if contactsDetectionMethod = ContactsDetection.Surfaces then
    match disableContactSensors contactSensorsDisabledInit initContacts with
    | Except.error e => Except.error e
    | Except.ok contacts =>
      Except.ok { self with contactsDetection := contactsDetectionMethod, contacts := contacts }
  else if contactsDetectionMethod = ContactsDetection.Sensors then
    match disableContactSensors contactSensorsDisabledInit initContacts with
    | Except.error e => Except.error e
    | Except.ok contacts =>
      Except.ok { self with contactsDetection := contactsDetectionMethod, contacts := contacts }
  else if contactsDetectionMethod = ContactsDetection.Solver then
    Except.ok { self with contactsDetection := contactsDetectionMethod, contacts := initContacts }
  else Except.ok self

/-- Lines 178-204 of `MCKineticsObserver::configure`: the four initial covariance matrices of the
contacts. The arguments are the variances read from `ekfStateProcessVariances`, for the position, the
orientation, the force and the torque of the first contacts and of the new contacts. -/
def configureContactInitCovariances
    (positionFirst oriFirst forceFirst torqueFirst positionNew oriNew forceNew torqueNew : Vector3 R)
    (self : MCKineticsObserver R) : MCKineticsObserver R :=
  { self with
    contactInitCovarianceFirstContacts_ :=
      assignDiagonalBlock
        (assignDiagonalBlock
          (assignDiagonalBlock (assignDiagonalBlock (0 : Matrix12 R) 0 positionFirst) 3 oriFirst)
          6 forceFirst)
        9 torqueFirst
    contactInitCovarianceFirstContacts_flat_ := 0
    contactInitCovarianceNewContacts_ :=
      assignDiagonalBlock
        (assignDiagonalBlock
          (assignDiagonalBlock (assignDiagonalBlock (0 : Matrix12 R) 0 positionNew) 3 oriNew)
          6 forceNew)
        9 torqueNew
    contactInitCovarianceNewContacts_flat_ := 0 }

/-- Lines 1058-1083 of `updateContacts`: the choice of the matrix `initCovariance` points to.
`numberOfSetContacts` is `observer_.getNumberOfSetContacts()`. The result is the observer, one of whose
flat matrices has been written in the Flat mode, and the matrix chosen. -/
def selectInitCovariance (numberOfSetContacts : Nat) (self : MCKineticsObserver R) :
    MCKineticsObserver R × Matrix12 R :=
  if numberOfSetContacts > 0 then
    if self.odometryType_ = OdometryType.Flat then
      let flat :=
        assignEntry
          (assignDiagonal self.contactInitCovarianceNewContacts_flat_
            self.contactInitCovarianceNewContacts_) 2 2 0
      ({ self with contactInitCovarianceNewContacts_flat_ := flat }, flat)
    else (self, self.contactInitCovarianceNewContacts_)
  else
    if self.odometryType_ = OdometryType.Flat then
      let flat :=
        assignEntry
          (assignDiagonal self.contactInitCovarianceFirstContacts_flat_
            self.contactInitCovarianceFirstContacts_) 2 2 0
      ({ self with contactInitCovarianceFirstContacts_flat_ := flat }, flat)
    else (self, self.contactInitCovarianceFirstContacts_)

/-- An invocation, by `contactsManager_.updateContacts`, of one of the callbacks that `updateContacts`
hands to it (lines 1085-1098), with the contact it is invoked on. The callback `onAddedContact` only
adds the contact to the GUI and is left out. -/
inductive ContactEvent (R : Type) where
  | onNewContact (contact : KoContactWithSensor R)
  | onMaintainedContact (contact : KoContactWithSensor R)
  | onRemovedContact (contact : KoContactWithSensor R)

/-- Modelled from the spec: the call `contactsManager_.updateContacts(...)` of line 1105, a function of
the contacts manager, which is not among the sources. By section 4.1 of the spec it invokes a callback
once for each contact of its sets of new, maintained and removed contacts; the invocations it makes
are given here, in their order, as `events`. The result holds the contacts as the callbacks leave them
and the calls made so far to the estimator, those of the callbacks included. -/
def dispatchContactEvents (lib : Lib R) (self : MCKineticsObserver R)
    (getGlobalKinematicsOf : List (ObserverCall R) → Kinematics R → Kinematics R)
    (robot inputRobot : Robot R) (initCovariance : Matrix12 R) :
    List (ContactEvent R) → List (ObserverCall R) →
      List (KoContactWithSensor R) × List (ObserverCall R)
  | [], calls => ([], calls)
  | event :: rest, calls =>
    let r : KoContactWithSensor R × List (ObserverCall R) :=
      match event with
      | ContactEvent.onNewContact contact =>
        setNewContact lib self (getGlobalKinematicsOf calls) robot inputRobot contact initCovariance
      | ContactEvent.onMaintainedContact contact => updateContact lib self robot inputRobot contact
      | ContactEvent.onRemovedContact contact => (contact, [ObserverCall.removeContact contact.id_])
    let rs := dispatchContactEvents lib self getGlobalKinematicsOf robot inputRobot initCovariance rest
      (calls ++ r.2)
    (r.1 :: rs.1, rs.2)

/-- The function `MCKineticsObserver::updateContacts` (lines 1056-1106), without the log entries: the
observer, the contacts as the callbacks leave them and the calls made to the estimator.
`numberOfSetContacts` is `observer_.getNumberOfSetContacts()` when the function is entered and
`getGlobalKinematicsOf` the answer of the estimator after the calls made so far. -/
def updateContacts (lib : Lib R) (self : MCKineticsObserver R)
    (getGlobalKinematicsOf : List (ObserverCall R) → Kinematics R → Kinematics R)
    (robot inputRobot : Robot R) (numberOfSetContacts : Nat) (events : List (ContactEvent R)) :
    MCKineticsObserver R × List (KoContactWithSensor R) × List (ObserverCall R) :=
  let sel := selectInitCovariance numberOfSetContacts self
  let rs := dispatchContactEvents lib sel.1 getGlobalKinematicsOf robot inputRobot sel.2 events []
  (sel.1, rs.1, rs.2)

/-- The contacts on which the callback `onNewContact` is invoked. -/
def newContactsOf : List (ContactEvent R) → List (KoContactWithSensor R)
  | [] => []
  | ContactEvent.onNewContact contact :: rest => contact :: newContactsOf rest
  | _ :: rest => newContactsOf rest

/-- The function `MCKineticsObserver::addSensorsAsInputs` (lines 380-393): the two accumulators after
the loop over `forceSensorsAsInput_`. -/
def addSensorsAsInputs (lib : Lib R) (self : MCKineticsObserver R) (inputRobot measRobot : Robot R)
    (inputAddtionalForce inputAddtionalTorque : Vector3 R) : Vector3 R × Vector3 R :=
  self.forceSensorsAsInput_.foldl
    (fun acc fsName =>
      let measuredWrench := lib.worldWrenchWithoutGravity (measRobot.forceSensor fsName) inputRobot
      (acc.1 + measuredWrench.force, acc.2 + measuredWrench.couple))
    (inputAddtionalForce, inputAddtionalTorque)

/-- The function `MCKineticsObserver::inputAdditionalWrench` (lines 738-771; the debug logs of lines
773-788 are not modelled): the force and the moment passed to `observer_.setAdditionalWrench`. The test
`contactsManager_.contacts().count(name)` is zero when the registry holds no contact under `name`. -/
def inputAdditionalWrench (lib : Lib R) (self : MCKineticsObserver R) (inputRobot measRobot : Robot R) :
    Vector3 R × Vector3 R :=
  let afterContacts : Vector3 R × Vector3 R :=
    self.contacts.foldl
      (fun acc contactWithSensor =>
        let contact := contactWithSensor.2
        if !contact.isSet_ && contact.sensorEnabled_ then
          let measuredWrench :=
            lib.worldWrenchWithoutGravity (measRobot.forceSensor contact.forceSensorName_) inputRobot
          (acc.1 + measuredWrench.force, acc.2 + measuredWrench.couple)
        else acc)
      (0, 0)
  let afterSensors : Vector3 R × Vector3 R :=
    measRobot.forceSensors.foldl
      (fun acc forceSensor =>
        if (findContact self.contacts forceSensor.name).isNone then
          let measuredWrench := lib.worldWrenchWithoutGravity forceSensor inputRobot
          (acc.1 + measuredWrench.force, acc.2 + measuredWrench.couple)
        else acc)
      afterContacts
  addSensorsAsInputs lib self inputRobot measRobot afterSensors.1 afterSensors.2

/-- The force and the moment of `forceSensor.worldWrenchWithoutGravity(inputRobot)`. -/
def worldWrenchOf (lib : Lib R) (inputRobot : Robot R) (forceSensor : ForceSensor R) :
    Vector3 R × Vector3 R :=
  ((lib.worldWrenchWithoutGravity forceSensor inputRobot).force,
    (lib.worldWrenchWithoutGravity forceSensor inputRobot).couple)

/-- The additional wrench in the words of the specification of `inputAdditionalWrench`: the sum of the
wrenches of the force sensors of the robot that are not the sensor of a contact currently set, each
of them counted once. -/
def wrenchOfSensorsWithoutSetContact (lib : Lib R) (self : MCKineticsObserver R)
    (inputRobot measRobot : Robot R) : Vector3 R × Vector3 R :=
  ((measRobot.forceSensors.filter
      (fun forceSensor =>
        !self.contacts.any (fun e => e.2.isSet_ && decide (e.2.forceSensorName_ = forceSensor.name)))).map
    (worldWrenchOf lib inputRobot)).sum

end MCKineticsObserver

/-- The rotation matrix of `Eigen::AngleAxisd(angle, axis)` for a unit axis, from the sine `s` and the
cosine `c` of the angle: `c I + (1 - c) a aᵀ + s [a]×`. -/
def angleAxisMatrix {R : Type} [Field R] (s c : R) (a : Vector3 R) : Matrix3 R :=
  !![c + (1 - c) * a 0 * a 0, (1 - c) * a 0 * a 1 - s * a 2, (1 - c) * a 0 * a 2 + s * a 1;
     (1 - c) * a 1 * a 0 + s * a 2, c + (1 - c) * a 1 * a 1, (1 - c) * a 1 * a 2 - s * a 0;
     (1 - c) * a 2 * a 0 - s * a 1, (1 - c) * a 2 * a 1 + s * a 0, c + (1 - c) * a 2 * a 2]

/-! ## A concrete configuration on which the model is evaluated -/

namespace Demo

/-- A kinematics record whose fields are told apart by `x`. -/
def kine (x : ℚ) : Kinematics ℚ :=
  { position := ![x, 0, 0], orientation := 1, linVel := ![x, 1, 0], angVel := ![0, 0, x],
    linAcc := ![1, 0, x], angAcc := ![0, 1, x] }

/-- Stand-ins for the library functions. -/
def lib : Lib ℚ :=
  { kineMul := fun a b => { a with position := a.position + b.position }
    kineInverse := fun a => { a with position := -a.position }
    fromSva := fun p => { kine 0 with position := p.translation, orientation := p.rotation.transpose }
    fromSvaVel := fun p v =>
      { kine 0 with position := p.translation, orientation := p.rotation.transpose,
                    linVel := v.linear, angVel := v.angular }
    wrenchWithoutGravity := fun _ r => ⟨![0, 1, 0], r.com⟩
    worldWrenchWithoutGravity := fun _ r => ⟨![0, 1, 0], r.com⟩
    sqrt := fun x => x
    asin := fun x => x
    angleAxisToMatrix3 := fun _ _ => 1 }

/-- A robot with its centre of mass at height `z`. -/
def robot (z : ℚ) : Robot ℚ :=
  { forceSensor := fun n => ⟨n, "body", ⟨1, ![0, 0, 1]⟩⟩
    surface := fun _ => ⟨"body", ⟨1, ![0, 1, 0]⟩⟩
    surfacePose := fun _ => ⟨1, 0⟩
    bodyPosW := fun _ => ⟨1, ![0, 0, z]⟩
    bodyVelW := fun _ => ⟨0, 0⟩
    com := ![0, 0, z]
    comVelocity := 0
    forceSensors := [⟨"LeftFoot", "body", ⟨1, ![0, 0, 1]⟩⟩, ⟨"RightFoot", "body", ⟨1, ![0, 0, 1]⟩⟩] }

/-- A contact of the registry. -/
def contact (id : Int) (name : String) (isSet : Bool) : KoContactWithSensor ℚ :=
  { id_ := id, name_ := name, surface_ := name, isSet_ := isSet, wasAlreadySet_ := isSet,
    forceSensorName_ := name, wrenchInCentroid_ := ⟨0, 0⟩, forceNorm_ := 0, sensorEnabled_ := true,
    sensorWasEnabled_ := false, contactWrenchVector_ := ⟨![0, 0, 5], 0⟩,
    sensorAttachedToSurface_ := true, fbContactKine_ := kine 1, contactSensorKine_ := kine 0 }

/-- An observer with two contacts, the first one set, one IMU, a history buffer of capacity 3 holding
one entry, and the given window length and counter. -/
def observer (invincibilityFrame invincibilityIter : Int) : MCKineticsObserver ℚ :=
  { odometryType_ := OdometryType.None
    contactsDetection := ContactsDetection.Sensors
    linStiffness_ := 1, linDamping_ := 1, angStiffness_ := 1, angDamping_ := 1
    contactProcessCovariance_ := 0
    contactSensorCovariance_ := 0
    contactInitCovarianceFirstContacts_ := 0
    contactInitCovarianceNewContacts_ := 0
    contactInitCovarianceFirstContacts_flat_ := 0
    contactInitCovarianceNewContacts_flat_ := 0
    forceSensorsAsInput_ := []
    listIMUs_ := [⟨0, "Accelerometer", 0, kine 0⟩]
    contacts := [("LeftFoot", contact 0 "LeftFoot" true), ("RightFoot", contact 1 "RightFoot" false)]
    fbBackupCapacity_ := 3
    invincibilityFrame_ := invincibilityFrame
    X_0_fb_ := PTransformd.Identity
    v_fb_0_ := ⟨![0, 0, 1], ![1, 0, 0]⟩
    a_fb_0_ := MotionVecd.Zero
    lastBackupIter_ := 0
    invincibilityIter_ := invincibilityIter
    estimationState_ := EstimationState.noIssue
    koBackupFbKinematics_ := ⟨3, [kine 2]⟩
    tiltBackupFbKinematics_ := ⟨3, [kine 2]⟩
    nanDetected_ := false }

/-- A tick with the given value of the fault flag; `x` is the position the estimator reports. -/
def tick (nanDetected : Bool) (x : ℚ) : MCKineticsObserver.Tick ℚ :=
  { timeStep := 1 / 2
    loggerT := 4
    robot := robot 1
    inputRobot := fun X _ => robot (X.translation 0)
    updateContacts := fun cs => cs
    worldImuKine := fun _ => kine 3
    nanDetected := nanDetected
    getGlobalKinematicsOf := fun _ k => { kine x with position := (kine x).position + k.position }
    applyLastTransformation := fun k => { k with position := k.position + ![1, 0, 0] }
    backupFb := fun b => (kine 4, b)
    backOfEmpty := kine 0 }

/-- A fault on the first tick, none on the `n` ticks that follow. -/
def faultThenQuiet (n : Nat) : List (MCKineticsObserver.Tick ℚ) :=
  tick true 0 :: List.replicate n (tick false 0)

/-- The library with the given square root, arc sine, sine and cosine; the rotation of an angle-axis pair
is `angleAxisMatrix`. The operations on kinematics, unused by the odometry, are stand-ins. -/
def mathLib {R : Type} [Field R] (sqrt asin sin cos : R → R) : Lib R :=
  { kineMul := fun a _ => a
    kineInverse := fun a => a
    fromSva := fun p => { Kinematics.zeroKinematics with position := p.translation }
    fromSvaVel := fun p _ => { Kinematics.zeroKinematics with position := p.translation }
    wrenchWithoutGravity := fun _ _ => ⟨0, 0⟩
    worldWrenchWithoutGravity := fun _ _ => ⟨0, 0⟩
    sqrt := sqrt
    asin := asin
    angleAxisToMatrix3 := fun angle axis => angleAxisMatrix (sin angle) (cos angle) axis }

/-- An observer without contact nor IMU, with the given odometry type and diagonal stiffness and damping
matrices. -/
def odometryObserver {R : Type} [Field R] (odometryType : OdometryType)
    (linStiffness linDamping angStiffness angDamping : Vector3 R) : MCKineticsObserver R :=
  { odometryType_ := odometryType
    contactsDetection := ContactsDetection.Sensors
    linStiffness_ := Matrix.diagonal linStiffness
    linDamping_ := Matrix.diagonal linDamping
    angStiffness_ := Matrix.diagonal angStiffness
    angDamping_ := Matrix.diagonal angDamping
    contactProcessCovariance_ := 0
    contactSensorCovariance_ := 0
    contactInitCovarianceFirstContacts_ := 0
    contactInitCovarianceNewContacts_ := 0
    contactInitCovarianceFirstContacts_flat_ := 0
    contactInitCovarianceNewContacts_flat_ := 0
    forceSensorsAsInput_ := []
    listIMUs_ := []
    contacts := []
    fbBackupCapacity_ := 0
    invincibilityFrame_ := 0
    X_0_fb_ := PTransformd.Identity
    v_fb_0_ := MotionVecd.Zero
    a_fb_0_ := MotionVecd.Zero
    lastBackupIter_ := 0
    invincibilityIter_ := 0
    estimationState_ := EstimationState.noIssue
    koBackupFbKinematics_ := ⟨0, []⟩
    tiltBackupFbKinematics_ := ⟨0, []⟩
    nanDetected_ := false }

/-- A set contact with the given measured force and torque (in the contact frame) and the given
kinematics in the frame of the floating base. -/
def odometryContact {R : Type} [Field R] (force torque : Vector3 R) (fbContactKine : Kinematics R) :
    KoContactWithSensor R :=
  { id_ := 0, name_ := "LeftFoot", surface_ := "LeftFoot", isSet_ := true, wasAlreadySet_ := false,
    forceSensorName_ := "LeftFoot", wrenchInCentroid_ := ⟨0, 0⟩, forceNorm_ := 0,
    sensorEnabled_ := true, sensorWasEnabled_ := false, contactWrenchVector_ := ⟨force, torque⟩,
    sensorAttachedToSurface_ := true, fbContactKine_ := fbContactKine,
    contactSensorKine_ := Kinematics.zeroKinematics }

/-- The rotation of a quarter turn about the z axis. -/
def quarterTurn : Matrix3 ℚ := !![0, -1, 0; 1, 0, 0; 0, 0, 1]

/-- The kinematics of a contact at `(1, 2, 3)`, turned by `quarterTurn`, with the given linear and
angular velocities. -/
def contactKine (linVel angVel : Vector3 ℚ) : Kinematics ℚ :=
  { position := ![1, 2, 3], orientation := quarterTurn, linVel := linVel, angVel := angVel,
    linAcc := 0, angAcc := 0 }

/-- The observer `observer 5 0` in the given odometry mode, its initial covariances of the contacts
configured from the variances `(1, 2, 3)` ... `(10, 11, 12)` for the first contacts and `(21, 22, 23)`
... `(30, 31, 32)` for the new contacts. -/
def covarianceObserver (odometryType : OdometryType) : MCKineticsObserver ℚ :=
  MCKineticsObserver.configureContactInitCovariances ![1, 2, 3] ![4, 5, 6] ![7, 8, 9] ![10, 11, 12]
    ![21, 22, 23] ![24, 25, 26] ![27, 28, 29] ![30, 31, 32]
    { observer 5 0 with odometryType_ := odometryType }

/-- The `double` nearest to 0.005, the cycle period of 5 ms: `0x3F747AE147AE147B`. -/
def timeStep5ms : ℚ := 5764607523034235 / 2 ^ 60

/-- The `double` nearest to 0.001, the cycle period of 1 ms: `0x3F50624DD2F1A9FC`. -/
def timeStep1ms : ℚ := 1152921504606847 / 2 ^ 60

/-- The `double` nearest to 0.01, the cycle period of 10 ms: `0x3F847AE147AE147B`. -/
def timeStep10ms : ℚ := 5764607523034235 / 2 ^ 59

end Demo

/-! ## Properties of the fault detection and recovery -/

namespace MCKineticsObserver

variable {R : Type} [LinearOrderedField R] [FloorRing R]

theorem run_estimationState (lib : Lib R) (t : Tick R) (self : MCKineticsObserver R) :
    (run lib t self).self.estimationState_
      = selectEstimationState t.nanDetected self.invincibilityIter_ self.invincibilityFrame_ := by
  unfold run
  simp only []
  split <;> (try split) <;> simp_all

theorem run_invincibilityFrame (lib : Lib R) (t : Tick R) (self : MCKineticsObserver R) :
    (run lib t self).self.invincibilityFrame_ = self.invincibilityFrame_ := by
  unfold run
  simp only []
  split <;> (try split) <;> simp_all

theorem run_invincibilityIter (lib : Lib R) (t : Tick R) (self : MCKineticsObserver R) :
    (run lib t self).self.invincibilityIter_
      = nextInvincibilityIter
          (selectEstimationState t.nanDetected self.invincibilityIter_ self.invincibilityFrame_)
          self.invincibilityIter_ := by
  unfold run
  simp only []
  split <;> (try split) <;> simp_all [nextInvincibilityIter]

theorem run_nanDetected (lib : Lib R) (t : Tick R) (self : MCKineticsObserver R) :
    (run lib t self).self.nanDetected_ = false := by
  unfold run
  simp only []
  split <;> (try split) <;> simp_all [selectEstimationState] <;> (split at * <;> simp_all)

theorem selectEstimationState_of_nan (i f : Int) :
    selectEstimationState true i f = EstimationState.errorDetected := by
  simp [selectEstimationState]

theorem selectEstimationState_eq_error (nan : Bool) (i f : Int)
    (h : selectEstimationState nan i f = EstimationState.errorDetected) : nan = true := by
  cases nan with
  | true => rfl
  | false =>
    simp only [selectEstimationState] at h
    by_cases hc : i > 0 ∧ i < f
    · simp [hc] at h
    · simp [hc] at h

theorem selectEstimationState_eq_recovering (nan : Bool) (i f : Int)
    (h : selectEstimationState nan i f = EstimationState.invincibilityFrame) :
    nan = false ∧ 0 < i ∧ i < f := by
  cases nan with
  | true => simp [selectEstimationState] at h
  | false =>
    simp only [selectEstimationState] at h
    by_cases hc : i > 0 ∧ i < f
    · exact ⟨rfl, hc.1, hc.2⟩
    · simp [hc] at h

theorem estimationStates_eq_selectedStates (lib : Lib R) (ts : List (Tick R))
    (self : MCKineticsObserver R) :
    estimationStates lib ts self
      = selectedStates self.invincibilityFrame_ self.invincibilityIter_
          (ts.map (fun t => t.nanDetected)) := by
  induction ts generalizing self with
  | nil => rfl
  | cons t ts ih =>
    have h := ih (run lib t self).self
    simp only [estimationStates] at h
    simp only [estimationStates, runTicks, List.map_cons, selectedStates, h, run_estimationState,
      run_invincibilityFrame, run_invincibilityIter]

theorem selectedStates_quiet_done (W : Int) (k : Nat) (i : Int) (h : ¬ (0 < i ∧ i < W)) :
    selectedStates W i (List.replicate k false) = List.replicate k EstimationState.noIssue := by
  induction k with
  | zero => rfl
  | succ k ih =>
    have hs : selectEstimationState false i W = EstimationState.noIssue := by
      simp only [selectEstimationState]
      simp [h]
    simp only [List.replicate_succ, selectedStates, hs, nextInvincibilityIter, ih]

theorem selectedStates_quiet_recovering (W : Int) (k m : Nat) :
    ∀ i : Int, 0 < i → i + m = W →
      selectedStates W i (List.replicate (m + k) false)
        = List.replicate m EstimationState.invincibilityFrame
            ++ List.replicate k EstimationState.noIssue := by
  induction m with
  | zero =>
    intro i _ h
    have hn : ¬ (0 < i ∧ i < W) := by omega
    simpa using selectedStates_quiet_done W k i hn
  | succ m ih =>
    intro i hi h
    have hs : selectEstimationState false i W = EstimationState.invincibilityFrame := by
      have hlt : i < W := by omega
      simp [selectEstimationState, hi, hlt]
    have hrec := ih (i + 1) (by omega) (by push_cast at h ⊢; omega)
    have hlen : m + 1 + k = (m + k) + 1 := by omega
    rw [hlen, List.replicate_succ, List.replicate_succ, List.cons_append]
    simp only [selectedStates, hs, nextInvincibilityIter, hrec]

/-- C1 (as amended): for every window length `W = invincibilityFrame_ ≥ 1` and every observer, if the
fault flag is raised when `run` checks it on a tick and is not raised on the `W - 1 + k` ticks that
follow, then `estimationState_` is `errorDetected` on that tick only, `invincibilityFrame` on each of
the `W - 1` next ticks, and `noIssue` on the `k` ticks after them. -/
theorem C1_recovery_sequence (lib : Lib R) (self : MCKineticsObserver R) (ts : List (Tick R))
    (W k : Nat) (hW : 1 ≤ W) (hframe : self.invincibilityFrame_ = W)
    (hflags : ts.map (fun t => t.nanDetected) = true :: List.replicate (W - 1 + k) false) :
    estimationStates lib ts self
      = EstimationState.errorDetected
          :: (List.replicate (W - 1) EstimationState.invincibilityFrame
                ++ List.replicate k EstimationState.noIssue) := by
  rw [estimationStates_eq_selectedStates, hflags, hframe]
  simp only [selectedStates, selectEstimationState_of_nan, nextInvincibilityIter]
  rw [selectedStates_quiet_recovering (W : Int) k (W - 1) 1 (by norm_num) (by omega)]

/-- C1, instance of the amended statement: window of 5 ticks, ticks 10..16 after a reset. -/
theorem C1_recovery_sequence_witness :
    1 ≤ 5 ∧ (Demo.observer 5 3).invincibilityFrame_ = (5 : Nat)
      ∧ (Demo.faultThenQuiet 6).map (fun t => t.nanDetected) = true :: List.replicate (5 - 1 + 2) false
      ∧ estimationStates Demo.lib (Demo.faultThenQuiet 6) (Demo.observer 5 3)
          = EstimationState.errorDetected
              :: (List.replicate (5 - 1) EstimationState.invincibilityFrame
                    ++ List.replicate 2 EstimationState.noIssue) :=
  ⟨by decide, rfl, rfl,
    C1_recovery_sequence Demo.lib (Demo.observer 5 3) (Demo.faultThenQuiet 6) 5 2 (by decide) rfl rfl⟩

/-- C1, as stated, fails: with a window of 5 ticks and a fault on tick 10 after a reset, ticks 10..16 are
FaultDetected, four Recovering ticks and two Nominal ticks, not FaultDetected, five Recovering ticks and
one Nominal tick. -/
theorem C1_counterexample :
    (estimationStates Demo.lib (List.replicate 9 (Demo.tick false 0) ++ Demo.faultThenQuiet 6)
        (reset ⟨1, 0⟩ (Demo.observer 5 0))).drop 9
      = [EstimationState.errorDetected, EstimationState.invincibilityFrame,
          EstimationState.invincibilityFrame, EstimationState.invincibilityFrame,
          EstimationState.invincibilityFrame, EstimationState.noIssue, EstimationState.noIssue]
    ∧ (estimationStates Demo.lib (List.replicate 9 (Demo.tick false 0) ++ Demo.faultThenQuiet 6)
        (reset ⟨1, 0⟩ (Demo.observer 5 0))).drop 9
      ≠ [EstimationState.errorDetected, EstimationState.invincibilityFrame,
          EstimationState.invincibilityFrame, EstimationState.invincibilityFrame,
          EstimationState.invincibilityFrame, EstimationState.invincibilityFrame,
          EstimationState.noIssue] := by
  rw [estimationStates_eq_selectedStates]
  decide

/-- C2: whatever the counter `invincibilityIter_` is, if `observer_.nanDetected_` is true when `run`
selects the state, the state of the tick is `errorDetected`, and after the tick `invincibilityIter_ = 1`
and `nanDetected_ = false`; the next tick, if no fault is raised, is selected from the counter 1, so the
progress of a recovery under way is discarded. -/
theorem C2_fault_preempts (lib : Lib R) (t : Tick R) (self : MCKineticsObserver R)
    (hnan : t.nanDetected = true) :
    (run lib t self).self.estimationState_ = EstimationState.errorDetected
      ∧ (run lib t self).self.invincibilityIter_ = 1
      ∧ (run lib t self).self.nanDetected_ = false
      ∧ ∀ t2 : Tick R, t2.nanDetected = false →
          (run lib t2 (run lib t self).self).self.estimationState_
            = selectEstimationState false 1 self.invincibilityFrame_ := by
  refine ⟨?_, ?_, run_nanDetected lib t self, ?_⟩
  · rw [run_estimationState, hnan, selectEstimationState_of_nan]
  · rw [run_invincibilityIter, hnan, selectEstimationState_of_nan]; rfl
  · intro t2 h2
    rw [run_estimationState, h2, run_invincibilityFrame, run_invincibilityIter, hnan,
      selectEstimationState_of_nan]
    rfl

/-- C2, instance: a fault raised in the middle of a recovery (counter 3 of 5). -/
theorem C2_fault_preempts_witness :
    (Demo.tick true 0).nanDetected = true
      ∧ (run Demo.lib (Demo.tick true 0) (Demo.observer 5 3)).self.estimationState_
          = EstimationState.errorDetected
      ∧ (run Demo.lib (Demo.tick true 0) (Demo.observer 5 3)).self.invincibilityIter_ = 1
      ∧ (run Demo.lib (Demo.tick true 0) (Demo.observer 5 3)).self.nanDetected_ = false :=
  ⟨rfl, (C2_fault_preempts Demo.lib (Demo.tick true 0) (Demo.observer 5 3) rfl).1,
    (C2_fault_preempts Demo.lib (Demo.tick true 0) (Demo.observer 5 3) rfl).2.1,
    (C2_fault_preempts Demo.lib (Demo.tick true 0) (Demo.observer 5 3) rfl).2.2.1⟩

/-- C3 (as amended): the tick that immediately follows a FaultDetected tick, with no new fault raised, is
a Recovering (`invincibilityFrame`) tick for every window length `invincibilityFrame_ ≥ 2`, and a Nominal
(`noIssue`) tick for every window length below 2. -/
theorem C3_tick_after_fault (lib : Lib R) (t1 t2 : Tick R) (self : MCKineticsObserver R)
    (h1 : t1.nanDetected = true) (h2 : t2.nanDetected = false) :
    (run lib t1 self).self.estimationState_ = EstimationState.errorDetected
      ∧ (run lib t2 (run lib t1 self).self).self.estimationState_
          = if 2 ≤ self.invincibilityFrame_ then EstimationState.invincibilityFrame
            else EstimationState.noIssue := by
  refine ⟨?_, ?_⟩
  · rw [run_estimationState, h1, selectEstimationState_of_nan]
  · rw [run_estimationState, h2, run_invincibilityFrame, run_invincibilityIter, h1,
      selectEstimationState_of_nan]
    simp only [nextInvincibilityIter, selectEstimationState]
    by_cases h : 2 ≤ self.invincibilityFrame_
    · have : (1 : Int) < self.invincibilityFrame_ := by omega
      simp [h, this]
    · have : ¬ ((1 : Int) < self.invincibilityFrame_) := by omega
      simp [h, this]

/-- C3, instance of the amended statement: window of 5 ticks. -/
theorem C3_tick_after_fault_witness :
    (Demo.tick true 0).nanDetected = true ∧ (Demo.tick false 0).nanDetected = false
      ∧ (run Demo.lib (Demo.tick false 0)
            (run Demo.lib (Demo.tick true 0) (Demo.observer 5 0)).self).self.estimationState_
          = if 2 ≤ (Demo.observer 5 0).invincibilityFrame_ then EstimationState.invincibilityFrame
            else EstimationState.noIssue :=
  ⟨rfl, rfl, (C3_tick_after_fault Demo.lib (Demo.tick true 0) (Demo.tick false 0) (Demo.observer 5 0)
    rfl rfl).2⟩

/-! ### The rounding of a quotient of doubles -/

theorem roundHalfEven_floor (y : R) : ⌊y⌋ ≤ roundHalfEven y ∧ roundHalfEven y ≤ ⌊y⌋ + 1 := by
  unfold roundHalfEven
  split
  · omega
  · split
    · omega
    · split <;> omega

theorem roundHalfEven_ge (y : R) (a : Int) (h : (a : R) ≤ y) : a ≤ roundHalfEven y :=
  le_trans (Int.le_floor.2 h) (roundHalfEven_floor y).1

theorem roundHalfEven_le (y : R) (b : Int) (h : y ≤ (b : R)) : roundHalfEven y ≤ b := by
  rcases eq_or_lt_of_le h with heq | hlt
  · have hf : ⌊y⌋ = b := by rw [heq]; exact Int.floor_intCast b
    unfold roundHalfEven
    rw [hf, heq]
    simp
  · have hf : ⌊y⌋ < b := Int.floor_lt.2 hlt
    have := (roundHalfEven_floor y).2
    omega

theorem roundHalfEven_le_add_half (y : R) : ((roundHalfEven y : Int) : R) ≤ y + 1 / 2 := by
  have hfl := Int.floor_le y
  unfold roundHalfEven
  split
  · linarith
  · rename_i h1
    have h1 := not_lt.1 h1
    split
    · push_cast; linarith
    · split
      · linarith
      · push_cast; linarith

theorem roundHalfEven_eq (y : R) (m : Int) (h1 : (m : R) - 1 / 2 < y) (h2 : y < (m : R) + 1 / 2) :
    roundHalfEven y = m := by
  by_cases hm : (m : R) ≤ y
  · have hf : ⌊y⌋ = m := Int.floor_eq_iff.2 ⟨hm, by linarith⟩
    unfold roundHalfEven
    rw [hf, if_pos (by linarith)]
  · have hm := not_le.1 hm
    have hf : ⌊y⌋ = m - 1 := Int.floor_eq_iff.2 ⟨by push_cast; linarith, by push_cast; linarith⟩
    unfold roundHalfEven
    rw [hf]
    have hd : ¬ (y - ((m - 1 : Int) : R) < 1 / 2) := by push_cast; linarith
    have hd2 : 1 / 2 < y - ((m - 1 : Int) : R) := by push_cast; linarith
    rw [if_neg hd, if_pos hd2]
    omega

theorem log_two_eq (x : R) (e : Int) (h1 : (2 : R) ^ e ≤ x) (h2 : x < (2 : R) ^ (e + 1)) :
    Int.log 2 x = e := by
  have hx : 0 < x := lt_of_lt_of_le (zpow_pos (by norm_num) e) h1
  have ha : e ≤ Int.log 2 x := (Int.zpow_le_iff_le_log (by norm_num) hx).1 (by simpa using h1)
  have hb : Int.log 2 x < e + 1 := (Int.lt_zpow_iff_log_lt (by norm_num) hx).1 (by simpa using h2)
  omega

theorem roundDouble_eq (x : R) (e m : Int) (h1 : (2 : R) ^ e ≤ x) (h2 : x < (2 : R) ^ (e + 1))
    (h3 : ((m : R) - 1 / 2) * (2 : R) ^ (e - 52) < x)
    (h4 : x < ((m : R) + 1 / 2) * (2 : R) ^ (e - 52)) :
    roundDouble x = (m : R) * (2 : R) ^ (e - 52) := by
  have hx : 0 < x := lt_of_lt_of_le (zpow_pos (by norm_num) e) h1
  have hg : (0 : R) < (2 : R) ^ (e - 52) := zpow_pos (by norm_num) _
  unfold roundDouble
  rw [if_neg (ne_of_gt hx), abs_of_pos hx, log_two_eq x e h1 h2,
    roundHalfEven_eq _ m ((lt_div_iff₀ hg).2 h3) ((div_lt_iff₀ hg).2 h4)]

theorem zpow_sub_52 (e : Int) (he : e ≤ 52) :
    (2 : R) ^ (e - 52) = ((2 : R) ^ (52 - e).toNat)⁻¹ := by
  have h : e - 52 = -(((52 - e).toNat : Nat) : Int) := by
    rw [Int.toNat_of_nonneg (by omega)]
    omega
  rw [h, zpow_neg, zpow_natCast]

theorem roundDouble_bounds (x : R) (hx : 0 < x) (hlt : x < 2 ^ 53) :
    (∀ n : Int, (n : R) ≤ x → (n : R) ≤ roundDouble x)
      ∧ (∀ n : Int, x ≤ (n : R) → roundDouble x ≤ (n : R)) := by
  have he : Int.log 2 x ≤ 52 := by
    have : Int.log 2 x < 53 := (Int.lt_zpow_iff_log_lt (by norm_num) hx).1 (by
      have : ((2 : Nat) : R) ^ (53 : Int) = 2 ^ 53 := by norm_num
      rw [this]
      exact hlt)
    omega
  have hg : (2 : R) ^ (Int.log 2 x - 52) = ((2 : R) ^ (52 - Int.log 2 x).toNat)⁻¹ :=
    zpow_sub_52 (Int.log 2 x) he
  have hp : (0 : R) < (2 : R) ^ (52 - Int.log 2 x).toNat := pow_pos (by norm_num) _
  unfold roundDouble
  rw [if_neg (ne_of_gt hx), abs_of_pos hx, hg, div_inv_eq_mul]
  constructor
  · intro n hn
    have h1 : (((n * 2 ^ (52 - Int.log 2 x).toNat : Int)) : R)
        ≤ x * (2 : R) ^ (52 - Int.log 2 x).toNat := by
      push_cast
      exact mul_le_mul_of_nonneg_right hn hp.le
    have h2 := roundHalfEven_ge _ _ h1
    have h3 : ((n * 2 ^ (52 - Int.log 2 x).toNat : Int) : R)
        ≤ (roundHalfEven (x * (2 : R) ^ (52 - Int.log 2 x).toNat) : R) := by exact_mod_cast h2
    push_cast at h3
    rw [le_mul_inv_iff₀ hp]
    exact h3
  · intro n hn
    have h1 : x * (2 : R) ^ (52 - Int.log 2 x).toNat
        ≤ (((n * 2 ^ (52 - Int.log 2 x).toNat : Int)) : R) := by
      push_cast
      exact mul_le_mul_of_nonneg_right hn hp.le
    have h2 := roundHalfEven_le _ _ h1
    have h3 : (roundHalfEven (x * (2 : R) ^ (52 - Int.log 2 x).toNat) : R)
        ≤ ((n * 2 ^ (52 - Int.log 2 x).toNat : Int) : R) := by exact_mod_cast h2
    push_cast at h3
    rw [mul_inv_le_iff₀ hp]
    exact h3

theorem roundDouble_le_mul (x : R) (hx : 0 < x) :
    roundDouble x ≤ x * (1 + 1 / 2 ^ 53) := by
  have hg : (0 : R) < (2 : R) ^ (Int.log 2 x - 52) := zpow_pos (by norm_num) _
  have hlog : (2 : R) ^ Int.log 2 x ≤ x := by
    have h : ((2 : Nat) : R) ^ Int.log 2 x ≤ x := Int.zpow_log_le_self (by norm_num) hx
    simpa using h
  have hsplit : (2 : R) ^ (Int.log 2 x - 52) = (2 : R) ^ Int.log 2 x / 2 ^ 52 := by
    rw [zpow_sub₀ (by norm_num)]
    norm_num
  unfold roundDouble
  rw [if_neg (ne_of_gt hx), abs_of_pos hx]
  have h1 := roundHalfEven_le_add_half (x / (2 : R) ^ (Int.log 2 x - 52))
  have h2 : (roundHalfEven (x / (2 : R) ^ (Int.log 2 x - 52)) : R) * (2 : R) ^ (Int.log 2 x - 52)
      ≤ (x / (2 : R) ^ (Int.log 2 x - 52) + 1 / 2) * (2 : R) ^ (Int.log 2 x - 52) :=
    mul_le_mul_of_nonneg_right h1 hg.le
  have h3 : (x / (2 : R) ^ (Int.log 2 x - 52) + 1 / 2) * (2 : R) ^ (Int.log 2 x - 52)
      = x + (2 : R) ^ (Int.log 2 x - 52) / 2 := by
    field_simp
    ring
  rw [h3, hsplit] at h2
  have h4 : (2 : R) ^ Int.log 2 x / 2 ^ 52 / 2 ≤ x * (1 / 2 ^ 53) := by
    have : (2 : R) ^ Int.log 2 x / 2 ^ 52 / 2 = (2 : R) ^ Int.log 2 x * (1 / 2 ^ 53) := by
      norm_num
      ring
    rw [this]
    exact mul_le_mul_of_nonneg_right hlog (by positivity)
  rw [hsplit]
  linarith

theorem roundDouble_intCast (n : Int) (h0 : 0 < n) (h1 : (n : R) < 2 ^ 53) :
    roundDouble (n : R) = (n : R) := by
  have hpos : (0 : R) < (n : R) := by exact_mod_cast h0
  have hb := roundDouble_bounds (n : R) hpos h1
  exact le_antisymm (hb.2 n le_rfl) (hb.1 n le_rfl)

theorem toInt_intCast (n : Int) : toInt (n : R) = n := by
  unfold toInt
  split <;> simp

theorem toInt_roundDouble_bounds (q : R) (hq : 0 ≤ q) (hlt : q < 2 ^ 53) :
    0 ≤ toInt (roundDouble q)
      ∧ ⌊q⌋ ≤ toInt (roundDouble q) ∧ toInt (roundDouble q) ≤ ⌊q⌋ + 1
      ∧ ((toInt (roundDouble q) : Int) : R) ≤ q * (1 + 1 / 2 ^ 53)
      ∧ q < ((toInt (roundDouble q) : Int) : R) + 1 := by
  rcases eq_or_lt_of_le hq with h0 | hpos
  · rw [← h0]
    simp [roundDouble, toInt]
  · have hb := roundDouble_bounds q hpos hlt
    have hN0 : 0 ≤ ⌊q⌋ := Int.floor_nonneg.2 hq
    have hlow : ((⌊q⌋ : Int) : R) ≤ roundDouble q := hb.1 _ (Int.floor_le q)
    have hup : roundDouble q ≤ ((⌊q⌋ + 1 : Int) : R) :=
      hb.2 _ (by push_cast; exact (Int.lt_floor_add_one q).le)
    have hr0 : 0 ≤ roundDouble q := le_trans (by exact_mod_cast hN0) hlow
    have ht : toInt (roundDouble q) = ⌊roundDouble q⌋ := by simp [toInt, hr0]
    have hfl : ⌊q⌋ ≤ ⌊roundDouble q⌋ := Int.le_floor.2 hlow
    rw [ht]
    refine ⟨Int.floor_nonneg.2 hr0, hfl, ?_, ?_, ?_⟩
    · have h := le_trans (Int.floor_le (roundDouble q)) hup
      exact_mod_cast h
    · exact le_trans (Int.floor_le _) (roundDouble_le_mul q hpos)
    · have h1 : ((⌊q⌋ : Int) : R) ≤ ((⌊roundDouble q⌋ : Int) : R) := by exact_mod_cast hfl
      linarith [Int.lt_floor_add_one q]

theorem configureBackup_frame_one (backupInterval : Option Int) (self : MCKineticsObserver ℚ) :
    (configureBackup backupInterval 1 self).invincibilityFrame_ = 1 := by
  have h : roundDouble ((3 / 2 : ℚ) / 1) = 3 / 2 := by
    rw [roundDouble_eq _ 0 6755399441055744]
    · norm_num [zpow_neg]
    · norm_num
    · norm_num
    · norm_num [zpow_neg]
    · norm_num [zpow_neg]
  simp only [configureBackup, h, toInt]
  norm_num

/-- C3, as stated, fails: with a time step of 1 s, `configure` sets `invincibilityFrame_ = int(1.5) = 1`,
and the tick that follows a FaultDetected tick is then Nominal, not Recovering. -/
theorem C3_counterexample :
    (configureBackup none 1 (Demo.observer 5 0)).invincibilityFrame_ = 1
      ∧ estimationStates Demo.lib [Demo.tick true 0, Demo.tick false 0]
          (configureBackup none 1 (Demo.observer 5 0))
        = [EstimationState.errorDetected, EstimationState.noIssue] := by
  refine ⟨configureBackup_frame_one _ _, ?_⟩
  rw [estimationStates_eq_selectedStates, configureBackup_frame_one]
  decide

theorem runTicks_quiet_from_zero (lib : Lib R) (ts : List (Tick R)) :
    ∀ self : MCKineticsObserver R, self.invincibilityIter_ = 0 →
      ts.all (fun t => !t.nanDetected) = true →
      estimationStates lib ts self = List.replicate ts.length EstimationState.noIssue
        ∧ (runTicks lib ts self).map (fun r => r.self.invincibilityIter_)
            = List.replicate ts.length 0 := by
  induction ts with
  | nil => intro self _ _; exact ⟨rfl, rfl⟩
  | cons t ts ih =>
    intro self h0 hq
    simp only [List.all_cons, Bool.and_eq_true, Bool.not_eq_true'] at hq
    obtain ⟨ht, hrest⟩ := hq
    have hs : selectEstimationState t.nanDetected self.invincibilityIter_ self.invincibilityFrame_
        = EstimationState.noIssue := by
      simp [selectEstimationState, ht, h0]
    have hstate : (run lib t self).self.estimationState_ = EstimationState.noIssue := by
      rw [run_estimationState, hs]
    have hiter : (run lib t self).self.invincibilityIter_ = 0 := by
      rw [run_invincibilityIter, hs]; simpa [nextInvincibilityIter] using h0
    obtain ⟨ih1, ih2⟩ := ih (run lib t self).self hiter hrest
    simp only [estimationStates] at ih1
    simp only [estimationStates, runTicks, List.map_cons, List.length_cons, List.replicate_succ,
      hstate, hiter, ih1, ih2, and_self]

/-- C5: `reset` sets `invincibilityIter_ = 0`, and for every sequence of ticks run after it on which the
fault flag is not raised, the state is `noIssue` on each of those ticks and `invincibilityIter_` is still 0
after each of them. -/
theorem C5_nominal_without_fault (lib : Lib R) (realRobotPosW : PTransformd R)
    (self : MCKineticsObserver R) (ts : List (Tick R))
    (hquiet : ts.all (fun t => !t.nanDetected) = true) :
    (reset realRobotPosW self).invincibilityIter_ = 0
      ∧ estimationStates lib ts (reset realRobotPosW self)
          = List.replicate ts.length EstimationState.noIssue
      ∧ (runTicks lib ts (reset realRobotPosW self)).map (fun r => r.self.invincibilityIter_)
          = List.replicate ts.length 0 :=
  ⟨rfl, runTicks_quiet_from_zero lib ts (reset realRobotPosW self) rfl hquiet⟩

/-- C5, instance: four ticks without a fault after a reset of an observer left in mid-recovery. -/
theorem C5_nominal_without_fault_witness :
    (List.replicate 4 (Demo.tick false 0)).all (fun t => !t.nanDetected) = true
      ∧ estimationStates Demo.lib (List.replicate 4 (Demo.tick false 0))
          (reset ⟨1, 0⟩ (Demo.observer 5 3))
        = List.replicate (List.replicate 4 (Demo.tick false 0)).length EstimationState.noIssue
      ∧ (runTicks Demo.lib (List.replicate 4 (Demo.tick false 0))
          (reset ⟨1, 0⟩ (Demo.observer 5 3))).map (fun r => r.self.invincibilityIter_)
        = List.replicate (List.replicate 4 (Demo.tick false 0)).length 0 :=
  ⟨rfl, (C5_nominal_without_fault Demo.lib ⟨1, 0⟩ (Demo.observer 5 3)
      (List.replicate 4 (Demo.tick false 0)) rfl).2⟩

theorem configureBackup_values (backupInterval : Option Int) (timeStep : R)
    (self : MCKineticsObserver R) :
    (configureBackup backupInterval timeStep self).invincibilityFrame_
        = toInt (roundDouble ((3 / 2 : R) / timeStep))
      ∧ (configureBackup backupInterval timeStep self).fbBackupCapacity_
        = toInt (roundDouble (((backupInterval.getD 1 : Int) : R) / timeStep)) :=
  ⟨rfl, rfl⟩

/-- The count `int(x / timeStep)` of `configure`, for `x ≥ 0`, a positive cycle period and a quotient
within the range of `int`: it is the integer part of the exact quotient, or that integer plus one when
the quotient rounds up to it. -/
theorem cycle_count_bounds (x timeStep : R) (hx : 0 ≤ x) (hts : 0 < timeStep)
    (hrange : x / timeStep < 2 ^ 31 - 1) :
    0 ≤ toInt (roundDouble (x / timeStep))
      ∧ toInt (roundDouble (x / timeStep)) < 2 ^ 31
      ∧ ⌊x / timeStep⌋ ≤ toInt (roundDouble (x / timeStep))
      ∧ toInt (roundDouble (x / timeStep)) ≤ ⌊x / timeStep⌋ + 1
      ∧ x < (((toInt (roundDouble (x / timeStep)) : Int) : R) + 1) * timeStep
      ∧ ((toInt (roundDouble (x / timeStep)) : Int) : R) * timeStep ≤ x * (1 + 1 / 2 ^ 53) := by
  have hq : 0 ≤ x / timeStep := by positivity
  have hlt : x / timeStep < 2 ^ 53 := lt_trans hrange (by norm_num)
  obtain ⟨h0, h1, h2, h3, h4⟩ := toInt_roundDouble_bounds (x / timeStep) hq hlt
  have hfl : ⌊x / timeStep⌋ < 2 ^ 31 - 1 := by
    have h : ((⌊x / timeStep⌋ : Int) : R) < 2 ^ 31 - 1 :=
      lt_of_le_of_lt (Int.floor_le _) hrange
    exact_mod_cast h
  refine ⟨h0, by omega, h1, h2, ?_, ?_⟩
  · have := mul_lt_mul_of_pos_right h4 hts
    rwa [div_mul_cancel₀ _ (ne_of_gt hts)] at this
  · have := mul_le_mul_of_nonneg_right h3 hts.le
    rwa [mul_right_comm, div_mul_cancel₀ _ (ne_of_gt hts)] at this

/-- C6 (as amended): the window length `invincibilityFrame_` set by `configure` is the fixed duration
1.5 s converted to a cycle count with the cycle period, `int(1.5 / timeStep)`, the quotient being the
one of `double`, whatever the option `backupInterval` and the observer are: with `n` the integer part
of the exact quotient it is `n`, or `n + 1` when the quotient rounds up to that integer, so that
`1.5 < (frame + 1) * timeStep` and `frame * timeStep ≤ 1.5 * (1 + 2⁻⁵³)`. The option `backupInterval`
sets the capacity `fbBackupCapacity_ = int(backupInterval / timeStep)`, the same conversion of
another duration. -/
theorem C6_window_length (backupInterval backupInterval2 : Option Int) (timeStep : R)
    (self self2 : MCKineticsObserver R) (hts : 0 < timeStep)
    (hrange : (3 / 2 : R) / timeStep < 2 ^ 31 - 1) :
    (configureBackup backupInterval timeStep self).invincibilityFrame_
        = toInt (roundDouble ((3 / 2 : R) / timeStep))
      ∧ (configureBackup backupInterval2 timeStep self2).invincibilityFrame_
          = (configureBackup backupInterval timeStep self).invincibilityFrame_
      ∧ ⌊(3 / 2 : R) / timeStep⌋ ≤ (configureBackup backupInterval timeStep self).invincibilityFrame_
      ∧ (configureBackup backupInterval timeStep self).invincibilityFrame_
          ≤ ⌊(3 / 2 : R) / timeStep⌋ + 1
      ∧ 3 / 2 < (((configureBackup backupInterval timeStep self).invincibilityFrame_ : R) + 1) * timeStep
      ∧ ((configureBackup backupInterval timeStep self).invincibilityFrame_ : R) * timeStep
          ≤ 3 / 2 * (1 + 1 / 2 ^ 53)
      ∧ (0 ≤ backupInterval.getD 1 → ((backupInterval.getD 1 : Int) : R) / timeStep < 2 ^ 31 - 1 →
          (configureBackup backupInterval timeStep self).fbBackupCapacity_
              = toInt (roundDouble (((backupInterval.getD 1 : Int) : R) / timeStep))
            ∧ ⌊((backupInterval.getD 1 : Int) : R) / timeStep⌋
              ≤ (configureBackup backupInterval timeStep self).fbBackupCapacity_
            ∧ (configureBackup backupInterval timeStep self).fbBackupCapacity_
              ≤ ⌊((backupInterval.getD 1 : Int) : R) / timeStep⌋ + 1
            ∧ ((backupInterval.getD 1 : Int) : R)
              < (((configureBackup backupInterval timeStep self).fbBackupCapacity_ : R) + 1) * timeStep
            ∧ ((configureBackup backupInterval timeStep self).fbBackupCapacity_ : R) * timeStep
              ≤ ((backupInterval.getD 1 : Int) : R) * (1 + 1 / 2 ^ 53)) := by
  obtain ⟨_, _, h1, h2, h3, h4⟩ := cycle_count_bounds (3 / 2 : R) timeStep (by norm_num) hts hrange
  refine ⟨rfl, rfl, h1, h2, h3, h4, ?_⟩
  intro hbi hrange2
  have hx : (0 : R) ≤ ((backupInterval.getD 1 : Int) : R) := by exact_mod_cast hbi
  obtain ⟨_, _, c1, c2, c3, c4⟩ :=
    cycle_count_bounds ((backupInterval.getD 1 : Int) : R) timeStep hx hts hrange2
  exact ⟨rfl, c1, c2, c3, c4⟩

theorem configureBackup_timeStep5ms (backupInterval : Option Int) (self : MCKineticsObserver ℚ) :
    (configureBackup backupInterval Demo.timeStep5ms self).invincibilityFrame_ = 300
      ∧ (configureBackup none Demo.timeStep5ms self).fbBackupCapacity_ = 200
      ∧ (configureBackup (some 1) Demo.timeStep5ms self).fbBackupCapacity_ = 200 := by
  have h1 : roundDouble ((3 / 2 : ℚ) / Demo.timeStep5ms) = ((300 : Int) : ℚ) := by
    rw [roundDouble_eq _ 8 5277655813324800]
    · norm_num [zpow_neg]
    · norm_num [Demo.timeStep5ms]
    · norm_num [Demo.timeStep5ms]
    · norm_num [Demo.timeStep5ms, zpow_neg]
    · norm_num [Demo.timeStep5ms, zpow_neg]
  have h2 : roundDouble (((1 : Int) : ℚ) / Demo.timeStep5ms) = ((200 : Int) : ℚ) := by
    rw [roundDouble_eq _ 7 7036874417766400]
    · norm_num [zpow_neg]
    · norm_num [Demo.timeStep5ms]
    · norm_num [Demo.timeStep5ms]
    · norm_num [Demo.timeStep5ms, zpow_neg]
    · norm_num [Demo.timeStep5ms, zpow_neg]
  refine ⟨?_, ?_, ?_⟩
  · simp only [configureBackup, h1, toInt_intCast]
  · simp only [configureBackup, Option.getD_none, h2, toInt_intCast]
  · simp only [configureBackup, Option.getD_some, h2, toInt_intCast]

/-- The counts of `configure` at the cycle periods of 1 ms and of 10 ms (the doubles nearest to 0.001
and to 0.01), with the default `backupInterval`: 1500 and 1000, 150 and 100, where the integer parts of
the exact quotients are 1499 and 999, 149 and 99. -/
theorem configureBackup_timeStep1ms_10ms (self : MCKineticsObserver ℚ) :
    (configureBackup none Demo.timeStep1ms self).invincibilityFrame_ = 1500
      ∧ (configureBackup none Demo.timeStep1ms self).fbBackupCapacity_ = 1000
      ∧ (configureBackup none Demo.timeStep10ms self).invincibilityFrame_ = 150
      ∧ (configureBackup none Demo.timeStep10ms self).fbBackupCapacity_ = 100
      ∧ ⌊(3 / 2 : ℚ) / Demo.timeStep1ms⌋ = 1499 ∧ ⌊(1 : ℚ) / Demo.timeStep1ms⌋ = 999
      ∧ ⌊(3 / 2 : ℚ) / Demo.timeStep10ms⌋ = 149 ∧ ⌊(1 : ℚ) / Demo.timeStep10ms⌋ = 99 := by
  have h1 : roundDouble ((3 / 2 : ℚ) / Demo.timeStep1ms) = ((1500 : Int) : ℚ) := by
    rw [roundDouble_eq _ 10 6597069766656000]
    · norm_num [zpow_neg]
    · norm_num [Demo.timeStep1ms]
    · norm_num [Demo.timeStep1ms]
    · norm_num [Demo.timeStep1ms, zpow_neg]
    · norm_num [Demo.timeStep1ms, zpow_neg]
  have h2 : roundDouble (((1 : Int) : ℚ) / Demo.timeStep1ms) = ((1000 : Int) : ℚ) := by
    rw [roundDouble_eq _ 9 8796093022208000]
    · norm_num [zpow_neg]
    · norm_num [Demo.timeStep1ms]
    · norm_num [Demo.timeStep1ms]
    · norm_num [Demo.timeStep1ms, zpow_neg]
    · norm_num [Demo.timeStep1ms, zpow_neg]
  have h3 : roundDouble ((3 / 2 : ℚ) / Demo.timeStep10ms) = ((150 : Int) : ℚ) := by
    rw [roundDouble_eq _ 7 5277655813324800]
    · norm_num [zpow_neg]
    · norm_num [Demo.timeStep10ms]
    · norm_num [Demo.timeStep10ms]
    · norm_num [Demo.timeStep10ms, zpow_neg]
    · norm_num [Demo.timeStep10ms, zpow_neg]
  have h4 : roundDouble (((1 : Int) : ℚ) / Demo.timeStep10ms) = ((100 : Int) : ℚ) := by
    rw [roundDouble_eq _ 6 7036874417766400]
    · norm_num [zpow_neg]
    · norm_num [Demo.timeStep10ms]
    · norm_num [Demo.timeStep10ms]
    · norm_num [Demo.timeStep10ms, zpow_neg]
    · norm_num [Demo.timeStep10ms, zpow_neg]
  refine ⟨?_, ?_, ?_, ?_, ?_, ?_, ?_, ?_⟩
  · simp only [configureBackup, h1, toInt_intCast]
  · simp only [configureBackup, Option.getD_none, h2, toInt_intCast]
  · simp only [configureBackup, h3, toInt_intCast]
  · simp only [configureBackup, Option.getD_none, h4, toInt_intCast]
  · rw [Int.floor_eq_iff]; norm_num [Demo.timeStep1ms]
  · rw [Int.floor_eq_iff]; norm_num [Demo.timeStep1ms]
  · rw [Int.floor_eq_iff]; norm_num [Demo.timeStep10ms]
  · rw [Int.floor_eq_iff]; norm_num [Demo.timeStep10ms]

/-- C6, instance of the amended statement: the cycle period of 5 ms (the double nearest to 0.005) and
the default `backupInterval`: the window is 300 ticks, the integer part 299 of the exact quotient plus
one, and the capacity is 200. -/
theorem C6_window_length_witness :
    (0 : ℚ) < Demo.timeStep5ms ∧ (3 / 2 : ℚ) / Demo.timeStep5ms < 2 ^ 31 - 1
      ∧ (configureBackup none Demo.timeStep5ms (Demo.observer 5 0)).invincibilityFrame_ = 300
      ∧ (configureBackup none Demo.timeStep5ms (Demo.observer 5 0)).fbBackupCapacity_ = 200
      ∧ ⌊(3 / 2 : ℚ) / Demo.timeStep5ms⌋ = 299
      ∧ (configureBackup none Demo.timeStep5ms (Demo.observer 5 0)).invincibilityFrame_
          ≤ ⌊(3 / 2 : ℚ) / Demo.timeStep5ms⌋ + 1
      ∧ (3 / 2 : ℚ)
          < (((configureBackup none Demo.timeStep5ms (Demo.observer 5 0)).invincibilityFrame_ : ℚ) + 1)
              * Demo.timeStep5ms
      ∧ ((configureBackup none Demo.timeStep5ms (Demo.observer 5 0)).invincibilityFrame_ : ℚ)
            * Demo.timeStep5ms
          ≤ 3 / 2 * (1 + 1 / 2 ^ 53) :=
  ⟨by norm_num [Demo.timeStep5ms], by norm_num [Demo.timeStep5ms],
    (configureBackup_timeStep5ms none (Demo.observer 5 0)).1,
    (configureBackup_timeStep5ms none (Demo.observer 5 0)).2.1,
    by rw [Int.floor_eq_iff]; norm_num [Demo.timeStep5ms],
    (C6_window_length none none Demo.timeStep5ms (Demo.observer 5 0) (Demo.observer 5 0)
      (by norm_num [Demo.timeStep5ms]) (by norm_num [Demo.timeStep5ms])).2.2.2.1,
    (C6_window_length none none Demo.timeStep5ms (Demo.observer 5 0) (Demo.observer 5 0)
      (by norm_num [Demo.timeStep5ms]) (by norm_num [Demo.timeStep5ms])).2.2.2.2.1,
    (C6_window_length none none Demo.timeStep5ms (Demo.observer 5 0) (Demo.observer 5 0)
      (by norm_num [Demo.timeStep5ms]) (by norm_num [Demo.timeStep5ms])).2.2.2.2.2.1⟩

theorem configureBackup_of_int_quotients (backupInterval : Option Int) (timeStep : ℚ) (n c : Int)
    (self : MCKineticsObserver ℚ) (hn : 0 < n) (hn2 : n < 2 ^ 53) (hc : 0 < c) (hc2 : c < 2 ^ 53)
    (hq : (3 / 2 : ℚ) / timeStep = (n : ℚ))
    (hq2 : ((backupInterval.getD 1 : Int) : ℚ) / timeStep = (c : ℚ)) :
    (configureBackup backupInterval timeStep self).invincibilityFrame_ = n
      ∧ (configureBackup backupInterval timeStep self).fbBackupCapacity_ = c := by
  have h1 : roundDouble ((3 / 2 : ℚ) / timeStep) = (n : ℚ) := by
    rw [hq]
    exact roundDouble_intCast n hn (by exact_mod_cast hn2)
  have h2 : roundDouble (((backupInterval.getD 1 : Int) : ℚ) / timeStep) = (c : ℚ) := by
    rw [hq2]
    exact roundDouble_intCast c hc (by exact_mod_cast hc2)
  exact ⟨by simp only [configureBackup, h1, toInt_intCast],
    by simp only [configureBackup, h2, toInt_intCast]⟩

/-- C6, as stated, fails: with the default `backupInterval` of 1 s, a cycle period of 1/256 s gives
`invincibilityFrame_ = 384` and `fbBackupCapacity_ = 256`, and the cycle period of 5 ms (the double
nearest to 0.005) gives 300 and 200: the window length is not the count obtained from
`backupInterval`. -/
theorem C6_counterexample :
    (configureBackup none (1 / 256 : ℚ) (Demo.observer 5 0)).invincibilityFrame_ = 384
      ∧ (configureBackup none (1 / 256 : ℚ) (Demo.observer 5 0)).fbBackupCapacity_ = 256
      ∧ (configureBackup none Demo.timeStep5ms (Demo.observer 5 0)).invincibilityFrame_ = 300
      ∧ (configureBackup none Demo.timeStep5ms (Demo.observer 5 0)).fbBackupCapacity_ = 200
      ∧ (configureBackup none (1 / 256 : ℚ) (Demo.observer 5 0)).invincibilityFrame_
          ≠ (configureBackup none (1 / 256 : ℚ) (Demo.observer 5 0)).fbBackupCapacity_
      ∧ (configureBackup none Demo.timeStep5ms (Demo.observer 5 0)).invincibilityFrame_
          ≠ (configureBackup none Demo.timeStep5ms (Demo.observer 5 0)).fbBackupCapacity_ := by
  have ha := configureBackup_of_int_quotients none (1 / 256 : ℚ) 384 256 (Demo.observer 5 0)
    (by decide) (by norm_num) (by decide) (by norm_num) (by norm_num) (by norm_num)
  have hb := configureBackup_timeStep5ms none (Demo.observer 5 0)
  refine ⟨ha.1, ha.2, hb.1, hb.2.1, ?_, ?_⟩
  · rw [ha.1, ha.2]
    decide
  · rw [hb.1, hb.2.1]
    decide

/-- C9: on every Nominal (`noIssue`) tick, with `K = observer_.getGlobalKinematicsOf(zero kinematics)`,
the published values are those of `K`: the translation of `X_0_fb_` is the position of `K`, its rotation
the transpose of the orientation matrix of `K`, `v_fb_0_ = (K.angVel, K.linVel)` and
`a_fb_0_ = (K.angAcc, K.linAcc)`; the entry appended to the history buffer is `K`; `invincibilityIter_`
and `lastBackupIter_` are unchanged (and no call overwrites the state of the estimator). -/
theorem C9_nominal_publishes_estimator (lib : Lib R) (t : Tick R) (self : MCKineticsObserver R)
    (hnom : (run lib t self).self.estimationState_ = EstimationState.noIssue) :
    (run lib t self).self.X_0_fb_.translation
        = (t.getGlobalKinematicsOf [] Kinematics.zeroKinematics).position
      ∧ (run lib t self).self.X_0_fb_.rotation
        = (t.getGlobalKinematicsOf [] Kinematics.zeroKinematics).orientation.transpose
      ∧ (run lib t self).self.v_fb_0_
        = ⟨(t.getGlobalKinematicsOf [] Kinematics.zeroKinematics).angVel,
            (t.getGlobalKinematicsOf [] Kinematics.zeroKinematics).linVel⟩
      ∧ (run lib t self).self.a_fb_0_
        = ⟨(t.getGlobalKinematicsOf [] Kinematics.zeroKinematics).angAcc,
            (t.getGlobalKinematicsOf [] Kinematics.zeroKinematics).linAcc⟩
      ∧ (run lib t self).self.koBackupFbKinematics_
        = self.koBackupFbKinematics_.push_back (t.getGlobalKinematicsOf [] Kinematics.zeroKinematics)
      ∧ (run lib t self).self.invincibilityIter_ = self.invincibilityIter_
      ∧ (run lib t self).self.lastBackupIter_ = self.lastBackupIter_
      ∧ (run lib t self).calls = [] := by
  rw [run_estimationState] at hnom
  unfold run
  simp [hnom]

/-- C9, instance: a tick without fault of an observer that never had one. -/
theorem C9_nominal_publishes_estimator_witness :
    (run Demo.lib (Demo.tick false 7) (Demo.observer 5 0)).self.estimationState_
        = EstimationState.noIssue
      ∧ (run Demo.lib (Demo.tick false 7) (Demo.observer 5 0)).self.X_0_fb_.translation
        = ((Demo.tick false 7).getGlobalKinematicsOf [] Kinematics.zeroKinematics).position
      ∧ (run Demo.lib (Demo.tick false 7) (Demo.observer 5 0)).self.koBackupFbKinematics_
        = (Demo.observer 5 0).koBackupFbKinematics_.push_back
            ((Demo.tick false 7).getGlobalKinematicsOf [] Kinematics.zeroKinematics) :=
  ⟨by rw [run_estimationState]; decide,
    (C9_nominal_publishes_estimator Demo.lib (Demo.tick false 7) (Demo.observer 5 0)
      (by rw [run_estimationState]; decide)).1,
    (C9_nominal_publishes_estimator Demo.lib (Demo.tick false 7) (Demo.observer 5 0)
      (by rw [run_estimationState]; decide)).2.2.2.2.1⟩

/-- The Recovering branch of `run` (lines 486-503): what it publishes. -/
theorem run_recovering (lib : Lib R) (t : Tick R) (self : MCKineticsObserver R)
    (h : selectEstimationState t.nanDetected self.invincibilityIter_ self.invincibilityFrame_
      = EstimationState.invincibilityFrame) :
    (run lib t self).self.X_0_fb_
        = ⟨(t.applyLastTransformation (self.koBackupFbKinematics_.back t.backOfEmpty)).orientation.transpose,
            (t.applyLastTransformation (self.koBackupFbKinematics_.back t.backOfEmpty)).position⟩
      ∧ (run lib t self).self.v_fb_0_
        = ⟨(t.applyLastTransformation (self.koBackupFbKinematics_.back t.backOfEmpty)).angVel,
            (t.applyLastTransformation (self.koBackupFbKinematics_.back t.backOfEmpty)).linVel⟩
      ∧ (run lib t self).self.a_fb_0_
        = ⟨vdiv ((t.applyLastTransformation (self.koBackupFbKinematics_.back t.backOfEmpty)).angVel
              - self.v_fb_0_.angular) t.timeStep,
            vdiv ((t.applyLastTransformation (self.koBackupFbKinematics_.back t.backOfEmpty)).linVel
              - self.v_fb_0_.linear) t.timeStep⟩
      ∧ (run lib t self).self.koBackupFbKinematics_
        = self.koBackupFbKinematics_.push_back
            (t.applyLastTransformation (self.koBackupFbKinematics_.back t.backOfEmpty)) := by
  unfold run
  simp only [h]
  split <;> simp

/-- The FaultDetected branch of `run` (lines 583-595): what it publishes. -/
theorem run_errorDetected (lib : Lib R) (t : Tick R) (self : MCKineticsObserver R)
    (h : t.nanDetected = true) :
    (run lib t self).self.X_0_fb_
        = ⟨(t.backupFb (self.koBackupFbKinematics_.push_back Kinematics.zeroKinematics)).1.orientation.transpose,
            (t.backupFb (self.koBackupFbKinematics_.push_back Kinematics.zeroKinematics)).1.position⟩
      ∧ (run lib t self).self.v_fb_0_
        = ⟨(t.backupFb (self.koBackupFbKinematics_.push_back Kinematics.zeroKinematics)).1.angVel,
            (t.backupFb (self.koBackupFbKinematics_.push_back Kinematics.zeroKinematics)).1.linVel⟩
      ∧ (run lib t self).self.a_fb_0_
        = ⟨vdiv ((t.backupFb (self.koBackupFbKinematics_.push_back Kinematics.zeroKinematics)).1.angVel
              - self.v_fb_0_.angular) t.timeStep,
            vdiv ((t.backupFb (self.koBackupFbKinematics_.push_back Kinematics.zeroKinematics)).1.linVel
              - self.v_fb_0_.linear) t.timeStep⟩
      ∧ (run lib t self).self.koBackupFbKinematics_
        = (t.backupFb (self.koBackupFbKinematics_.push_back Kinematics.zeroKinematics)).2 := by
  unfold run
  simp [h, selectEstimationState]

/-- C8: on every Recovering tick and on every FaultDetected tick, with `v_prev` the velocity published by
the previous tick (`self.v_fb_0_`) and `v_new` the velocity published by this tick, the published
acceleration is `(v_new - v_prev) / timeStep`, component by component, for the angular and for the
linear part. -/
theorem C8_finite_difference_acceleration (lib : Lib R) (t : Tick R) (self : MCKineticsObserver R)
    (hstate : (run lib t self).self.estimationState_ ≠ EstimationState.noIssue) (i : Fin 3) :
    (run lib t self).self.a_fb_0_.angular i
        = ((run lib t self).self.v_fb_0_.angular i - self.v_fb_0_.angular i) / t.timeStep
      ∧ (run lib t self).self.a_fb_0_.linear i
        = ((run lib t self).self.v_fb_0_.linear i - self.v_fb_0_.linear i) / t.timeStep := by
  rw [run_estimationState] at hstate
  cases hsel : selectEstimationState t.nanDetected self.invincibilityIter_ self.invincibilityFrame_ with
  | noIssue => exact absurd hsel hstate
  | invincibilityFrame =>
    obtain ⟨_, hv, ha, _⟩ := run_recovering lib t self hsel
    rw [hv, ha]
    simp [vdiv]
  | errorDetected =>
    have hnan : t.nanDetected = true := selectEstimationState_eq_error _ _ _ hsel
    obtain ⟨_, hv, ha, _⟩ := run_errorDetected lib t self hnan
    rw [hv, ha]
    simp [vdiv]

/-- C8, instance: the FaultDetected tick of the example, first component. -/
theorem C8_finite_difference_acceleration_witness :
    (run Demo.lib (Demo.tick true 0) (Demo.observer 5 3)).self.estimationState_
        ≠ EstimationState.noIssue
      ∧ (run Demo.lib (Demo.tick true 0) (Demo.observer 5 3)).self.a_fb_0_.linear 0
        = ((run Demo.lib (Demo.tick true 0) (Demo.observer 5 3)).self.v_fb_0_.linear 0
            - (Demo.observer 5 3).v_fb_0_.linear 0) / (Demo.tick true 0).timeStep :=
  ⟨by rw [run_estimationState]; decide,
    (C8_finite_difference_acceleration Demo.lib (Demo.tick true 0) (Demo.observer 5 3)
      (by rw [run_estimationState]; decide) 0).2⟩

/-- C7: on a Recovering (`invincibilityFrame`) tick the published pose `X_0_fb_`, velocity `v_fb_0_` and
acceleration `a_fb_0_`, and the entry appended to the history buffer, are a function of the last entry
of the history buffer, of the last transformation of the tilt observer, of the velocity published
before and of the time step only: two Recovering ticks that agree on these four publish the same pose,
velocity and acceleration and append the same entry, whatever the library, the estimator
(`getGlobalKinematicsOf`), the robots, the contacts and the rest of the observer are. -/
theorem C7_recovering_ignores_estimator (lib1 lib2 : Lib R) (t1 t2 : Tick R)
    (self1 self2 : MCKineticsObserver R)
    (hrec1 : (run lib1 t1 self1).self.estimationState_ = EstimationState.invincibilityFrame)
    (hrec2 : (run lib2 t2 self2).self.estimationState_ = EstimationState.invincibilityFrame)
    (hlast : self1.koBackupFbKinematics_.back t1.backOfEmpty
      = self2.koBackupFbKinematics_.back t2.backOfEmpty)
    (htilt : t1.applyLastTransformation = t2.applyLastTransformation)
    (hvel : self1.v_fb_0_ = self2.v_fb_0_) (hstep : t1.timeStep = t2.timeStep) :
    (run lib1 t1 self1).self.X_0_fb_ = (run lib2 t2 self2).self.X_0_fb_
      ∧ (run lib1 t1 self1).self.v_fb_0_ = (run lib2 t2 self2).self.v_fb_0_
      ∧ (run lib1 t1 self1).self.a_fb_0_ = (run lib2 t2 self2).self.a_fb_0_
      ∧ ∃ entry : Kinematics R,
          (run lib1 t1 self1).self.koBackupFbKinematics_ = self1.koBackupFbKinematics_.push_back entry
            ∧ (run lib2 t2 self2).self.koBackupFbKinematics_
              = self2.koBackupFbKinematics_.push_back entry := by
  rw [run_estimationState] at hrec1 hrec2
  obtain ⟨hX1, hv1, ha1, hb1⟩ := run_recovering lib1 t1 self1 hrec1
  obtain ⟨hX2, hv2, ha2, hb2⟩ := run_recovering lib2 t2 self2 hrec2
  rw [hX1, hv1, ha1, hb1, hX2, hv2, ha2, hb2, hlast, htilt, hvel, hstep]
  exact ⟨rfl, rfl, rfl, _, rfl, rfl⟩

/-- C7, instance: two runs of the same Recovering tick that differ only in what the estimator reports
(position 0 or 7) publish the same values and leave the same history buffer. -/
theorem C7_recovering_ignores_estimator_witness :
    (run Demo.lib (Demo.tick false 0) (Demo.observer 5 3)).self.estimationState_
        = EstimationState.invincibilityFrame
      ∧ (run Demo.lib (Demo.tick false 7) (Demo.observer 5 3)).self.estimationState_
        = EstimationState.invincibilityFrame
      ∧ (Demo.tick false 0).getGlobalKinematicsOf [] Kinematics.zeroKinematics
        ≠ (Demo.tick false 7).getGlobalKinematicsOf [] Kinematics.zeroKinematics
      ∧ (run Demo.lib (Demo.tick false 0) (Demo.observer 5 3)).self.X_0_fb_
        = (run Demo.lib (Demo.tick false 7) (Demo.observer 5 3)).self.X_0_fb_
      ∧ (run Demo.lib (Demo.tick false 0) (Demo.observer 5 3)).self.v_fb_0_
        = (run Demo.lib (Demo.tick false 7) (Demo.observer 5 3)).self.v_fb_0_
      ∧ (run Demo.lib (Demo.tick false 0) (Demo.observer 5 3)).self.a_fb_0_
        = (run Demo.lib (Demo.tick false 7) (Demo.observer 5 3)).self.a_fb_0_ :=
  ⟨by rw [run_estimationState]; decide, by rw [run_estimationState]; decide,
    by
      intro h
      have h0 := congrArg (fun k : Kinematics ℚ => k.position 0) h
      simp [Demo.tick, Demo.kine, Kinematics.zeroKinematics] at h0,
    (C7_recovering_ignores_estimator Demo.lib Demo.lib (Demo.tick false 0) (Demo.tick false 7)
      (Demo.observer 5 3) (Demo.observer 5 3) (by rw [run_estimationState]; decide)
      (by rw [run_estimationState]; decide) rfl rfl rfl rfl).1,
    (C7_recovering_ignores_estimator Demo.lib Demo.lib (Demo.tick false 0) (Demo.tick false 7)
      (Demo.observer 5 3) (Demo.observer 5 3) (by rw [run_estimationState]; decide)
      (by rw [run_estimationState]; decide) rfl rfl rfl rfl).2.1,
    (C7_recovering_ignores_estimator Demo.lib Demo.lib (Demo.tick false 0) (Demo.tick false 7)
      (Demo.observer 5 3) (Demo.observer 5 3) (by rw [run_estimationState]; decide)
      (by rw [run_estimationState]; decide) rfl rfl rfl rfl).2.2.1⟩

/-! ### The loop over the contacts -/

theorem updateContactForceMeasurement_isSet (c : KoContactWithSensor R) (w : ForceVecd R)
    (k : Option (Kinematics R)) : (updateContactForceMeasurement c w k).isSet_ = c.isSet_ := by
  cases k <;> rfl

theorem updateContactForceMeasurement_id (c : KoContactWithSensor R) (w : ForceVecd R)
    (k : Option (Kinematics R)) : (updateContactForceMeasurement c w k).id_ = c.id_ := by
  cases k <;> rfl

theorem resyncContact_unset (lib : Lib R) (t : Tick R) (self : MCKineticsObserver R)
    (sensorRobot inputRobot : Robot R) (resetCovariance : Bool) (calls : List (ObserverCall R))
    (c : KoContactWithSensor R) (h : c.isSet_ = false) :
    resyncContact lib t self sensorRobot inputRobot resetCovariance calls c = (c, []) := by
  simp [resyncContact, h]

theorem resyncContact_set (lib : Lib R) (t : Tick R) (self : MCKineticsObserver R)
    (sensorRobot inputRobot : Robot R) (resetCovariance : Bool) (calls : List (ObserverCall R))
    (c : KoContactWithSensor R) (h : c.isSet_ = true) :
    resyncContact lib t self sensorRobot inputRobot resetCovariance calls c
      = ((if self.contactsDetection = ContactsDetection.Sensors then
            updateContactForceMeasurement c
              (lib.wrenchWithoutGravity (sensorRobot.forceSensor c.forceSensorName_) inputRobot) none
          else
            updateContactForceMeasurement c
              (lib.wrenchWithoutGravity (sensorRobot.forceSensor c.forceSensorName_) inputRobot)
              (some c.contactSensorKine_)),
        [ObserverCall.setStateContact c.id_
          (if self.odometryType_ ≠ OdometryType.None then
            getOdometryWorldContactRest lib self (t.getGlobalKinematicsOf calls)
              (if self.contactsDetection = ContactsDetection.Sensors then
                updateContactForceMeasurement c
                  (lib.wrenchWithoutGravity (sensorRobot.forceSensor c.forceSensorName_) inputRobot)
                  none
              else
                updateContactForceMeasurement c
                  (lib.wrenchWithoutGravity (sensorRobot.forceSensor c.forceSensorName_) inputRobot)
                  (some c.contactSensorKine_))
              Kinematics.zeroKinematics
          else
            (getContactWorldKinematics lib self.contactsDetection
              (if self.contactsDetection = ContactsDetection.Sensors then
                updateContactForceMeasurement c
                  (lib.wrenchWithoutGravity (sensorRobot.forceSensor c.forceSensorName_) inputRobot)
                  none
              else
                updateContactForceMeasurement c
                  (lib.wrenchWithoutGravity (sensorRobot.forceSensor c.forceSensorName_) inputRobot)
                  (some c.contactSensorKine_))
              t.robot (sensorRobot.forceSensor c.forceSensorName_) none).1)
          (if self.contactsDetection = ContactsDetection.Sensors then
            updateContactForceMeasurement c
              (lib.wrenchWithoutGravity (sensorRobot.forceSensor c.forceSensorName_) inputRobot) none
          else
            updateContactForceMeasurement c
              (lib.wrenchWithoutGravity (sensorRobot.forceSensor c.forceSensorName_) inputRobot)
              (some c.contactSensorKine_)).contactWrenchVector_
          resetCovariance]) := by
  simp only [resyncContact, h, Bool.not_true, Bool.false_eq_true, if_false]
  split <;> simp [updateContactForceMeasurement_id]

theorem resyncContact_fst (lib : Lib R) (t : Tick R) (self : MCKineticsObserver R)
    (sensorRobot inputRobot : Robot R) (resetCovariance : Bool) (calls : List (ObserverCall R))
    (c : KoContactWithSensor R) :
    (resyncContact lib t self sensorRobot inputRobot resetCovariance calls c).1
      = if c.isSet_ then
          (if self.contactsDetection = ContactsDetection.Sensors then
            updateContactForceMeasurement c
              (lib.wrenchWithoutGravity (sensorRobot.forceSensor c.forceSensorName_) inputRobot) none
          else
            updateContactForceMeasurement c
              (lib.wrenchWithoutGravity (sensorRobot.forceSensor c.forceSensorName_) inputRobot)
              (some c.contactSensorKine_))
        else c := by
  cases h : c.isSet_ with
  | false => rw [resyncContact_unset lib t self sensorRobot inputRobot resetCovariance calls c h]; simp
  | true => rw [resyncContact_set lib t self sensorRobot inputRobot resetCovariance calls c h]; simp

theorem resyncContact_fst_isSet (lib : Lib R) (t : Tick R) (self : MCKineticsObserver R)
    (sensorRobot inputRobot : Robot R) (resetCovariance : Bool) (calls : List (ObserverCall R))
    (c : KoContactWithSensor R) :
    (resyncContact lib t self sensorRobot inputRobot resetCovariance calls c).1.isSet_ = c.isSet_ := by
  rw [resyncContact_fst]
  split
  · split <;> exact updateContactForceMeasurement_isSet _ _ _
  · rfl

/-- The registry left by the loop: every entry is replaced by the result of the loop body. -/
theorem resyncContacts_fst (lib : Lib R) (t : Tick R) (self : MCKineticsObserver R)
    (sensorRobot inputRobot : Robot R) (resetCovariance : Bool)
    (reg : List (String × KoContactWithSensor R)) :
    ∀ calls : List (ObserverCall R),
      (resyncContacts lib t self sensorRobot inputRobot resetCovariance reg calls).1
        = reg.map (fun nc =>
            (nc.1, (resyncContact lib t self sensorRobot inputRobot resetCovariance [] nc.2).1)) := by
  induction reg with
  | nil => intro calls; rfl
  | cons nc reg ih =>
    intro calls
    obtain ⟨name, c⟩ := nc
    simp only [resyncContacts, List.map_cons, ih]
    rw [resyncContact_fst, resyncContact_fst]

/-- The calls made by the loop: one `setStateContact` for each set contact, in the order of the
registry, each produced by the loop body for that contact. -/
theorem resyncContacts_snd (lib : Lib R) (t : Tick R) (self : MCKineticsObserver R)
    (sensorRobot inputRobot : Robot R) (resetCovariance : Bool)
    (reg : List (String × KoContactWithSensor R)) :
    ∀ calls : List (ObserverCall R),
      ∃ cs : List (ObserverCall R),
        (resyncContacts lib t self sensorRobot inputRobot resetCovariance reg calls).2 = calls ++ cs
          ∧ cs.filter isSetStateContact = cs
          ∧ List.Forall₂
              (fun nc call => nc.2.isSet_ = true ∧ ∃ before : List (ObserverCall R),
                (resyncContact lib t self sensorRobot inputRobot resetCovariance before nc.2).2
                  = [call])
              (reg.filter (fun nc => nc.2.isSet_)) cs := by
  induction reg with
  | nil => intro calls; exact ⟨[], by simp [resyncContacts], rfl, List.Forall₂.nil⟩
  | cons nc reg ih =>
    intro calls
    obtain ⟨name, c⟩ := nc
    cases h : c.isSet_ with
    | false =>
      obtain ⟨cs, h1, h2, h3⟩ := ih calls
      refine ⟨cs, ?_, h2, ?_⟩
      · simp only [resyncContacts]
        rw [resyncContact_unset lib t self sensorRobot inputRobot resetCovariance calls c h]
        simpa using h1
      · simpa [List.filter_cons, h] using h3
    | true =>
      have hset := resyncContact_set lib t self sensorRobot inputRobot resetCovariance calls c h
      obtain ⟨cs, h1, h2, h3⟩ := ih
        (calls ++ (resyncContact lib t self sensorRobot inputRobot resetCovariance calls c).2)
      refine ⟨(resyncContact lib t self sensorRobot inputRobot resetCovariance calls c).2 ++ cs,
        ?_, ?_, ?_⟩
      · simp only [resyncContacts]
        rw [h1, List.append_assoc]
      · rw [hset]
        simp [List.filter_cons, isSetStateContact, h2]
      · rw [List.filter_cons]
        simp only [h, if_true]
        rw [hset]
        simp only [List.singleton_append]
        refine List.Forall₂.cons ⟨h, calls, ?_⟩ h3
        rw [hset]

theorem getOdometryWorldContactRest_congr (lib : Lib R) (s1 s2 : MCKineticsObserver R)
    (h1 : s1.odometryType_ = s2.odometryType_) (h2 : s1.linStiffness_ = s2.linStiffness_)
    (h3 : s1.linDamping_ = s2.linDamping_) (h4 : s1.angStiffness_ = s2.angStiffness_)
    (h5 : s1.angDamping_ = s2.angDamping_) :
    getOdometryWorldContactRest lib s1 = getOdometryWorldContactRest lib s2 := by
  funext g c k
  simp only [getOdometryWorldContactRest, h1, h2, h3, h4, h5]

theorem resyncContact_congr (lib : Lib R) (t : Tick R) (s1 s2 : MCKineticsObserver R)
    (h0 : s1.contactsDetection = s2.contactsDetection)
    (h1 : s1.odometryType_ = s2.odometryType_) (h2 : s1.linStiffness_ = s2.linStiffness_)
    (h3 : s1.linDamping_ = s2.linDamping_) (h4 : s1.angStiffness_ = s2.angStiffness_)
    (h5 : s1.angDamping_ = s2.angDamping_) :
    resyncContact lib t s1 = resyncContact lib t s2 := by
  funext sr ir flag calls c
  simp only [resyncContact, h0, h1, getOdometryWorldContactRest_congr lib s1 s2 h1 h2 h3 h4 h5]

theorem resyncContacts_congr (lib : Lib R) (t : Tick R) (s1 s2 : MCKineticsObserver R)
    (h0 : s1.contactsDetection = s2.contactsDetection)
    (h1 : s1.odometryType_ = s2.odometryType_) (h2 : s1.linStiffness_ = s2.linStiffness_)
    (h3 : s1.linDamping_ = s2.linDamping_) (h4 : s1.angStiffness_ = s2.angStiffness_)
    (h5 : s1.angDamping_ = s2.angDamping_) (sr ir : Robot R) (flag : Bool)
    (reg : List (String × KoContactWithSensor R)) :
    ∀ calls, resyncContacts lib t s1 sr ir flag reg calls
      = resyncContacts lib t s2 sr ir flag reg calls := by
  induction reg with
  | nil => intro calls; rfl
  | cons nc reg ih =>
    intro calls
    obtain ⟨name, c⟩ := nc
    simp only [resyncContacts, resyncContact_congr lib t s1 s2 h0 h1 h2 h3 h4 h5, ih]

theorem gyroBiasCalls_filter (imus : List (IMU R)) :
    ∀ i : Nat, (gyroBiasCalls i imus).filter isSetStateContact = [] := by
  induction imus with
  | nil => intro i; rfl
  | cons imu imus ih => intro i; simp [gyroBiasCalls, isSetStateContact, ih]

/-- The FaultDetected branch of `run` (lines 597-647): the registry it leaves and the calls it makes are
those of the loop over the contacts, run after the calls that reset the centroid, the unmodeled wrench
and the gyroscope biases. -/
theorem run_errorDetected_loop (lib : Lib R) (t : Tick R) (self : MCKineticsObserver R)
    (h : t.nanDetected = true) :
    ∃ pre : List (ObserverCall R), pre.filter isSetStateContact = []
      ∧ (run lib t self).self.contacts
          = (resyncContacts lib t self
              (t.inputRobot (run lib t self).self.X_0_fb_ (run lib t self).self.v_fb_0_)
              (t.inputRobot (run lib t self).self.X_0_fb_ (run lib t self).self.v_fb_0_) true
              (t.updateContacts self.contacts) pre).1
      ∧ (run lib t self).calls
          = (resyncContacts lib t self
              (t.inputRobot (run lib t self).self.X_0_fb_ (run lib t self).self.v_fb_0_)
              (t.inputRobot (run lib t self).self.X_0_fb_ (run lib t self).self.v_fb_0_) true
              (t.updateContacts self.contacts) pre).2 := by
  obtain ⟨hX, hv, _, _⟩ := run_errorDetected lib t self h
  rw [hX, hv]
  have key : ∃ (s1 : MCKineticsObserver R) (pre : List (ObserverCall R)),
      s1.contactsDetection = self.contactsDetection ∧ s1.odometryType_ = self.odometryType_
        ∧ s1.linStiffness_ = self.linStiffness_ ∧ s1.linDamping_ = self.linDamping_
        ∧ s1.angStiffness_ = self.angStiffness_ ∧ s1.angDamping_ = self.angDamping_
        ∧ pre.filter isSetStateContact = []
        ∧ (run lib t self).self.contacts
            = (resyncContacts lib t s1
                (t.inputRobot
                  ⟨(t.backupFb
                      (self.koBackupFbKinematics_.push_back Kinematics.zeroKinematics)).1.orientation.transpose,
                    (t.backupFb
                      (self.koBackupFbKinematics_.push_back Kinematics.zeroKinematics)).1.position⟩
                  ⟨(t.backupFb
                      (self.koBackupFbKinematics_.push_back Kinematics.zeroKinematics)).1.angVel,
                    (t.backupFb
                      (self.koBackupFbKinematics_.push_back Kinematics.zeroKinematics)).1.linVel⟩)
                (t.inputRobot
                  ⟨(t.backupFb
                      (self.koBackupFbKinematics_.push_back Kinematics.zeroKinematics)).1.orientation.transpose,
                    (t.backupFb
                      (self.koBackupFbKinematics_.push_back Kinematics.zeroKinematics)).1.position⟩
                  ⟨(t.backupFb
                      (self.koBackupFbKinematics_.push_back Kinematics.zeroKinematics)).1.angVel,
                    (t.backupFb
                      (self.koBackupFbKinematics_.push_back Kinematics.zeroKinematics)).1.linVel⟩)
                true (t.updateContacts self.contacts) pre).1
        ∧ (run lib t self).calls
            = (resyncContacts lib t s1
                (t.inputRobot
                  ⟨(t.backupFb
                      (self.koBackupFbKinematics_.push_back Kinematics.zeroKinematics)).1.orientation.transpose,
                    (t.backupFb
                      (self.koBackupFbKinematics_.push_back Kinematics.zeroKinematics)).1.position⟩
                  ⟨(t.backupFb
                      (self.koBackupFbKinematics_.push_back Kinematics.zeroKinematics)).1.angVel,
                    (t.backupFb
                      (self.koBackupFbKinematics_.push_back Kinematics.zeroKinematics)).1.linVel⟩)
                (t.inputRobot
                  ⟨(t.backupFb
                      (self.koBackupFbKinematics_.push_back Kinematics.zeroKinematics)).1.orientation.transpose,
                    (t.backupFb
                      (self.koBackupFbKinematics_.push_back Kinematics.zeroKinematics)).1.position⟩
                  ⟨(t.backupFb
                      (self.koBackupFbKinematics_.push_back Kinematics.zeroKinematics)).1.angVel,
                    (t.backupFb
                      (self.koBackupFbKinematics_.push_back Kinematics.zeroKinematics)).1.linVel⟩)
                true (t.updateContacts self.contacts) pre).2 := by
    unfold run
    simp only [h, selectEstimationState, if_true]
    refine ⟨_, _, ?_, ?_, ?_, ?_, ?_, ?_, ?_, rfl, rfl⟩
    all_goals first | rfl | simp [isSetStateContact, gyroBiasCalls_filter]
  obtain ⟨s1, pre, h0, h1, h2, h3, h4, h5, hf, hc, hcalls⟩ := key
  rw [resyncContacts_congr lib t s1 self h0 h1 h2 h3 h4 h5] at hc hcalls
  exact ⟨pre, hf, hc, hcalls⟩

/-- C10: on every FaultDetected tick, for every contact of the registry (as `updateContacts` left it):
if the contact is set, its measured wrench vector is recomputed (from the force sensor of the input
robot, through the kinematics of the sensor in the contact frame unless the detection is by sensors), its
reference kinematics are recomputed by `getOdometryWorldContactRest` when `odometryType_` is not `None`
and by `getContactWorldKinematics` on the control robot otherwise, and `setStateContact` is called
exactly once for it, with its id, those reference kinematics, that wrench vector and reset-covariance
`true`; if the contact is not set it is left unchanged and no call is made for it. The reference passed
to `addContact` at the creation of a contact is chosen by the same test. -/
theorem C10_fault_resets_contacts (lib : Lib R) (t : Tick R) (self : MCKineticsObserver R)
    (hnan : t.nanDetected = true) :
    let inputRobot := t.inputRobot (run lib t self).self.X_0_fb_ (run lib t self).self.v_fb_0_
    let recomputed := fun c : KoContactWithSensor R =>
      if self.contactsDetection = ContactsDetection.Sensors then
        updateContactForceMeasurement c
          (lib.wrenchWithoutGravity (inputRobot.forceSensor c.forceSensorName_) inputRobot) none
      else
        updateContactForceMeasurement c
          (lib.wrenchWithoutGravity (inputRobot.forceSensor c.forceSensorName_) inputRobot)
          (some c.contactSensorKine_)
    (run lib t self).self.contacts
        = (t.updateContacts self.contacts).map
            (fun nc => (nc.1, if nc.2.isSet_ then recomputed nc.2 else nc.2))
      ∧ List.Forall₂
          (fun nc call => ∃ before : List (ObserverCall R),
            call = ObserverCall.setStateContact nc.2.id_
              (if self.odometryType_ ≠ OdometryType.None then
                getOdometryWorldContactRest lib self (t.getGlobalKinematicsOf before) (recomputed nc.2)
                  Kinematics.zeroKinematics
              else
                (getContactWorldKinematics lib self.contactsDetection (recomputed nc.2) t.robot
                  (inputRobot.forceSensor nc.2.forceSensorName_) none).1)
              (recomputed nc.2).contactWrenchVector_ true)
          ((t.updateContacts self.contacts).filter (fun nc => nc.2.isSet_))
          ((run lib t self).calls.filter isSetStateContact)
      ∧ ∀ (g : Kinematics R → Kinematics R) (robot inputRobot2 : Robot R)
          (c : KoContactWithSensor R) (initCovariance : Matrix12 R),
          ((setNewContact lib self g robot inputRobot2 c initCovariance).2).head?
            = some (ObserverCall.addContact
                (if self.odometryType_ ≠ OdometryType.None then
                  getOdometryWorldContactRest lib self g
                    (setNewContact lib self g robot inputRobot2 c initCovariance).1
                    Kinematics.zeroKinematics
                else
                  (getContactWorldKinematics lib self.contactsDetection
                    (setNewContact lib self g robot inputRobot2 c initCovariance).1 robot
                    (robot.forceSensor c.forceSensorName_) none).1)
                initCovariance self.contactProcessCovariance_
                (setNewContact lib self g robot inputRobot2 c initCovariance).1.id_
                self.linStiffness_ self.linDamping_ self.angStiffness_ self.angDamping_) := by
  intro inputRobot recomputed
  obtain ⟨pre, hpre, hc, hcalls⟩ := run_errorDetected_loop lib t self hnan
  refine ⟨?_, ?_, ?_⟩
  · rw [hc, resyncContacts_fst]
    refine List.map_congr_left ?_
    intro nc _
    rw [resyncContact_fst]
  · obtain ⟨cs, h1, h2, h3⟩ := resyncContacts_snd lib t self inputRobot inputRobot true
      (t.updateContacts self.contacts) pre
    rw [hcalls, h1, List.filter_append, hpre, h2, List.nil_append]
    refine List.Forall₂.imp ?_ h3
    rintro nc call ⟨hset, before, hb⟩
    refine ⟨before, ?_⟩
    rw [resyncContact_set lib t self inputRobot inputRobot true before nc.2 hset] at hb
    simp only [List.cons.injEq, and_true] at hb
    exact hb.symm
  · intro g robot inputRobot2 c initCovariance
    simp only [setNewContact]
    split <;> rfl

/-- C10, instance: of the two contacts of the example only the first is set, and the FaultDetected tick
makes exactly one `setStateContact` call. -/
theorem C10_fault_resets_contacts_witness :
    (Demo.tick true 0).nanDetected = true
      ∧ (((Demo.tick true 0).updateContacts (Demo.observer 5 3).contacts).filter
          (fun nc => nc.2.isSet_)).length = 1
      ∧ ((run Demo.lib (Demo.tick true 0) (Demo.observer 5 3)).calls.filter isSetStateContact).length
          = 1 :=
  ⟨rfl, rfl, by
    have h := (C10_fault_resets_contacts Demo.lib (Demo.tick true 0) (Demo.observer 5 3) rfl).2.1
    rw [← h.length_eq]
    rfl⟩

/-- The Nominal branch of `run` makes no call to the estimator after line 453 and leaves the counter. -/
theorem run_noIssue_calls (lib : Lib R) (t : Tick R) (self : MCKineticsObserver R)
    (h : selectEstimationState t.nanDetected self.invincibilityIter_ self.invincibilityFrame_
      = EstimationState.noIssue) :
    (run lib t self).calls = [] := by
  unfold run
  simp [h]

/-- The Recovering branch of `run` (lines 503-557): no call unless the counter reaches the window length,
and then the calls of the loop over the contacts after the call that sets the centroid kinematics
without resetting the covariance. -/
theorem run_recovering_calls (lib : Lib R) (t : Tick R) (self : MCKineticsObserver R)
    (h : selectEstimationState t.nanDetected self.invincibilityIter_ self.invincibilityFrame_
      = EstimationState.invincibilityFrame) :
    (self.invincibilityIter_ + 1 ≠ self.invincibilityFrame_ → (run lib t self).calls = [])
      ∧ (self.invincibilityIter_ + 1 = self.invincibilityFrame_ →
          ∃ (kine : Kinematics R) (inputRobot : Robot R),
            (run lib t self).self.contacts
                = (resyncContacts lib t self t.robot inputRobot false (t.updateContacts self.contacts)
                    [ObserverCall.setWorldCentroidStateKinematics kine false]).1
              ∧ (run lib t self).calls
                = (resyncContacts lib t self t.robot inputRobot false (t.updateContacts self.contacts)
                    [ObserverCall.setWorldCentroidStateKinematics kine false]).2) := by
  refine ⟨?_, ?_⟩
  · intro hne
    unfold run
    simp [h, hne]
  · intro heq
    have key : ∃ (s1 : MCKineticsObserver R) (kine : Kinematics R) (inputRobot : Robot R),
        s1.contactsDetection = self.contactsDetection ∧ s1.odometryType_ = self.odometryType_
          ∧ s1.linStiffness_ = self.linStiffness_ ∧ s1.linDamping_ = self.linDamping_
          ∧ s1.angStiffness_ = self.angStiffness_ ∧ s1.angDamping_ = self.angDamping_
          ∧ (run lib t self).self.contacts
              = (resyncContacts lib t s1 t.robot inputRobot false (t.updateContacts self.contacts)
                  [ObserverCall.setWorldCentroidStateKinematics kine false]).1
          ∧ (run lib t self).calls
              = (resyncContacts lib t s1 t.robot inputRobot false (t.updateContacts self.contacts)
                  [ObserverCall.setWorldCentroidStateKinematics kine false]).2 := by
      unfold run
      simp only [h, heq, if_true]
      refine ⟨_, _, _, ?_, ?_, ?_, ?_, ?_, ?_, rfl, rfl⟩
      all_goals rfl
    obtain ⟨s1, kine, inputRobot, h0, h1, h2, h3, h4, h5, hc, hcalls⟩ := key
    rw [resyncContacts_congr lib t s1 self h0 h1 h2 h3 h4 h5] at hc hcalls
    exact ⟨kine, inputRobot, hc, hcalls⟩

theorem resyncContact_set_shape (lib : Lib R) (t : Tick R) (self : MCKineticsObserver R)
    (sensorRobot inputRobot : Robot R) (resetCovariance : Bool) (calls : List (ObserverCall R))
    (c : KoContactWithSensor R) (h : c.isSet_ = true) :
    ∃ ref : Kinematics R,
      (resyncContact lib t self sensorRobot inputRobot resetCovariance calls c).2
        = [ObserverCall.setStateContact
            (resyncContact lib t self sensorRobot inputRobot resetCovariance [] c).1.id_ ref
            (resyncContact lib t self sensorRobot inputRobot resetCovariance [] c).1.contactWrenchVector_
            resetCovariance] := by
  simp only [resyncContact, h, Bool.not_true, Bool.false_eq_true, if_false]
  exact ⟨_, rfl⟩

/-- The shape of the calls of a resynchronisation: the centroid kinematics are set without resetting
the covariance, then `setStateContact` is called once for each set contact of the registry, in order,
with the id and the recomputed wrench of the contact, without resetting the covariance. -/
theorem run_recovering_resync (lib : Lib R) (t : Tick R) (self : MCKineticsObserver R)
    (h : selectEstimationState t.nanDetected self.invincibilityIter_ self.invincibilityFrame_
      = EstimationState.invincibilityFrame)
    (heq : self.invincibilityIter_ + 1 = self.invincibilityFrame_) :
    ∃ (kine : Kinematics R) (cs : List (ObserverCall R)),
      (run lib t self).calls = ObserverCall.setWorldCentroidStateKinematics kine false :: cs
        ∧ List.Forall₂
            (fun nc call => ∃ ref : Kinematics R,
              call = ObserverCall.setStateContact nc.2.id_ ref nc.2.contactWrenchVector_ false)
            ((run lib t self).self.contacts.filter (fun nc => nc.2.isSet_)) cs := by
  obtain ⟨kine, inputRobot, hc, hcalls⟩ := (run_recovering_calls lib t self h).2 heq
  obtain ⟨cs, h1, _, h3⟩ := resyncContacts_snd lib t self t.robot inputRobot false
    (t.updateContacts self.contacts) [ObserverCall.setWorldCentroidStateKinematics kine false]
  refine ⟨kine, cs, by rw [hcalls, h1]; rfl, ?_⟩
  rw [hc, resyncContacts_fst, List.filter_map, List.forall₂_map_left_iff]
  have hfilter : (t.updateContacts self.contacts).filter
      ((fun nc : String × KoContactWithSensor R => nc.2.isSet_)
        ∘ fun nc => (nc.1, (resyncContact lib t self t.robot inputRobot false [] nc.2).1))
      = (t.updateContacts self.contacts).filter (fun nc => nc.2.isSet_) := by
    refine List.filter_congr ?_
    intro nc _
    simp only [Function.comp, resyncContact_fst_isSet]
  rw [hfilter]
  refine List.Forall₂.imp ?_ h3
  rintro nc call ⟨hset, before, hb⟩
  obtain ⟨ref, hr⟩ := resyncContact_set_shape lib t self t.robot inputRobot false before nc.2 hset
  rw [hr] at hb
  simp only [List.cons.injEq, and_true] at hb
  exact ⟨ref, hb.symm⟩

/-- On a tick without fault, the estimator is called after line 453 exactly when the tick is a Recovering
tick on which the counter reaches the window length. -/
theorem run_quiet_calls_isEmpty (lib : Lib R) (t : Tick R) (self : MCKineticsObserver R)
    (hq : t.nanDetected = false) :
    (run lib t self).calls.isEmpty
      = !decide (0 < self.invincibilityIter_ ∧ self.invincibilityIter_ + 1 = self.invincibilityFrame_) := by
  cases hsel : selectEstimationState t.nanDetected self.invincibilityIter_ self.invincibilityFrame_ with
  | errorDetected =>
    have := selectEstimationState_eq_error _ _ _ hsel
    rw [hq] at this
    exact absurd this (by decide)
  | noIssue =>
    rw [run_noIssue_calls lib t self hsel]
    have hn : ¬ (0 < self.invincibilityIter_ ∧ self.invincibilityIter_ + 1 = self.invincibilityFrame_) := by
      rintro ⟨h0, h1⟩
      have hlt : self.invincibilityIter_ < self.invincibilityFrame_ := by omega
      simp [selectEstimationState, hq, h0, hlt] at hsel
    simp [hn]
  | invincibilityFrame =>
    obtain ⟨_, h0, _⟩ := selectEstimationState_eq_recovering _ _ _ hsel
    by_cases heq : self.invincibilityIter_ + 1 = self.invincibilityFrame_
    · obtain ⟨kine, cs, hcalls, _⟩ := run_recovering_resync lib t self hsel heq
      rw [hcalls]
      simp [h0, heq]
    · rw [(run_recovering_calls lib t self hsel).1 heq]
      simp [heq]

theorem runTicks_quiet_done (lib : Lib R) (k : Nat) :
    ∀ (ts : List (Tick R)) (self : MCKineticsObserver R),
      ts.map (fun t => t.nanDetected) = List.replicate k false →
      ¬ (0 < self.invincibilityIter_ ∧ self.invincibilityIter_ < self.invincibilityFrame_) →
      (runTicks lib ts self).map (fun r => (r.self.estimationState_, r.calls.isEmpty))
        = List.replicate k (EstimationState.noIssue, true) := by
  induction k with
  | zero =>
    intro ts self hflags _
    cases ts with
    | nil => rfl
    | cons t ts => simp at hflags
  | succ k ih =>
    intro ts self hflags hdone
    cases ts with
    | nil => simp [List.replicate_succ] at hflags
    | cons t ts =>
      simp only [List.map_cons, List.replicate_succ, List.cons.injEq] at hflags
      obtain ⟨hq, hrest⟩ := hflags
      have hsel : selectEstimationState t.nanDetected self.invincibilityIter_ self.invincibilityFrame_
          = EstimationState.noIssue := by
        simp only [selectEstimationState, hq]
        simp [hdone]
      have hnext : ¬ (0 < (run lib t self).self.invincibilityIter_
          ∧ (run lib t self).self.invincibilityIter_ < (run lib t self).self.invincibilityFrame_) := by
        rw [run_invincibilityIter, run_invincibilityFrame, hsel]
        exact hdone
      simp only [runTicks, List.map_cons, List.replicate_succ, ih ts _ hrest hnext,
        run_estimationState, hsel, run_noIssue_calls lib t self hsel, List.isEmpty_nil]

theorem runTicks_quiet_recovering (lib : Lib R) (k m : Nat) :
    ∀ (ts : List (Tick R)) (self : MCKineticsObserver R),
      ts.map (fun t => t.nanDetected) = List.replicate (m + 1 + k) false →
      0 < self.invincibilityIter_ →
      self.invincibilityIter_ + (m + 1 : Nat) = self.invincibilityFrame_ →
      (runTicks lib ts self).map (fun r => (r.self.estimationState_, r.calls.isEmpty))
        = List.replicate m (EstimationState.invincibilityFrame, true)
            ++ (EstimationState.invincibilityFrame, false)
              :: List.replicate k (EstimationState.noIssue, true) := by
  induction m with
  | zero =>
    intro ts self hflags hpos hend
    cases ts with
    | nil => simp [List.replicate_succ] at hflags
    | cons t ts =>
      have hlen : 0 + 1 + k = k + 1 := by omega
      rw [hlen] at hflags
      simp only [List.map_cons, List.replicate_succ, List.cons.injEq] at hflags
      obtain ⟨hq, hrest⟩ := hflags
      have hlt : self.invincibilityIter_ < self.invincibilityFrame_ := by omega
      have hsel : selectEstimationState t.nanDetected self.invincibilityIter_ self.invincibilityFrame_
          = EstimationState.invincibilityFrame := by
        simp [selectEstimationState, hq, hpos, hlt]
      have heq : self.invincibilityIter_ + 1 = self.invincibilityFrame_ := by
        rw [← hend]; norm_num
      have hnext : ¬ (0 < (run lib t self).self.invincibilityIter_
          ∧ (run lib t self).self.invincibilityIter_ < (run lib t self).self.invincibilityFrame_) := by
        rw [run_invincibilityIter, run_invincibilityFrame, hsel]
        simp only [nextInvincibilityIter]
        omega
      have hcalls := run_quiet_calls_isEmpty lib t self hq
      simp only [hpos, heq, and_self, decide_True, Bool.not_true] at hcalls
      simp only [runTicks, List.map_cons, List.replicate_zero, List.nil_append,
        runTicks_quiet_done lib k ts _ hrest hnext, run_estimationState, hsel, hcalls]
  | succ m ih =>
    intro ts self hflags hpos hend
    cases ts with
    | nil => simp [List.replicate_succ] at hflags
    | cons t ts =>
      have hlen : m + 1 + 1 + k = (m + 1 + k) + 1 := by omega
      rw [hlen] at hflags
      simp only [List.map_cons, List.replicate_succ, List.cons.injEq] at hflags
      obtain ⟨hq, hrest⟩ := hflags
      have hlt : self.invincibilityIter_ < self.invincibilityFrame_ := by omega
      have hsel : selectEstimationState t.nanDetected self.invincibilityIter_ self.invincibilityFrame_
          = EstimationState.invincibilityFrame := by
        simp [selectEstimationState, hq, hpos, hlt]
      have hne : ¬ (0 < self.invincibilityIter_
          ∧ self.invincibilityIter_ + 1 = self.invincibilityFrame_) := by
        push_cast at hend
        omega
      have hcalls := run_quiet_calls_isEmpty lib t self hq
      simp only [hne, decide_False, Bool.not_false] at hcalls
      have hpos2 : 0 < (run lib t self).self.invincibilityIter_ := by
        rw [run_invincibilityIter, hsel]
        simp only [nextInvincibilityIter]
        omega
      have hend2 : (run lib t self).self.invincibilityIter_ + (m + 1 : Nat)
          = (run lib t self).self.invincibilityFrame_ := by
        rw [run_invincibilityIter, run_invincibilityFrame, hsel]
        simp only [nextInvincibilityIter]
        push_cast at hend ⊢
        omega
      simp only [runTicks, List.map_cons, List.replicate_succ, List.cons_append,
        ih ts _ hrest hpos2 hend2, run_estimationState, hsel, hcalls]

/-- C4 (as amended): in every recovery that is not interrupted by a new fault and whose window
`invincibilityFrame_` is at least 2 ticks (a FaultDetected tick followed by Recovering ticks), the
resynchronisation of the primary estimator (`setWorldCentroidStateKinematics`, then `setStateContact`
for each set contact, all with reset-covariance `false`) is performed on exactly one tick, the Recovering
tick on which `invincibilityIter_` becomes equal to `invincibilityFrame_`: the `W - 2` Recovering ticks
before it make no call, the tick after it and the following ones are Nominal and make no call. More
generally a tick without fault calls the estimator after line 453 if and only if it is a Recovering tick
that brings the counter to the window length, and its calls are then those of the resynchronisation. -/
theorem C4_single_resync (lib : Lib R) (self : MCKineticsObserver R) (t0 : Tick R)
    (ts : List (Tick R)) (k : Nat) (hfault : t0.nanDetected = true)
    (hrec : 2 ≤ self.invincibilityFrame_)
    (hflags : ts.map (fun t => t.nanDetected)
      = List.replicate (self.invincibilityFrame_.toNat - 1 + k) false) :
    (run lib t0 self).self.estimationState_ = EstimationState.errorDetected
      ∧ (runTicks lib ts (run lib t0 self).self).map
            (fun r => (r.self.estimationState_, r.calls.isEmpty))
          = List.replicate (self.invincibilityFrame_.toNat - 2) (EstimationState.invincibilityFrame, true)
              ++ (EstimationState.invincibilityFrame, false)
                :: List.replicate k (EstimationState.noIssue, true)
      ∧ ∀ (t : Tick R) (s : MCKineticsObserver R), t.nanDetected = false →
          ((run lib t s).calls ≠ [] ↔
            ((run lib t s).self.estimationState_ = EstimationState.invincibilityFrame
              ∧ (run lib t s).self.invincibilityIter_ = s.invincibilityFrame_))
          ∧ ((run lib t s).calls ≠ [] →
              ∃ (kine : Kinematics R) (cs : List (ObserverCall R)),
                (run lib t s).calls = ObserverCall.setWorldCentroidStateKinematics kine false :: cs
                  ∧ List.Forall₂
                      (fun nc call => ∃ ref : Kinematics R,
                        call = ObserverCall.setStateContact nc.2.id_ ref nc.2.contactWrenchVector_ false)
                      ((run lib t s).self.contacts.filter (fun nc => nc.2.isSet_)) cs) := by
  refine ⟨?_, ?_, ?_⟩
  · rw [run_estimationState, hfault, selectEstimationState_of_nan]
  · have hiter : (run lib t0 self).self.invincibilityIter_ = 1 := by
      rw [run_invincibilityIter, hfault, selectEstimationState_of_nan]; rfl
    have hlen : self.invincibilityFrame_.toNat - 1 + k
        = (self.invincibilityFrame_.toNat - 2) + 1 + k := by omega
    rw [hlen] at hflags
    refine runTicks_quiet_recovering lib k (self.invincibilityFrame_.toNat - 2) ts _ hflags ?_ ?_
    · rw [hiter]; decide
    · rw [hiter, run_invincibilityFrame]
      omega
  · intro t s hq
    rw [run_estimationState, run_invincibilityIter]
    cases hsel : selectEstimationState t.nanDetected s.invincibilityIter_ s.invincibilityFrame_ with
    | errorDetected =>
      have := selectEstimationState_eq_error _ _ _ hsel
      rw [hq] at this
      exact absurd this (by decide)
    | noIssue =>
      have hcalls := run_noIssue_calls lib t s hsel
      refine ⟨⟨fun h => absurd hcalls h, fun h => ?_⟩, fun h => absurd hcalls h⟩
      exact absurd h.1 (by decide)
    | invincibilityFrame =>
      by_cases heq : s.invincibilityIter_ + 1 = s.invincibilityFrame_
      · obtain ⟨kine, cs, hcalls, hshape⟩ := run_recovering_resync lib t s hsel heq
        refine ⟨⟨fun _ => ⟨rfl, heq⟩, fun _ => ?_⟩, fun _ => ⟨kine, cs, hcalls, hshape⟩⟩
        rw [hcalls]
        exact List.cons_ne_nil _ _
      · have hcalls := (run_recovering_calls lib t s hsel).1 heq
        refine ⟨⟨fun h => absurd hcalls h, fun h => ?_⟩, fun h => absurd hcalls h⟩
        exact absurd h.2 heq

/-- C4, instance: window of 5 ticks; after the fault, three Recovering ticks without call, the Recovering
tick of the resynchronisation, then two Nominal ticks without call. -/
theorem C4_single_resync_witness :
    (Demo.tick true 0).nanDetected = true ∧ 2 ≤ (Demo.observer 5 0).invincibilityFrame_
      ∧ (runTicks Demo.lib (List.replicate 6 (Demo.tick false 0))
            (run Demo.lib (Demo.tick true 0) (Demo.observer 5 0)).self).map
            (fun r => (r.self.estimationState_, r.calls.isEmpty))
          = List.replicate ((Demo.observer 5 0).invincibilityFrame_.toNat - 2)
                (EstimationState.invincibilityFrame, true)
              ++ (EstimationState.invincibilityFrame, false)
                :: List.replicate 2 (EstimationState.noIssue, true) :=
  ⟨rfl, by decide,
    (C4_single_resync Demo.lib (Demo.observer 5 0) (Demo.tick true 0)
      (List.replicate 6 (Demo.tick false 0)) 2 rfl (by decide) rfl).2.1⟩

/-- C4, as stated, fails. With a time step of 1 s `configure` sets `invincibilityFrame_ = 1`; the
ticks without fault that follow a FaultDetected tick are then all Nominal and none of them calls the
estimator: this recovery has no Recovering tick, and the resynchronisation with reset-covariance
`false` is performed on no tick, not on exactly one. -/
theorem C4_counterexample :
    (configureBackup none 1 (Demo.observer 5 0)).invincibilityFrame_ = 1
      ∧ (run Demo.lib (Demo.tick true 0)
          (configureBackup none 1 (Demo.observer 5 0))).self.estimationState_
        = EstimationState.errorDetected
      ∧ (runTicks Demo.lib (List.replicate 4 (Demo.tick false 0))
            (run Demo.lib (Demo.tick true 0) (configureBackup none 1 (Demo.observer 5 0))).self).map
            (fun r => (r.self.estimationState_, r.calls.isEmpty))
          = [(EstimationState.noIssue, true), (EstimationState.noIssue, true),
              (EstimationState.noIssue, true), (EstimationState.noIssue, true)]
      ∧ ∀ r ∈ runTicks Demo.lib (List.replicate 4 (Demo.tick false 0))
            (run Demo.lib (Demo.tick true 0) (configureBackup none 1 (Demo.observer 5 0))).self,
          r.self.estimationState_ ≠ EstimationState.invincibilityFrame ∧ r.calls = [] := by
  have hframe := configureBackup_frame_one none (Demo.observer 5 0)
  have hiter : (run Demo.lib (Demo.tick true 0)
      (configureBackup none 1 (Demo.observer 5 0))).self.invincibilityIter_ = 1 := by
    rw [run_invincibilityIter]
    rfl
  have hdone : ¬ (0 < (run Demo.lib (Demo.tick true 0)
        (configureBackup none 1 (Demo.observer 5 0))).self.invincibilityIter_
      ∧ (run Demo.lib (Demo.tick true 0)
          (configureBackup none 1 (Demo.observer 5 0))).self.invincibilityIter_
        < (run Demo.lib (Demo.tick true 0)
          (configureBackup none 1 (Demo.observer 5 0))).self.invincibilityFrame_) := by
    rw [hiter, run_invincibilityFrame, hframe]
    decide
  have hquiet := runTicks_quiet_done Demo.lib 4 (List.replicate 4 (Demo.tick false 0))
    (run Demo.lib (Demo.tick true 0) (configureBackup none 1 (Demo.observer 5 0))).self rfl hdone
  refine ⟨hframe, ?_, hquiet, ?_⟩
  · rw [run_estimationState]
    rfl
  · intro r hr
    have hmem : (r.self.estimationState_, r.calls.isEmpty)
        ∈ (runTicks Demo.lib (List.replicate 4 (Demo.tick false 0))
            (run Demo.lib (Demo.tick true 0) (configureBackup none 1 (Demo.observer 5 0))).self).map
          (fun r => (r.self.estimationState_, r.calls.isEmpty)) :=
      List.mem_map.2 ⟨r, hr, rfl⟩
    rw [hquiet] at hmem
    have heq := List.eq_of_mem_replicate hmem
    have h1 : r.self.estimationState_ = EstimationState.noIssue := congrArg Prod.fst heq
    have h2 : r.calls.isEmpty = true := congrArg Prod.snd heq
    refine ⟨by rw [h1]; decide, List.isEmpty_iff.1 h2⟩

/-! ### The resets of the FaultDetected tick, the history buffer and the warnings -/

/-- The tick writes of the IMUs only their kinematics (line 808). -/
theorem run_listIMUs (lib : Lib R) (t : Tick R) (self : MCKineticsObserver R) :
    (run lib t self).self.listIMUs_
      = self.listIMUs_.map (fun imu => { imu with fbImuKine := t.worldImuKine imu.name }) := by
  unfold run
  simp only []
  split <;> (try split) <;> rfl

theorem run_listIMUs_gyroBias (lib : Lib R) (t : Tick R) (self : MCKineticsObserver R) :
    (run lib t self).self.listIMUs_.map (fun imu => imu.gyroBias)
      = self.listIMUs_.map (fun imu => imu.gyroBias) := by
  rw [run_listIMUs, List.map_map]
  rfl

theorem runAll_listIMUs_gyroBias (lib : Lib R) (ts : List (Tick R)) :
    ∀ self : MCKineticsObserver R,
      (runAll lib ts self).listIMUs_.map (fun imu => imu.gyroBias)
        = self.listIMUs_.map (fun imu => imu.gyroBias) := by
  induction ts with
  | nil => intro self; rfl
  | cons t ts ih =>
    intro self
    simp only [runAll]
    rw [ih, run_listIMUs_gyroBias]

theorem imusFrom_gyroBias (names : List String) :
    ∀ i : Nat, (imusFrom i names : List (IMU R)).map (fun imu => imu.gyroBias)
      = List.replicate names.length 0 := by
  induction names with
  | nil => intro i; rfl
  | cons name names ih =>
    intro i
    simp only [imusFrom, List.map_cons, List.length_cons, List.replicate_succ, ih]
    rfl

theorem configureIMUs_gyroBias (imuNames : List String) (bodySensorName : String)
    (self : MCKineticsObserver R) :
    (configureIMUs imuNames bodySensorName self).listIMUs_.map (fun imu => imu.gyroBias)
      = List.replicate (if imuNames.isEmpty then 1 else imuNames.length) 0 := by
  cases h : imuNames.isEmpty with
  | true => simp [configureIMUs, h, IMU.create]
  | false => simp [configureIMUs, h, imusFrom_gyroBias]

theorem gyroBiasCalls_of_biases (imus : List (IMU R)) :
    ∀ i : Nat, (gyroBiasCalls i imus).filterMap gyroBiasArgs
      = List.zipWith (fun bias j => (bias, j, true)) (imus.map (fun imu => imu.gyroBias))
          (List.range' i imus.length) := by
  induction imus with
  | nil => intro i; rfl
  | cons imu imus ih =>
    intro i
    simp only [gyroBiasCalls, List.filterMap_cons, gyroBiasArgs, List.map_cons, List.length_cons,
      List.range'_succ, List.zipWith_cons_cons, ih]

theorem gyroBiasCalls_unmodeledWrench (imus : List (IMU R)) :
    ∀ i : Nat, (gyroBiasCalls i imus).filterMap unmodeledWrenchArgs = [] := by
  induction imus with
  | nil => intro i; rfl
  | cons imu imus ih =>
    intro i
    simp only [gyroBiasCalls, List.filterMap_cons, unmodeledWrenchArgs, ih]

theorem zipWith_replicate_zero (n : Nat) :
    ∀ i : Nat, List.zipWith (fun (bias : Vector3 R) (j : Nat) => (bias, j, true))
        (List.replicate n 0) (List.range' i n)
      = (List.range' i n).map (fun j => ((0 : Vector3 R), j, true)) := by
  induction n with
  | zero => intro i; rfl
  | succ n ih =>
    intro i
    simp only [List.replicate_succ, List.range'_succ, List.zipWith_cons_cons, List.map_cons, ih]

theorem filterMap_of_setStateContact (cs : List (ObserverCall R))
    (h : cs.filter isSetStateContact = cs) :
    cs.filterMap gyroBiasArgs = [] ∧ cs.filterMap unmodeledWrenchArgs = [] := by
  rw [List.filter_eq_self] at h
  refine ⟨List.filterMap_eq_nil_iff.2 ?_, List.filterMap_eq_nil_iff.2 ?_⟩
  · intro c hc
    have := h c hc
    cases c <;> simp_all [isSetStateContact, gyroBiasArgs]
  · intro c hc
    have := h c hc
    cases c <;> simp_all [isSetStateContact, unmodeledWrenchArgs]

/-- The calls of the FaultDetected branch of `run` (lines 607-647), in order: the centroid kinematics, the
unmodeled wrench, the gyroscope bias of every IMU, then the calls of the loop over the contacts. -/
theorem run_errorDetected_calls (lib : Lib R) (t : Tick R) (self : MCKineticsObserver R)
    (h : t.nanDetected = true) :
    ∃ (kine : Kinematics R) (cs : List (ObserverCall R)),
      cs.filter isSetStateContact = cs
        ∧ (run lib t self).calls
          = ObserverCall.setWorldCentroidStateKinematics kine true
              :: ObserverCall.setStateUnmodeledWrench Vector6.Zero true
              :: (gyroBiasCalls 0 (run lib t self).self.listIMUs_ ++ cs) := by
  rw [run_listIMUs]
  have key : ∃ (s1 : MCKineticsObserver R) (kine : Kinematics R) (sr ir : Robot R),
      (run lib t self).calls
        = (resyncContacts lib t s1 sr ir true (t.updateContacts self.contacts)
            ([ObserverCall.setWorldCentroidStateKinematics kine true,
              ObserverCall.setStateUnmodeledWrench Vector6.Zero true]
              ++ gyroBiasCalls 0
                  (self.listIMUs_.map
                    (fun imu => { imu with fbImuKine := t.worldImuKine imu.name })))).2 := by
    unfold run
    simp only [h, selectEstimationState, if_true]
    exact ⟨_, _, _, _, rfl⟩
  obtain ⟨s1, kine, sr, ir, hcalls⟩ := key
  obtain ⟨cs, h1, h2, _⟩ := resyncContacts_snd lib t s1 sr ir true (t.updateContacts self.contacts)
    ([ObserverCall.setWorldCentroidStateKinematics kine true,
      ObserverCall.setStateUnmodeledWrench Vector6.Zero true]
      ++ gyroBiasCalls 0
          (self.listIMUs_.map (fun imu => { imu with fbImuKine := t.worldImuKine imu.name })))
  refine ⟨kine, cs, h2, ?_⟩
  rw [hcalls, h1]
  simp

/-- C11: on every FaultDetected tick of an observer whose IMUs were created by `configure` (whatever
ticks were run in between), `observer_.setGyroBias` is called once for every IMU of `listIMUs_`, in
order, with the zero vector, the index of the IMU and reset-covariance `true`, and
`observer_.setStateUnmodeledWrench` is called once, with the zero 6-vector and reset-covariance `true`. -/
theorem C11_fault_resets_bias_and_wrench (lib : Lib R) (imuNames : List String)
    (bodySensorName : String) (self0 self : MCKineticsObserver R) (ts : List (Tick R)) (t : Tick R)
    (hIMUs : self.listIMUs_ = (configureIMUs imuNames bodySensorName self0).listIMUs_)
    (hnan : t.nanDetected = true) :
    (run lib t (runAll lib ts self)).calls.filterMap gyroBiasArgs
        = (List.range (runAll lib ts self).listIMUs_.length).map
            (fun i => ((0 : Vector3 R), i, true))
      ∧ (run lib t (runAll lib ts self)).calls.filterMap unmodeledWrenchArgs
        = [(Vector6.Zero, true)]
      ∧ (runAll lib ts self).listIMUs_.length
        = (if imuNames.isEmpty then 1 else imuNames.length) := by
  have hbias : (runAll lib ts self).listIMUs_.map (fun imu => imu.gyroBias)
      = List.replicate (if imuNames.isEmpty then 1 else imuNames.length) 0 := by
    rw [runAll_listIMUs_gyroBias, hIMUs, configureIMUs_gyroBias]
  have hlen : (runAll lib ts self).listIMUs_.length
      = (if imuNames.isEmpty then 1 else imuNames.length) := by
    have := congrArg List.length hbias
    simpa using this
  have hlen2 : (run lib t (runAll lib ts self)).self.listIMUs_.length
      = (runAll lib ts self).listIMUs_.length := by
    rw [run_listIMUs, List.length_map]
  obtain ⟨kine, cs, hcs, hcalls⟩ := run_errorDetected_calls lib t (runAll lib ts self) hnan
  obtain ⟨hcs1, hcs2⟩ := filterMap_of_setStateContact cs hcs
  refine ⟨?_, ?_, hlen⟩
  · rw [hcalls]
    simp only [List.filterMap_cons, gyroBiasArgs, List.filterMap_append, hcs1, List.append_nil]
    rw [gyroBiasCalls_of_biases, run_listIMUs_gyroBias, hbias, hlen2, hlen, zipWith_replicate_zero,
      List.range_eq_range']
  · rw [hcalls]
    simp only [List.filterMap_cons, unmodeledWrenchArgs, List.filterMap_append, hcs2,
      gyroBiasCalls_unmodeledWrench, List.append_nil]

/-- C11, instance: two IMUs named in the configuration, a Recovering tick, then a fault. -/
theorem C11_fault_resets_bias_and_wrench_witness :
    (Demo.tick true 0).nanDetected = true
      ∧ (run Demo.lib (Demo.tick true 0)
            (runAll Demo.lib [Demo.tick false 0]
              (configureIMUs ["Accelerometer", "Gyrometer"] "Body" (Demo.observer 5 3)))).calls.filterMap
            gyroBiasArgs
          = (List.range (runAll Demo.lib [Demo.tick false 0]
              (configureIMUs ["Accelerometer", "Gyrometer"] "Body"
                (Demo.observer 5 3))).listIMUs_.length).map
              (fun i => ((0 : Vector3 ℚ), i, true))
      ∧ (run Demo.lib (Demo.tick true 0)
            (runAll Demo.lib [Demo.tick false 0]
              (configureIMUs ["Accelerometer", "Gyrometer"] "Body" (Demo.observer 5 3)))).calls.filterMap
            unmodeledWrenchArgs
          = [(Vector6.Zero, true)] :=
  ⟨rfl,
    (C11_fault_resets_bias_and_wrench Demo.lib ["Accelerometer", "Gyrometer"] "Body"
      (Demo.observer 5 3) (configureIMUs ["Accelerometer", "Gyrometer"] "Body" (Demo.observer 5 3))
      [Demo.tick false 0] (Demo.tick true 0) rfl rfl).1,
    (C11_fault_resets_bias_and_wrench Demo.lib ["Accelerometer", "Gyrometer"] "Body"
      (Demo.observer 5 3) (configureIMUs ["Accelerometer", "Gyrometer"] "Body" (Demo.observer 5 3))
      [Demo.tick false 0] (Demo.tick true 0) rfl rfl).2.1⟩

theorem push_back_capacity {α : Type} (b : CircularBuffer α) (x : α) :
    (b.push_back x).capacity = b.capacity := by
  unfold CircularBuffer.push_back
  split
  · rfl
  · split <;> rfl

theorem push_back_length {α : Type} (b : CircularBuffer α) (x : α)
    (hfit : b.data.length ≤ b.capacity) :
    (b.push_back x).data.length = min b.capacity (b.data.length + 1) := by
  unfold CircularBuffer.push_back
  split
  · omega
  · split
    · simp only [List.length_append, List.length_singleton]
      omega
    · simp only [List.length_append, List.length_singleton, List.length_drop]
      omega

/-- The history buffer after a tick: the buffer before it with `pushedEntry` pushed back, handed to
`tiltObserver_.backupFb` on a FaultDetected tick. -/
theorem run_koBackupFbKinematics (lib : Lib R) (t : Tick R) (self : MCKineticsObserver R) :
    (run lib t self).self.koBackupFbKinematics_
      = if t.nanDetected then
          (t.backupFb (self.koBackupFbKinematics_.push_back (pushedEntry t self))).2
        else self.koBackupFbKinematics_.push_back (pushedEntry t self) := by
  cases hsel : selectEstimationState t.nanDetected self.invincibilityIter_ self.invincibilityFrame_ with
  | errorDetected =>
    have hnan := selectEstimationState_eq_error _ _ _ hsel
    rw [(run_errorDetected lib t self hnan).2.2.2]
    simp [hnan, pushedEntry, selectEstimationState]
  | invincibilityFrame =>
    obtain ⟨hq, _, _⟩ := selectEstimationState_eq_recovering _ _ _ hsel
    rw [(run_recovering lib t self hsel).2.2.2]
    simp only [pushedEntry, hsel]
    simp [hq]
  | noIssue =>
    have hq : t.nanDetected = false := by
      cases hb : t.nanDetected with
      | false => rfl
      | true => rw [hb, selectEstimationState_of_nan] at hsel; exact absurd hsel (by decide)
    have hbuf : (run lib t self).self.koBackupFbKinematics_
        = self.koBackupFbKinematics_.push_back
            (t.getGlobalKinematicsOf [] Kinematics.zeroKinematics) := by
      unfold run
      simp [hsel]
    rw [hbuf]
    simp only [pushedEntry, hsel]
    simp [hq]

/-- C12: every call of `run` makes exactly one `push_back` on the history buffer
`koBackupFbKinematics_`, whichever of the three states the tick is in: the buffer after the tick is the
buffer before it with the one entry `pushedEntry` pushed back (on a FaultDetected tick the buffer is
then handed to `tiltObserver_.backupFb`, which fills the pushed entry). So `n` ticks make `n` appends:
when `backupFb` keeps the number of stored entries, a buffer holding `m` entries holds
`min capacity (m + n)` entries after `n` ticks. -/
theorem C12_one_append_per_tick (lib : Lib R) (ts : List (Tick R)) (self : MCKineticsObserver R)
    (hfit : self.koBackupFbKinematics_.data.length ≤ self.koBackupFbKinematics_.capacity)
    (hkeep : ∀ t ∈ ts, ∀ b : CircularBuffer (Kinematics R),
      (t.backupFb b).2.capacity = b.capacity ∧ (t.backupFb b).2.data.length = b.data.length) :
    (∀ (t : Tick R) (s : MCKineticsObserver R),
        (run lib t s).self.koBackupFbKinematics_
          = if t.nanDetected then
              (t.backupFb (s.koBackupFbKinematics_.push_back (pushedEntry t s))).2
            else s.koBackupFbKinematics_.push_back (pushedEntry t s))
      ∧ (runAll lib ts self).koBackupFbKinematics_.capacity = self.koBackupFbKinematics_.capacity
      ∧ (runAll lib ts self).koBackupFbKinematics_.data.length
        = min self.koBackupFbKinematics_.capacity
            (self.koBackupFbKinematics_.data.length + ts.length) := by
  refine ⟨fun t s => run_koBackupFbKinematics lib t s, ?_⟩
  induction ts generalizing self with
  | nil =>
    refine ⟨rfl, ?_⟩
    simp only [runAll, List.length_nil, Nat.add_zero]
    omega
  | cons t ts ih =>
    have hstep : (run lib t self).self.koBackupFbKinematics_.capacity
          = self.koBackupFbKinematics_.capacity
        ∧ (run lib t self).self.koBackupFbKinematics_.data.length
          = min self.koBackupFbKinematics_.capacity (self.koBackupFbKinematics_.data.length + 1) := by
      rw [run_koBackupFbKinematics]
      split
      · rw [(hkeep t (List.mem_cons_self _ _) _).1, (hkeep t (List.mem_cons_self _ _) _).2,
          push_back_capacity, push_back_length _ _ hfit]
        exact ⟨rfl, rfl⟩
      · rw [push_back_capacity, push_back_length _ _ hfit]
        exact ⟨rfl, rfl⟩
    have hfit2 : (run lib t self).self.koBackupFbKinematics_.data.length
        ≤ (run lib t self).self.koBackupFbKinematics_.capacity := by
      rw [hstep.1, hstep.2]
      exact min_le_left _ _
    obtain ⟨ih1, ih2⟩ := ih (run lib t self).self hfit2
      (fun t2 h2 => hkeep t2 (List.mem_cons_of_mem _ h2))
    simp only [runAll, List.length_cons]
    rw [ih1, ih2, hstep.1, hstep.2]
    refine ⟨rfl, ?_⟩
    omega

/-- C12, instance: a buffer of capacity 3 holding one entry holds `min 3 (1 + 4)` entries after a
FaultDetected tick and three Recovering ticks. -/
theorem C12_one_append_per_tick_witness :
    (Demo.observer 5 0).koBackupFbKinematics_.data.length
        ≤ (Demo.observer 5 0).koBackupFbKinematics_.capacity
      ∧ (runAll Demo.lib (Demo.faultThenQuiet 3) (Demo.observer 5 0)).koBackupFbKinematics_.data.length
        = min (Demo.observer 5 0).koBackupFbKinematics_.capacity
            ((Demo.observer 5 0).koBackupFbKinematics_.data.length + (Demo.faultThenQuiet 3).length) :=
  ⟨by decide,
    (C12_one_append_per_tick Demo.lib (Demo.faultThenQuiet 3) (Demo.observer 5 0) (by decide)
      (fun t ht b => by
        simp only [Demo.faultThenQuiet, List.mem_cons, List.mem_replicate] at ht
        rcases ht with rfl | ⟨_, rfl⟩ <;> exact ⟨rfl, rfl⟩)).2.2⟩

theorem set_capacity_capacity {α : Type} (b : CircularBuffer α) (n : Int) (h0 : 0 ≤ n)
    (h1 : n < 2 ^ 64) : ((b.set_capacity n).capacity : Int) = n := by
  simp only [CircularBuffer.set_capacity]
  rw [Int.emod_eq_of_lt h0 h1, Int.toNat_of_nonneg h0]

/-- C13: after `configure` (cycle period positive, `backupInterval` not negative, default 1 s, and the
quotient within the range of `int`), the capacity of the history buffer `koBackupFbKinematics_` and the
capacity of the buffer of the backup observer are both `fbBackupCapacity_`, which is
`backupInterval / timeStep`, the quotient of `double`, truncated toward zero: with `n` the integer part
of the exact quotient it is `n`, or `n + 1` when the quotient rounds up to that integer, so that
`backupInterval < (c + 1) * timeStep` and `c * timeStep ≤ backupInterval * (1 + 2⁻⁵³)`. -/
theorem C13_buffer_capacities (backupInterval : Option Int) (timeStep : R)
    (self : MCKineticsObserver R) (hts : 0 < timeStep) (hbi : 0 ≤ backupInterval.getD 1)
    (hrange : ((backupInterval.getD 1 : Int) : R) / timeStep < 2 ^ 31 - 1) :
    (configureBackup backupInterval timeStep self).fbBackupCapacity_
        = toInt (roundDouble (((backupInterval.getD 1 : Int) : R) / timeStep))
      ∧ ((configureBackup backupInterval timeStep self).koBackupFbKinematics_.capacity : Int)
        = (configureBackup backupInterval timeStep self).fbBackupCapacity_
      ∧ ((configureBackup backupInterval timeStep self).tiltBackupFbKinematics_.capacity : Int)
        = (configureBackup backupInterval timeStep self).fbBackupCapacity_
      ∧ 0 ≤ (configureBackup backupInterval timeStep self).fbBackupCapacity_
      ∧ ⌊((backupInterval.getD 1 : Int) : R) / timeStep⌋
        ≤ (configureBackup backupInterval timeStep self).fbBackupCapacity_
      ∧ (configureBackup backupInterval timeStep self).fbBackupCapacity_
        ≤ ⌊((backupInterval.getD 1 : Int) : R) / timeStep⌋ + 1
      ∧ ((backupInterval.getD 1 : Int) : R)
        < (((configureBackup backupInterval timeStep self).fbBackupCapacity_ : R) + 1) * timeStep
      ∧ ((configureBackup backupInterval timeStep self).fbBackupCapacity_ : R) * timeStep
        ≤ ((backupInterval.getD 1 : Int) : R) * (1 + 1 / 2 ^ 53) := by
  have hx : (0 : R) ≤ ((backupInterval.getD 1 : Int) : R) := by exact_mod_cast hbi
  obtain ⟨h0, h31, c1, c2, c3, c4⟩ :=
    cycle_count_bounds ((backupInterval.getD 1 : Int) : R) timeStep hx hts hrange
  have h64 : toInt (roundDouble (((backupInterval.getD 1 : Int) : R) / timeStep)) < 2 ^ 64 := by
    omega
  exact ⟨rfl, set_capacity_capacity _ _ h0 h64, set_capacity_capacity _ _ h0 h64, h0, c1, c2, c3, c4⟩

/-- C13, instance: `backupInterval = 1` and the cycle period of 5 ms (the double nearest to 0.005)
give the capacity 200 for both buffers, where the integer part of the exact quotient is 199. -/
theorem C13_buffer_capacities_witness :
    (0 : ℚ) < Demo.timeStep5ms ∧ (0 : Int) ≤ (some 1 : Option Int).getD 1
      ∧ (((some 1 : Option Int).getD 1 : Int) : ℚ) / Demo.timeStep5ms < 2 ^ 31 - 1
      ∧ (configureBackup (some 1) Demo.timeStep5ms (Demo.observer 5 0)).fbBackupCapacity_ = 200
      ∧ ⌊(((some 1 : Option Int).getD 1 : Int) : ℚ) / Demo.timeStep5ms⌋ = 199
      ∧ ((configureBackup (some 1) Demo.timeStep5ms (Demo.observer 5 0)).koBackupFbKinematics_.capacity
          : Int)
        = (configureBackup (some 1) Demo.timeStep5ms (Demo.observer 5 0)).fbBackupCapacity_
      ∧ ((configureBackup (some 1) Demo.timeStep5ms (Demo.observer 5 0)).tiltBackupFbKinematics_.capacity
          : Int)
        = (configureBackup (some 1) Demo.timeStep5ms (Demo.observer 5 0)).fbBackupCapacity_ :=
  ⟨by norm_num [Demo.timeStep5ms], by decide, by norm_num [Demo.timeStep5ms],
    (configureBackup_timeStep5ms (some 1) (Demo.observer 5 0)).2.2,
    by rw [Int.floor_eq_iff]; norm_num [Demo.timeStep5ms],
    (C13_buffer_capacities (some 1) Demo.timeStep5ms (Demo.observer 5 0)
      (by norm_num [Demo.timeStep5ms]) (by decide) (by norm_num [Demo.timeStep5ms])).2.1,
    (C13_buffer_capacities (some 1) Demo.timeStep5ms (Demo.observer 5 0)
      (by norm_num [Demo.timeStep5ms]) (by decide) (by norm_num [Demo.timeStep5ms])).2.2.1⟩

theorem inverse_eq_inv (M : Matrix3 R) : inverse M = M⁻¹ := by
  simp [inverse, Matrix.inv_def, Ring.inverse_eq_inv']

/-- The position written by `getOdometryWorldContactRest` outside the Flat mode (lines 925-929). -/
theorem getOdometryWorldContactRest_position (lib : Lib R) (self : MCKineticsObserver R)
    (g : Kinematics R → Kinematics R) (c : KoContactWithSensor R) (ref : Kinematics R)
    (h : self.odometryType_ ≠ OdometryType.Flat) :
    (getOdometryWorldContactRest lib self g c ref).position
      = ((g c.fbContactKine_).orientation * inverse self.linStiffness_).mulVec
          (c.contactWrenchVector_.seg0
            + ((g c.fbContactKine_).orientation.transpose * self.linDamping_).mulVec
                (g c.fbContactKine_).linVel)
        + (g c.fbContactKine_).position := by
  simp [getOdometryWorldContactRest, h]

/-- The position written by `getOdometryWorldContactRest` in the Flat mode (lines 925-929 and 963). -/
theorem getOdometryWorldContactRest_position_flat (lib : Lib R) (self : MCKineticsObserver R)
    (g : Kinematics R → Kinematics R) (c : KoContactWithSensor R) (ref : Kinematics R)
    (h : self.odometryType_ = OdometryType.Flat) :
    (getOdometryWorldContactRest lib self g c ref).position
      = Function.update
          (((g c.fbContactKine_).orientation * inverse self.linStiffness_).mulVec
              (c.contactWrenchVector_.seg0
                + ((g c.fbContactKine_).orientation.transpose * self.linDamping_).mulVec
                    (g c.fbContactKine_).linVel)
            + (g c.fbContactKine_).position) 2 0 := by
  simp [getOdometryWorldContactRest, h]

/-- The orientation written by `getOdometryWorldContactRest` (lines 933-952), in every mode. -/
theorem getOdometryWorldContactRest_orientation (lib : Lib R) (self : MCKineticsObserver R)
    (g : Kinematics R → Kinematics R) (c : KoContactWithSensor R) (ref : Kinematics R) :
    (getOdometryWorldContactRest lib self g c ref).orientation
      = (lib.angleAxisToMatrix3 (flexRotAngle lib self (g c.fbContactKine_) c)
            (flexRotAxis lib self (g c.fbContactKine_) c)).transpose
          * (g c.fbContactKine_).orientation := by
  unfold getOdometryWorldContactRest
  simp only []
  split <;> rfl

/-- C15: in 6D odometry mode, for every contact kinematics (position `p`, rotation matrix `R`, linear
velocity `v`), measured contact-frame force `F` and stiffness `Kp` and damping `Dp`, the rest position
returned by `getOdometryWorldContactRest` is `R * Kp⁻¹ * (F + Rᵀ * Dp * v) + p`, over exact
arithmetic. -/
theorem C15_rest_position (lib : Lib R) (self : MCKineticsObserver R)
    (g : Kinematics R → Kinematics R) (c : KoContactWithSensor R) (ref : Kinematics R)
    (h6d : self.odometryType_ = OdometryType.Odometry6d) :
    (getOdometryWorldContactRest lib self g c ref).position
      = (g c.fbContactKine_).orientation.mulVec
          ((self.linStiffness_)⁻¹.mulVec
            (c.contactWrenchVector_.seg0
              + (g c.fbContactKine_).orientation.transpose.mulVec
                  (self.linDamping_.mulVec (g c.fbContactKine_).linVel)))
        + (g c.fbContactKine_).position := by
  rw [getOdometryWorldContactRest_position lib self g c ref (by rw [h6d]; decide), inverse_eq_inv,
    Matrix.mulVec_mulVec, Matrix.mulVec_mulVec]

/-- C19: when `odometryType_` is Flat, the rest position returned by `getOdometryWorldContactRest` has
z-component exactly 0, while its x and y components and the rest orientation are those computed in 6D
mode for the same input. -/
theorem C19_flat_rest_height (lib : Lib R) (self : MCKineticsObserver R)
    (g : Kinematics R → Kinematics R) (c : KoContactWithSensor R) (ref : Kinematics R)
    (hflat : self.odometryType_ = OdometryType.Flat) :
    (getOdometryWorldContactRest lib self g c ref).position 2 = 0
      ∧ (getOdometryWorldContactRest lib self g c ref).position 0
        = (getOdometryWorldContactRest lib
            { self with odometryType_ := OdometryType.Odometry6d } g c ref).position 0
      ∧ (getOdometryWorldContactRest lib self g c ref).position 1
        = (getOdometryWorldContactRest lib
            { self with odometryType_ := OdometryType.Odometry6d } g c ref).position 1
      ∧ (getOdometryWorldContactRest lib self g c ref).orientation
        = (getOdometryWorldContactRest lib
            { self with odometryType_ := OdometryType.Odometry6d } g c ref).orientation := by
  have h6 : ({ self with odometryType_ := OdometryType.Odometry6d }
      : MCKineticsObserver R).odometryType_ ≠ OdometryType.Flat := by
    simp
  rw [getOdometryWorldContactRest_position_flat lib self g c ref hflat,
    getOdometryWorldContactRest_position lib { self with odometryType_ := OdometryType.Odometry6d }
      g c ref h6,
    getOdometryWorldContactRest_orientation, getOdometryWorldContactRest_orientation]
  refine ⟨by simp, ?_, ?_, rfl⟩
  · rw [Function.update_noteq (by decide)]
  · rw [Function.update_noteq (by decide)]

/-- C15, instance: stiffness `diag(2, 4, 5)`, damping `diag(1, 1, 1)`, a contact turned by a quarter turn
and moving at `(1, 0, 0)`, measured force `(8, -12, 25)`. -/
theorem C15_rest_position_witness :
    (Demo.odometryObserver OdometryType.Odometry6d ![2, 4, 5] ![1, 1, 1] ![1, 1, 1] ![1, 1, 1]
        : MCKineticsObserver ℚ).odometryType_ = OdometryType.Odometry6d
      ∧ (getOdometryWorldContactRest Demo.lib
          (Demo.odometryObserver OdometryType.Odometry6d ![2, 4, 5] ![1, 1, 1] ![1, 1, 1] ![1, 1, 1])
          (fun k => k) (Demo.odometryContact ![8, -12, 25] 0 (Demo.contactKine ![1, 0, 0] 0))
          Kinematics.zeroKinematics).position
        = Demo.quarterTurn.mulVec
            ((Matrix.diagonal ![2, 4, 5] : Matrix3 ℚ)⁻¹.mulVec
              (![8, -12, 25]
                + Demo.quarterTurn.transpose.mulVec
                    ((Matrix.diagonal ![1, 1, 1] : Matrix3 ℚ).mulVec ![1, 0, 0])))
          + ![1, 2, 3] :=
  ⟨rfl,
    C15_rest_position Demo.lib
      (Demo.odometryObserver OdometryType.Odometry6d ![2, 4, 5] ![1, 1, 1] ![1, 1, 1] ![1, 1, 1])
      (fun k => k) (Demo.odometryContact ![8, -12, 25] 0 (Demo.contactKine ![1, 0, 0] 0))
      Kinematics.zeroKinematics rfl⟩

/-- C19, instance: the same contact in Flat mode. -/
theorem C19_flat_rest_height_witness :
    (Demo.odometryObserver OdometryType.Flat ![2, 4, 5] ![1, 1, 1] ![1, 1, 1] ![1, 1, 1]
        : MCKineticsObserver ℚ).odometryType_ = OdometryType.Flat
      ∧ (getOdometryWorldContactRest Demo.lib
          (Demo.odometryObserver OdometryType.Flat ![2, 4, 5] ![1, 1, 1] ![1, 1, 1] ![1, 1, 1])
          (fun k => k) (Demo.odometryContact ![8, -12, 25] 0 (Demo.contactKine ![1, 0, 0] 0))
          Kinematics.zeroKinematics).position 2 = 0 :=
  ⟨rfl,
    (C19_flat_rest_height Demo.lib
      (Demo.odometryObserver OdometryType.Flat ![2, 4, 5] ![1, 1, 1] ![1, 1, 1] ![1, 1, 1])
      (fun k => k) (Demo.odometryContact ![8, -12, 25] 0 (Demo.contactKine ![1, 0, 0] 0))
      Kinematics.zeroKinematics rfl).1⟩

theorem inverse_mul_self (M : Matrix3 R) (h : M.det ≠ 0) : inverse M * M = 1 := by
  rw [inverse_eq_inv]
  exact Matrix.nonsing_inv_mul M (isUnit_iff_ne_zero.2 h)

/-- C20: position round trip in 6D mode. For every rotation matrix `R`, deformed position `p`, rest
position `pRest`, diagonal stiffness `Kp` with strictly positive entries and any damping, if the linear
velocity of the contact is zero and the measured contact-frame force is the spring force
`F = Kp * Rᵀ * (pRest - p)`, the rest position computed by `getOdometryWorldContactRest` is `pRest`. -/
theorem C20_position_round_trip (lib : Lib R) (self : MCKineticsObserver R)
    (g : Kinematics R → Kinematics R) (c : KoContactWithSensor R) (ref : Kinematics R)
    (kp pRest : Vector3 R) (h6d : self.odometryType_ = OdometryType.Odometry6d)
    (hR : (g c.fbContactKine_).orientation * (g c.fbContactKine_).orientation.transpose = 1)
    (hKp : self.linStiffness_ = Matrix.diagonal kp) (hpos : ∀ i, 0 < kp i)
    (hv : (g c.fbContactKine_).linVel = 0)
    (hF : c.contactWrenchVector_.seg0
      = self.linStiffness_.mulVec
          ((g c.fbContactKine_).orientation.transpose.mulVec (pRest - (g c.fbContactKine_).position))) :
    (getOdometryWorldContactRest lib self g c ref).position = pRest := by
  have hdet : self.linStiffness_.det ≠ 0 := by
    rw [hKp, Matrix.det_diagonal]
    exact Finset.prod_ne_zero_iff.2 (fun i _ => (hpos i).ne')
  have hmat : (g c.fbContactKine_).orientation * inverse self.linStiffness_ * self.linStiffness_
      * (g c.fbContactKine_).orientation.transpose = 1 := by
    rw [Matrix.mul_assoc (g c.fbContactKine_).orientation, inverse_mul_self _ hdet, Matrix.mul_one, hR]
  rw [getOdometryWorldContactRest_position lib self g c ref (by rw [h6d]; decide), hv,
    Matrix.mulVec_zero, add_zero, hF, Matrix.mulVec_mulVec, Matrix.mulVec_mulVec, hmat,
    Matrix.one_mulVec]
  simp

/-- C20, instance: `R` a quarter turn, `p = (1, 2, 3)`, `pRest = (4, 6, 8)`, `Kp = diag(2, 4, 5)`:
the spring force is `(8, -12, 25)` and the rest position found is `(4, 6, 8)`. -/
theorem C20_position_round_trip_witness :
    (getOdometryWorldContactRest Demo.lib
        (Demo.odometryObserver OdometryType.Odometry6d ![2, 4, 5] ![1, 1, 1] ![1, 1, 1] ![1, 1, 1])
        (fun k => k) (Demo.odometryContact ![8, -12, 25] 0 (Demo.contactKine 0 0))
        Kinematics.zeroKinematics).position
      = ![4, 6, 8] :=
  C20_position_round_trip Demo.lib
    (Demo.odometryObserver OdometryType.Odometry6d ![2, 4, 5] ![1, 1, 1] ![1, 1, 1] ![1, 1, 1])
    (fun k => k) (Demo.odometryContact ![8, -12, 25] 0 (Demo.contactKine 0 0))
    Kinematics.zeroKinematics ![2, 4, 5] ![4, 6, 8] rfl
    (by
      show Demo.quarterTurn * Demo.quarterTurn.transpose = 1
      ext i j
      rw [Matrix.mul_apply, Fin.sum_univ_three]
      simp only [Matrix.transpose_apply]
      fin_cases i <;> fin_cases j <;> simp [Demo.quarterTurn, Matrix.vecHead, Matrix.vecTail])
    rfl (fun i => by fin_cases i <;> norm_num) rfl
    (by
      show (![8, -12, 25] : Vector3 ℚ)
        = (Matrix.diagonal ![2, 4, 5]).mulVec
            (Demo.quarterTurn.transpose.mulVec (![4, 6, 8] - ![1, 2, 3]))
      ext i
      simp only [Matrix.mulVec, Matrix.dotProduct, Fin.sum_univ_three, Matrix.transpose_apply]
      fin_cases i <;>
        simp [Demo.quarterTurn, Matrix.diagonal, Matrix.vecHead, Matrix.vecTail] <;> norm_num)

theorem sumsq_mulVec_of_orthogonal (Rm : Matrix3 R) (w : Vector3 R)
    (h : Rm.transpose * Rm = 1) :
    Rm.mulVec w 0 * Rm.mulVec w 0 + Rm.mulVec w 1 * Rm.mulVec w 1 + Rm.mulVec w 2 * Rm.mulVec w 2
      = w 0 * w 0 + w 1 * w 1 + w 2 * w 2 := by
  have hdot : Matrix.dotProduct (Rm.mulVec w) (Rm.mulVec w) = Matrix.dotProduct w w := by
    rw [Matrix.dotProduct_mulVec, Matrix.vecMul_mulVec, h, Matrix.vecMul_one]
  simp only [Matrix.dotProduct, Fin.sum_univ_three] at hdot
  exact hdot

theorem norm_mulVec_of_orthogonal (lib : Lib R) (Rm : Matrix3 R) (w : Vector3 R)
    (h : Rm.transpose * Rm = 1) : norm lib (Rm.mulVec w) = norm lib w := by
  unfold norm
  rw [sumsq_mulVec_of_orthogonal Rm w h]

/-- The vector `flexRotDiff` is `R * (-2 * Kr⁻¹ * tauCorrected)` with
`tauCorrected = tau + Rᵀ * Dr * omega`. -/
theorem flexRotDiff_eq (self : MCKineticsObserver R) (K : Kinematics R)
    (c : KoContactWithSensor R) :
    flexRotDiff self K c
      = K.orientation.mulVec
          ((-2 : R) • (self.angStiffness_)⁻¹.mulVec
            (c.contactWrenchVector_.seg3
              + K.orientation.transpose.mulVec (self.angDamping_.mulVec K.angVel))) := by
  unfold flexRotDiff
  rw [inverse_eq_inv, Matrix.smul_mul, Matrix.smul_mulVec_assoc, Matrix.mulVec_smul,
    Matrix.mulVec_mulVec, Matrix.mulVec_mulVec]

theorem clamp_eq (x : R) :
    (if x > 1 then 1 else if x < -1 then -1 else x) = max (-1) (min x 1) := by
  by_cases h1 : x > 1
  · rw [if_pos h1, min_eq_right h1.le, max_eq_right (by norm_num)]
  · rw [if_neg h1, min_eq_left (not_lt.1 h1)]
    by_cases h2 : x < -1
    · rw [if_pos h2, max_eq_left h2.le]
    · rw [if_neg h2, max_eq_right (not_lt.1 h2)]

/-- C16: for every rotation matrix `R` (`Rᵀ * R = 1`), measured torque `tau`, angular velocity `omega`
and matrices `Kr`, `Dr`, with `tauCorrected = tau + Rᵀ * Dr * omega`: the norm of the vector the code
builds, `-2 * R * Kr⁻¹ * tauCorrected`, is the norm of `-2 * Kr⁻¹ * tauCorrected`, and the deformation
angle used by `getOdometryWorldContactRest` is
`asin(clamp(norm(-2 * Kr⁻¹ * tauCorrected) / 2, -1, 1))`; the rest orientation is built from that
angle. -/
theorem C16_deformation_angle (lib : Lib R) (self : MCKineticsObserver R)
    (g : Kinematics R → Kinematics R) (c : KoContactWithSensor R) (ref : Kinematics R)
    (hR : (g c.fbContactKine_).orientation.transpose * (g c.fbContactKine_).orientation = 1) :
    norm lib (flexRotDiff self (g c.fbContactKine_) c)
        = norm lib ((-2 : R) • (self.angStiffness_)⁻¹.mulVec
            (c.contactWrenchVector_.seg3
              + (g c.fbContactKine_).orientation.transpose.mulVec
                  (self.angDamping_.mulVec (g c.fbContactKine_).angVel)))
      ∧ flexRotAngle lib self (g c.fbContactKine_) c
        = lib.asin (max (-1) (min
            (norm lib ((-2 : R) • (self.angStiffness_)⁻¹.mulVec
              (c.contactWrenchVector_.seg3
                + (g c.fbContactKine_).orientation.transpose.mulVec
                    (self.angDamping_.mulVec (g c.fbContactKine_).angVel))) / 2) 1))
      ∧ (getOdometryWorldContactRest lib self g c ref).orientation
        = (lib.angleAxisToMatrix3 (flexRotAngle lib self (g c.fbContactKine_) c)
              (flexRotAxis lib self (g c.fbContactKine_) c)).transpose
            * (g c.fbContactKine_).orientation := by
  have hnorm : norm lib (flexRotDiff self (g c.fbContactKine_) c)
      = norm lib ((-2 : R) • (self.angStiffness_)⁻¹.mulVec
          (c.contactWrenchVector_.seg3
            + (g c.fbContactKine_).orientation.transpose.mulVec
                (self.angDamping_.mulVec (g c.fbContactKine_).angVel))) := by
    rw [flexRotDiff_eq, norm_mulVec_of_orthogonal lib _ _ hR]
  refine ⟨hnorm, ?_, getOdometryWorldContactRest_orientation lib self g c ref⟩
  unfold flexRotAngle
  simp only []
  rw [clamp_eq, hnorm]

/-- C16, instance: a contact turned by a quarter turn, `Kr = diag(1, 2, 4)`, measured torque
`(1, 0, 0)`, angular velocity `(0, 0, 1)`. -/
theorem C16_deformation_angle_witness :
    norm Demo.lib
        (flexRotDiff
          (Demo.odometryObserver OdometryType.Odometry6d ![2, 4, 5] ![1, 1, 1] ![1, 2, 4] ![1, 1, 1])
          (Demo.contactKine 0 ![0, 0, 1])
          (Demo.odometryContact 0 ![1, 0, 0] (Demo.contactKine 0 ![0, 0, 1])))
      = norm Demo.lib ((-2 : ℚ) • (Matrix.diagonal ![1, 2, 4] : Matrix3 ℚ)⁻¹.mulVec
          (![1, 0, 0]
            + Demo.quarterTurn.transpose.mulVec
                ((Matrix.diagonal ![1, 1, 1] : Matrix3 ℚ).mulVec ![0, 0, 1]))) :=
  (C16_deformation_angle Demo.lib
    (Demo.odometryObserver OdometryType.Odometry6d ![2, 4, 5] ![1, 1, 1] ![1, 2, 4] ![1, 1, 1])
    (fun k => k) (Demo.odometryContact 0 ![1, 0, 0] (Demo.contactKine 0 ![0, 0, 1]))
    Kinematics.zeroKinematics
    (by
      show Demo.quarterTurn.transpose * Demo.quarterTurn = 1
      ext i j
      rw [Matrix.mul_apply, Fin.sum_univ_three]
      simp only [Matrix.transpose_apply]
      fin_cases i <;> fin_cases j <;> simp [Demo.quarterTurn, Matrix.vecHead, Matrix.vecTail])).1

/-- C17 (as amended): the rest orientation returned by `getOdometryWorldContactRest` is
`deformationᵀ * R`, where `deformation` is the rotation by the deformation angle about the axis
`flexRotDiff / norm(flexRotDiff)` with `flexRotDiff = R * (-2 * Kr⁻¹ * tauCorrected)` and
`tauCorrected = tau + Rᵀ * Dr * omega`; this axis is a unit vector when the norm is a non-zero square
root of the sum of the squares. -/
theorem C17_rest_orientation (lib : Lib R) (self : MCKineticsObserver R)
    (g : Kinematics R → Kinematics R) (c : KoContactWithSensor R) (ref : Kinematics R) :
    (getOdometryWorldContactRest lib self g c ref).orientation
        = (lib.angleAxisToMatrix3 (flexRotAngle lib self (g c.fbContactKine_) c)
              (vdiv (flexRotDiff self (g c.fbContactKine_) c)
                (norm lib (flexRotDiff self (g c.fbContactKine_) c)))).transpose
            * (g c.fbContactKine_).orientation
      ∧ flexRotDiff self (g c.fbContactKine_) c
        = (g c.fbContactKine_).orientation.mulVec
            ((-2 : R) • (self.angStiffness_)⁻¹.mulVec
              (c.contactWrenchVector_.seg3
                + (g c.fbContactKine_).orientation.transpose.mulVec
                    (self.angDamping_.mulVec (g c.fbContactKine_).angVel)))
      ∧ (norm lib (flexRotDiff self (g c.fbContactKine_) c)
            * norm lib (flexRotDiff self (g c.fbContactKine_) c)
          = flexRotDiff self (g c.fbContactKine_) c 0 * flexRotDiff self (g c.fbContactKine_) c 0
            + flexRotDiff self (g c.fbContactKine_) c 1 * flexRotDiff self (g c.fbContactKine_) c 1
            + flexRotDiff self (g c.fbContactKine_) c 2 * flexRotDiff self (g c.fbContactKine_) c 2 →
          norm lib (flexRotDiff self (g c.fbContactKine_) c) ≠ 0 →
          flexRotAxis lib self (g c.fbContactKine_) c 0 * flexRotAxis lib self (g c.fbContactKine_) c 0
            + flexRotAxis lib self (g c.fbContactKine_) c 1
              * flexRotAxis lib self (g c.fbContactKine_) c 1
            + flexRotAxis lib self (g c.fbContactKine_) c 2
              * flexRotAxis lib self (g c.fbContactKine_) c 2
            = 1) := by
  refine ⟨getOdometryWorldContactRest_orientation lib self g c ref, flexRotDiff_eq _ _ _, ?_⟩
  intro hsq hne
  simp only [flexRotAxis, vdiv]
  field_simp
  rw [← hsq]

/-- C17, instance of the amended statement: a contact turned by a quarter turn with measured torque
`(1/2, 0, 0)`; `flexRotDiff` is `(0, -1, 0)` and the axis is a unit vector. -/
theorem C17_rest_orientation_witness :
    flexRotAxis Demo.lib
          (Demo.odometryObserver OdometryType.Odometry6d ![2, 4, 5] ![1, 1, 1] ![1, 1, 1] ![1, 1, 1])
          (Demo.contactKine 0 0) (Demo.odometryContact 0 ![1 / 2, 0, 0] (Demo.contactKine 0 0)) 0
        * flexRotAxis Demo.lib
          (Demo.odometryObserver OdometryType.Odometry6d ![2, 4, 5] ![1, 1, 1] ![1, 1, 1] ![1, 1, 1])
          (Demo.contactKine 0 0) (Demo.odometryContact 0 ![1 / 2, 0, 0] (Demo.contactKine 0 0)) 0
      + flexRotAxis Demo.lib
          (Demo.odometryObserver OdometryType.Odometry6d ![2, 4, 5] ![1, 1, 1] ![1, 1, 1] ![1, 1, 1])
          (Demo.contactKine 0 0) (Demo.odometryContact 0 ![1 / 2, 0, 0] (Demo.contactKine 0 0)) 1
        * flexRotAxis Demo.lib
          (Demo.odometryObserver OdometryType.Odometry6d ![2, 4, 5] ![1, 1, 1] ![1, 1, 1] ![1, 1, 1])
          (Demo.contactKine 0 0) (Demo.odometryContact 0 ![1 / 2, 0, 0] (Demo.contactKine 0 0)) 1
      + flexRotAxis Demo.lib
          (Demo.odometryObserver OdometryType.Odometry6d ![2, 4, 5] ![1, 1, 1] ![1, 1, 1] ![1, 1, 1])
          (Demo.contactKine 0 0) (Demo.odometryContact 0 ![1 / 2, 0, 0] (Demo.contactKine 0 0)) 2
        * flexRotAxis Demo.lib
          (Demo.odometryObserver OdometryType.Odometry6d ![2, 4, 5] ![1, 1, 1] ![1, 1, 1] ![1, 1, 1])
          (Demo.contactKine 0 0) (Demo.odometryContact 0 ![1 / 2, 0, 0] (Demo.contactKine 0 0)) 2
      = 1 := by
  have hd : flexRotDiff
      (Demo.odometryObserver OdometryType.Odometry6d ![2, 4, 5] ![1, 1, 1] ![1, 1, 1] ![1, 1, 1])
      (Demo.odometryContact 0 ![1 / 2, 0, 0] (Demo.contactKine 0 0)).fbContactKine_
      (Demo.odometryContact 0 ![1 / 2, 0, 0] (Demo.contactKine 0 0))
      = ![0, -1, 0] := by
    have hone : Matrix.diagonal (![1, 1, 1] : Fin 3 → ℚ) = 1 := by
      ext i j
      fin_cases i <;> fin_cases j <;> simp [Matrix.diagonal]
    rw [flexRotDiff_eq]
    simp only [Demo.odometryObserver, Demo.odometryContact, Demo.contactKine, hone, inv_one,
      Matrix.one_mulVec, Matrix.mulVec_zero, add_zero]
    ext i
    simp only [Matrix.mulVec, Matrix.dotProduct, Fin.sum_univ_three]
    fin_cases i <;> simp [Demo.quarterTurn, Matrix.vecHead, Matrix.vecTail]
  have hn : norm Demo.lib
      (flexRotDiff
        (Demo.odometryObserver OdometryType.Odometry6d ![2, 4, 5] ![1, 1, 1] ![1, 1, 1] ![1, 1, 1])
        (Demo.odometryContact 0 ![1 / 2, 0, 0] (Demo.contactKine 0 0)).fbContactKine_
        (Demo.odometryContact 0 ![1 / 2, 0, 0] (Demo.contactKine 0 0)))
      = 1 := by
    rw [hd]
    simp [norm, Demo.lib]
  exact (C17_rest_orientation Demo.lib
    (Demo.odometryObserver OdometryType.Odometry6d ![2, 4, 5] ![1, 1, 1] ![1, 1, 1] ![1, 1, 1])
    (fun k => k) (Demo.odometryContact 0 ![1 / 2, 0, 0] (Demo.contactKine 0 0))
    Kinematics.zeroKinematics).2.2
    (by
      rw [hn, hd]
      simp)
    (by
      rw [hn]
      exact one_ne_zero)

/-! ### Evaluation over the real numbers: identity orientation, unit stiffness and damping -/

theorem real_flexRotDiff (tau : Vector3 ℝ) :
    flexRotDiff (Demo.odometryObserver OdometryType.Odometry6d 1 1 1 1) Kinematics.zeroKinematics
        (Demo.odometryContact 0 tau Kinematics.zeroKinematics)
      = (-2 : ℝ) • tau := by
  have hd : Matrix.diagonal (1 : Fin 3 → ℝ) = 1 := Matrix.diagonal_one
  rw [flexRotDiff_eq]
  simp [Demo.odometryObserver, Demo.odometryContact, Kinematics.zeroKinematics, hd]

theorem real_norm_two :
    norm (Demo.mathLib Real.sqrt Real.arcsin Real.sin Real.cos) ((-2 : ℝ) • ![1, 0, 0]) = 2 := by
  simp only [norm, Demo.mathLib]
  have h : ((-2 : ℝ) • (![1, 0, 0] : Vector3 ℝ)) 0 * ((-2 : ℝ) • (![1, 0, 0] : Vector3 ℝ)) 0
      + ((-2 : ℝ) • (![1, 0, 0] : Vector3 ℝ)) 1 * ((-2 : ℝ) • (![1, 0, 0] : Vector3 ℝ)) 1
      + ((-2 : ℝ) • (![1, 0, 0] : Vector3 ℝ)) 2 * ((-2 : ℝ) • (![1, 0, 0] : Vector3 ℝ)) 2
      = 2 * 2 := by
    simp
  rw [h, Real.sqrt_mul_self (by norm_num)]

theorem real_flexRotAngle :
    flexRotAngle (Demo.mathLib Real.sqrt Real.arcsin Real.sin Real.cos)
        (Demo.odometryObserver OdometryType.Odometry6d 1 1 1 1) Kinematics.zeroKinematics
        (Demo.odometryContact 0 ![1, 0, 0] Kinematics.zeroKinematics)
      = Real.pi / 2 := by
  unfold flexRotAngle
  simp only []
  rw [real_flexRotDiff, real_norm_two]
  have h : (if (2 : ℝ) / 2 > 1 then (1 : ℝ) else if (2 : ℝ) / 2 < -1 then -1 else 2 / 2) = 1 := by
    norm_num
  rw [h]
  exact Real.arcsin_one

theorem real_flexRotAxis :
    flexRotAxis (Demo.mathLib Real.sqrt Real.arcsin Real.sin Real.cos)
        (Demo.odometryObserver OdometryType.Odometry6d 1 1 1 1) Kinematics.zeroKinematics
        (Demo.odometryContact 0 ![1, 0, 0] Kinematics.zeroKinematics)
      = ![-1, 0, 0] := by
  unfold flexRotAxis
  rw [real_flexRotDiff, real_norm_two]
  ext i
  fin_cases i <;> simp [vdiv]

/-- C17, as stated, fails. Over the real numbers, with `R = I`, `Kr = Dr = I`, zero angular velocity and
measured torque `(1, 0, 0)`, the corrected torque is `(1, 0, 0)` and the deformation angle is `π / 2`.
The code rotates about `flexRotDiff / norm(flexRotDiff) = (-1, 0, 0)` and returns the first matrix; the
rotation by the same angle about `tauCorrected / norm(tauCorrected) = (1, 0, 0)` gives the second one. -/
theorem C17_counterexample :
    (Demo.odometryContact (0 : Vector3 ℝ) ![1, 0, 0] Kinematics.zeroKinematics).contactWrenchVector_.seg3
        + (Kinematics.zeroKinematics : Kinematics ℝ).orientation.transpose.mulVec
            ((Demo.odometryObserver OdometryType.Odometry6d 1 1 1 1
                : MCKineticsObserver ℝ).angDamping_.mulVec
              (Kinematics.zeroKinematics : Kinematics ℝ).angVel)
        = ![1, 0, 0]
      ∧ (getOdometryWorldContactRest (Demo.mathLib Real.sqrt Real.arcsin Real.sin Real.cos)
          (Demo.odometryObserver OdometryType.Odometry6d 1 1 1 1) (fun k => k)
          (Demo.odometryContact 0 ![1, 0, 0] Kinematics.zeroKinematics)
          Kinematics.zeroKinematics).orientation
        = !![1, 0, 0; 0, 0, -1; 0, 1, 0]
      ∧ ((Demo.mathLib Real.sqrt Real.arcsin Real.sin Real.cos).angleAxisToMatrix3
            (flexRotAngle (Demo.mathLib Real.sqrt Real.arcsin Real.sin Real.cos)
              (Demo.odometryObserver OdometryType.Odometry6d 1 1 1 1) Kinematics.zeroKinematics
              (Demo.odometryContact 0 ![1, 0, 0] Kinematics.zeroKinematics))
            (vdiv ![1, 0, 0]
              (norm (Demo.mathLib Real.sqrt Real.arcsin Real.sin Real.cos) ![1, 0, 0]))).transpose
          * (Kinematics.zeroKinematics : Kinematics ℝ).orientation
        = !![1, 0, 0; 0, 0, 1; 0, -1, 0]
      ∧ (!![1, 0, 0; 0, 0, -1; 0, 1, 0] : Matrix3 ℝ) ≠ !![1, 0, 0; 0, 0, 1; 0, -1, 0] := by
  refine ⟨?_, ?_, ?_, ?_⟩
  · simp [Demo.odometryContact, Kinematics.zeroKinematics]
  · rw [getOdometryWorldContactRest_orientation]
    show ((Demo.mathLib Real.sqrt Real.arcsin Real.sin Real.cos).angleAxisToMatrix3
        (flexRotAngle (Demo.mathLib Real.sqrt Real.arcsin Real.sin Real.cos)
          (Demo.odometryObserver OdometryType.Odometry6d 1 1 1 1) Kinematics.zeroKinematics
          (Demo.odometryContact 0 ![1, 0, 0] Kinematics.zeroKinematics))
        (flexRotAxis (Demo.mathLib Real.sqrt Real.arcsin Real.sin Real.cos)
          (Demo.odometryObserver OdometryType.Odometry6d 1 1 1 1) Kinematics.zeroKinematics
          (Demo.odometryContact 0 ![1, 0, 0] Kinematics.zeroKinematics))).transpose
        * (1 : Matrix3 ℝ) = _
    rw [real_flexRotAngle, real_flexRotAxis, Matrix.mul_one]
    simp only [Demo.mathLib, Real.sin_pi_div_two, Real.cos_pi_div_two, angleAxisMatrix]
    ext i j
    fin_cases i <;> fin_cases j <;> simp [Matrix.vecHead, Matrix.vecTail]
  · have hn : norm (Demo.mathLib Real.sqrt Real.arcsin Real.sin Real.cos) ![1, 0, 0] = 1 := by
      simp [norm, Demo.mathLib]
    show _ * (1 : Matrix3 ℝ) = _
    rw [real_flexRotAngle, hn, Matrix.mul_one]
    simp only [Demo.mathLib, Real.sin_pi_div_two, Real.cos_pi_div_two, angleAxisMatrix]
    ext i j
    fin_cases i <;> fin_cases j <;> simp [vdiv, Matrix.vecHead, Matrix.vecTail]
  · intro h
    have h12 := congrFun (congrFun h 1) 2
    norm_num [Matrix.vecHead, Matrix.vecTail] at h12

/-- C18, evaluation at the failing input. Over the real numbers, with zero measured torque and zero
angular velocity, `flexRotDiff` is the zero vector, its norm is 0, and the axis handed to
`Eigen::AngleAxisd` is the quotient of `flexRotDiff` by that zero norm: the code has no branch for this
case. -/
theorem C18_division_by_zero_norm :
    flexRotDiff (Demo.odometryObserver OdometryType.Odometry6d 1 1 1 1)
        (Kinematics.zeroKinematics : Kinematics ℝ)
        (Demo.odometryContact 0 0 Kinematics.zeroKinematics)
      = 0
      ∧ norm (Demo.mathLib Real.sqrt Real.arcsin Real.sin Real.cos)
          (flexRotDiff (Demo.odometryObserver OdometryType.Odometry6d 1 1 1 1)
            (Kinematics.zeroKinematics : Kinematics ℝ)
            (Demo.odometryContact 0 0 Kinematics.zeroKinematics))
        = 0
      ∧ flexRotAxis (Demo.mathLib Real.sqrt Real.arcsin Real.sin Real.cos)
          (Demo.odometryObserver OdometryType.Odometry6d 1 1 1 1)
          (Kinematics.zeroKinematics : Kinematics ℝ)
          (Demo.odometryContact 0 0 Kinematics.zeroKinematics)
        = vdiv
            (flexRotDiff (Demo.odometryObserver OdometryType.Odometry6d 1 1 1 1)
              (Kinematics.zeroKinematics : Kinematics ℝ)
              (Demo.odometryContact 0 0 Kinematics.zeroKinematics))
            0 := by
  have hd : flexRotDiff (Demo.odometryObserver OdometryType.Odometry6d 1 1 1 1)
      (Kinematics.zeroKinematics : Kinematics ℝ)
      (Demo.odometryContact 0 0 Kinematics.zeroKinematics) = 0 := by
    rw [real_flexRotDiff]
    simp
  have hn : norm (Demo.mathLib Real.sqrt Real.arcsin Real.sin Real.cos)
      (flexRotDiff (Demo.odometryObserver OdometryType.Odometry6d 1 1 1 1)
        (Kinematics.zeroKinematics : Kinematics ℝ)
        (Demo.odometryContact 0 0 Kinematics.zeroKinematics)) = 0 := by
    rw [hd]
    simp [norm, Demo.mathLib]
  refine ⟨hd, hn, ?_⟩
  unfold flexRotAxis
  rw [hn]

/-! ### The counter of the recovery -/

theorem runAll_invincibilityFrame (lib : Lib R) (ts : List (Tick R)) :
    ∀ self : MCKineticsObserver R,
      (runAll lib ts self).invincibilityFrame_ = self.invincibilityFrame_ := by
  induction ts with
  | nil => intro self; rfl
  | cons t ts ih =>
    intro self
    simp only [runAll]
    rw [ih, run_invincibilityFrame]

theorem nextInvincibilityIter_bounds (nan : Bool) (i f : Int) (h0 : 0 ≤ i) (h1 : i ≤ max 1 f) :
    0 ≤ nextInvincibilityIter (selectEstimationState nan i f) i
      ∧ nextInvincibilityIter (selectEstimationState nan i f) i ≤ max 1 f
      ∧ (nextInvincibilityIter (selectEstimationState nan i f) i = 0 ↔ i = 0 ∧ nan = false) := by
  cases nan with
  | true =>
    simp only [selectEstimationState_of_nan, nextInvincibilityIter]
    refine ⟨by decide, le_max_left _ _, ?_⟩
    simp
  | false =>
    by_cases hc : i > 0 ∧ i < f
    · have hs : selectEstimationState false i f = EstimationState.invincibilityFrame := by
        simp [selectEstimationState, hc]
      simp only [hs, nextInvincibilityIter]
      refine ⟨by omega, le_max_of_le_right (by omega), ?_⟩
      constructor
      · intro h; omega
      · intro h; omega
    · have hs : selectEstimationState false i f = EstimationState.noIssue := by
        simp only [selectEstimationState]
        simp [hc]
      simp only [hs, nextInvincibilityIter]
      exact ⟨h0, h1, by simp⟩

theorem runAll_invincibilityIter (lib : Lib R) (ts : List (Tick R)) :
    ∀ self : MCKineticsObserver R, 0 ≤ self.invincibilityIter_ →
      self.invincibilityIter_ ≤ max 1 self.invincibilityFrame_ →
      0 ≤ (runAll lib ts self).invincibilityIter_
        ∧ (runAll lib ts self).invincibilityIter_ ≤ max 1 self.invincibilityFrame_
        ∧ ((runAll lib ts self).invincibilityIter_ = 0
            ↔ self.invincibilityIter_ = 0 ∧ ∀ t ∈ ts, t.nanDetected = false) := by
  induction ts with
  | nil =>
    intro self h0 h1
    exact ⟨h0, h1, by simp [runAll]⟩
  | cons t ts ih =>
    intro self h0 h1
    obtain ⟨n0, n1, n2⟩ :=
      nextInvincibilityIter_bounds t.nanDetected self.invincibilityIter_ self.invincibilityFrame_ h0 h1
    have hstep := run_invincibilityIter lib t self
    have hframe := run_invincibilityFrame lib t self
    obtain ⟨r0, r1, r2⟩ := ih (run lib t self).self (by rw [hstep]; exact n0)
      (by rw [hstep, hframe]; exact n1)
    simp only [runAll]
    refine ⟨r0, by rw [← hframe]; exact r1, ?_⟩
    rw [r2, hstep, n2]
    simp only [List.mem_cons, forall_eq_or_imp]
    tauto

/-- C26: in the state reached from `reset` by any sequence of ticks, whatever their fault flags, the
counter satisfies `0 ≤ invincibilityIter_ ≤ max 1 invincibilityFrame_` and is `0` exactly when no tick
so far had the fault flag raised; a further tick adds one to it when it is a Recovering tick, leaves it
as it is when it is a Nominal tick and sets it to `1` when it is a FaultDetected tick, so that, once the
counter equals `invincibilityFrame_`, it keeps that value on every tick without fault and is set back
to `1` by a tick with a fault. -/
theorem C26_counter_invariant (lib : Lib R) (realRobotPosW : PTransformd R)
    (self : MCKineticsObserver R) (ts : List (Tick R)) :
    (runAll lib ts (reset realRobotPosW self)).invincibilityFrame_ = self.invincibilityFrame_
      ∧ 0 ≤ (runAll lib ts (reset realRobotPosW self)).invincibilityIter_
      ∧ (runAll lib ts (reset realRobotPosW self)).invincibilityIter_
          ≤ max 1 (runAll lib ts (reset realRobotPosW self)).invincibilityFrame_
      ∧ ((runAll lib ts (reset realRobotPosW self)).invincibilityIter_ = 0
          ↔ ∀ t ∈ ts, t.nanDetected = false)
      ∧ ∀ t : Tick R,
          ((run lib t (runAll lib ts (reset realRobotPosW self))).self.estimationState_
                = EstimationState.invincibilityFrame →
              (run lib t (runAll lib ts (reset realRobotPosW self))).self.invincibilityIter_
                = (runAll lib ts (reset realRobotPosW self)).invincibilityIter_ + 1)
          ∧ ((run lib t (runAll lib ts (reset realRobotPosW self))).self.estimationState_
                = EstimationState.noIssue →
              (run lib t (runAll lib ts (reset realRobotPosW self))).self.invincibilityIter_
                = (runAll lib ts (reset realRobotPosW self)).invincibilityIter_)
          ∧ ((run lib t (runAll lib ts (reset realRobotPosW self))).self.estimationState_
                = EstimationState.errorDetected →
              (run lib t (runAll lib ts (reset realRobotPosW self))).self.invincibilityIter_ = 1)
          ∧ ((runAll lib ts (reset realRobotPosW self)).invincibilityIter_
                = (runAll lib ts (reset realRobotPosW self)).invincibilityFrame_ →
              (run lib t (runAll lib ts (reset realRobotPosW self))).self.invincibilityIter_
                = if t.nanDetected then 1
                  else (runAll lib ts (reset realRobotPosW self)).invincibilityFrame_) := by
  have hframe := runAll_invincibilityFrame lib ts (reset realRobotPosW self)
  have hreset : (reset realRobotPosW self).invincibilityIter_ = 0 := rfl
  have hresetF : (reset realRobotPosW self).invincibilityFrame_ = self.invincibilityFrame_ := rfl
  obtain ⟨h0, h1, h2⟩ := runAll_invincibilityIter lib ts (reset realRobotPosW self)
    (by rw [hreset]) (by rw [hreset]; exact le_max_of_le_left (by decide))
  refine ⟨by rw [hframe, hresetF], h0, by rw [hframe]; exact h1, ?_, ?_⟩
  · rw [h2, hreset]
    simp
  · intro t
    rw [run_estimationState, run_invincibilityIter]
    refine ⟨?_, ?_, ?_, ?_⟩
    · intro h
      rw [h]
      rfl
    · intro h
      rw [h]
      rfl
    · intro h
      rw [h]
      rfl
    · intro h
      cases hn : t.nanDetected with
      | true => simp [selectEstimationState_of_nan, nextInvincibilityIter]
      | false =>
        have hs : selectEstimationState false
            (runAll lib ts (reset realRobotPosW self)).invincibilityIter_
            (runAll lib ts (reset realRobotPosW self)).invincibilityFrame_
            = EstimationState.noIssue := by
          simp only [selectEstimationState]
          simp [h]
        rw [hs]
        simp [nextInvincibilityIter, h]

/-- C26, instance: window of 3 ticks; after the reset, two ticks without fault, a fault and four ticks
without fault, the counter is 3 and a further tick without fault is a Nominal tick that leaves it at
3. -/
theorem C26_counter_invariant_witness :
    (runAll Demo.lib (List.replicate 2 (Demo.tick false 0) ++ Demo.faultThenQuiet 4)
        (reset ⟨1, 0⟩ (Demo.observer 3 7))).invincibilityIter_ = 3
      ∧ (run Demo.lib (Demo.tick false 0)
          (runAll Demo.lib (List.replicate 2 (Demo.tick false 0) ++ Demo.faultThenQuiet 4)
            (reset ⟨1, 0⟩ (Demo.observer 3 7)))).self.estimationState_ = EstimationState.noIssue
      ∧ (run Demo.lib (Demo.tick false 0)
          (runAll Demo.lib (List.replicate 2 (Demo.tick false 0) ++ Demo.faultThenQuiet 4)
            (reset ⟨1, 0⟩ (Demo.observer 3 7)))).self.invincibilityIter_
        = (runAll Demo.lib (List.replicate 2 (Demo.tick false 0) ++ Demo.faultThenQuiet 4)
            (reset ⟨1, 0⟩ (Demo.observer 3 7))).invincibilityIter_ :=
  have hstate : (run Demo.lib (Demo.tick false 0)
      (runAll Demo.lib (List.replicate 2 (Demo.tick false 0) ++ Demo.faultThenQuiet 4)
        (reset ⟨1, 0⟩ (Demo.observer 3 7)))).self.estimationState_ = EstimationState.noIssue := by
    rw [run_estimationState]
    simp only [List.replicate, List.cons_append, List.nil_append, Demo.faultThenQuiet, runAll,
      run_invincibilityIter, run_invincibilityFrame]
    rfl
  ⟨by
    simp only [List.replicate, List.cons_append, List.nil_append, Demo.faultThenQuiet, runAll,
      run_invincibilityIter, run_invincibilityFrame]
    rfl,
   hstate,
   ((C26_counter_invariant Demo.lib ⟨1, 0⟩ (Demo.observer 3 7)
      (List.replicate 2 (Demo.tick false 0) ++ Demo.faultThenQuiet 4)).2.2.2.2
        (Demo.tick false 0)).2.1 hstate⟩

/-! ### The read of the last entry of the history buffer -/

theorem push_back_data_ne_nil {α : Type} (b : CircularBuffer α) (x : α) (h : b.capacity ≠ 0) :
    (b.push_back x).data ≠ [] := by
  unfold CircularBuffer.push_back
  rw [if_neg h]
  split <;> simp

/-- The flag `backInContract` of a tick: `back()` is read on a Recovering tick only, from the buffer as
the tick finds it. -/
theorem run_backInContract (lib : Lib R) (t : Tick R) (self : MCKineticsObserver R) :
    (run lib t self).backInContract
      = if selectEstimationState t.nanDetected self.invincibilityIter_ self.invincibilityFrame_
            = EstimationState.invincibilityFrame
        then !self.koBackupFbKinematics_.empty else true := by
  cases hsel : selectEstimationState t.nanDetected self.invincibilityIter_ self.invincibilityFrame_ with
  | errorDetected =>
    unfold run
    simp [hsel]
  | invincibilityFrame =>
    unfold run
    simp only [hsel]
    split <;> simp
  | noIssue =>
    unfold run
    simp [hsel]

theorem run_koBackupFbKinematics_ne_nil (lib : Lib R) (t : Tick R) (self : MCKineticsObserver R)
    (hcap : self.koBackupFbKinematics_.capacity ≠ 0)
    (hkeep : ∀ b : CircularBuffer (Kinematics R),
      (t.backupFb b).2.capacity = b.capacity ∧ (b.data ≠ [] → (t.backupFb b).2.data ≠ [])) :
    (run lib t self).self.koBackupFbKinematics_.capacity = self.koBackupFbKinematics_.capacity
      ∧ (run lib t self).self.koBackupFbKinematics_.data ≠ [] := by
  rw [run_koBackupFbKinematics]
  split
  · exact ⟨by rw [(hkeep _).1, push_back_capacity],
      (hkeep _).2 (push_back_data_ne_nil _ _ hcap)⟩
  · exact ⟨push_back_capacity _ _, push_back_data_ne_nil _ _ hcap⟩

theorem runAll_koBackupFbKinematics_ne_nil (lib : Lib R) (ts : List (Tick R)) :
    ∀ self : MCKineticsObserver R, self.koBackupFbKinematics_.capacity ≠ 0 →
      (∀ t ∈ ts, ∀ b : CircularBuffer (Kinematics R),
        (t.backupFb b).2.capacity = b.capacity ∧ (b.data ≠ [] → (t.backupFb b).2.data ≠ [])) →
      (ts ≠ [] ∨ self.koBackupFbKinematics_.data ≠ []) →
      (runAll lib ts self).koBackupFbKinematics_.data ≠ [] := by
  induction ts with
  | nil =>
    intro self _ _ h
    rcases h with h | h
    · exact absurd rfl h
    · exact h
  | cons t ts ih =>
    intro self hcap hkeep _
    obtain ⟨h1, h2⟩ := run_koBackupFbKinematics_ne_nil lib t self hcap
      (hkeep t (List.mem_cons_self _ _))
    simp only [runAll]
    exact ih (run lib t self).self (by rw [h1]; exact hcap)
      (fun t2 h => hkeep t2 (List.mem_cons_of_mem _ h)) (Or.inr h2)

/-- C27: let the capacity of the history buffer be `fbBackupCapacity_ ≥ 1` (as `configure` leaves it)
and let `tiltObserver_.backupFb` neither change the capacity of the buffer nor empty it. If the tick that
follows the ticks `ts` run from `reset` is a Recovering tick, then one of the ticks `ts` had the fault
flag raised (it was a FaultDetected tick), the buffer is not empty when the Recovering tick begins, and
the read `koBackupFbKinematics_.back()` of that tick is made on a non-empty buffer. -/
theorem C27_back_on_nonempty_buffer (lib : Lib R) (realRobotPosW : PTransformd R)
    (self : MCKineticsObserver R) (ts : List (Tick R)) (t : Tick R)
    (hcap : 1 ≤ self.fbBackupCapacity_)
    (hbuf : (self.koBackupFbKinematics_.capacity : Int) = self.fbBackupCapacity_)
    (hkeep : ∀ t2 ∈ ts, ∀ b : CircularBuffer (Kinematics R),
      (t2.backupFb b).2.capacity = b.capacity ∧ (b.data ≠ [] → (t2.backupFb b).2.data ≠ []))
    (hrec : (run lib t (runAll lib ts (reset realRobotPosW self))).self.estimationState_
      = EstimationState.invincibilityFrame) :
    (∃ t2 ∈ ts, t2.nanDetected = true ∧ (∀ s : MCKineticsObserver R,
        (run lib t2 s).self.estimationState_ = EstimationState.errorDetected))
      ∧ (runAll lib ts (reset realRobotPosW self)).koBackupFbKinematics_.data ≠ []
      ∧ (runAll lib ts (reset realRobotPosW self)).koBackupFbKinematics_.empty = false
      ∧ (run lib t (runAll lib ts (reset realRobotPosW self))).backInContract = true := by
  rw [run_estimationState] at hrec
  obtain ⟨_, hpos, _⟩ := selectEstimationState_eq_recovering _ _ _ hrec
  have hreset : (reset realRobotPosW self).invincibilityIter_ = 0 := rfl
  obtain ⟨_, _, hzero⟩ := runAll_invincibilityIter lib ts (reset realRobotPosW self)
    (by rw [hreset]) (by rw [hreset]; exact le_max_of_le_left (by decide))
  have hfault : ∃ t2 ∈ ts, t2.nanDetected = true := by
    by_contra hno
    have hall : ∀ t2 ∈ ts, t2.nanDetected = false := by
      intro t2 h2
      cases hb : t2.nanDetected with
      | false => rfl
      | true => exact absurd ⟨t2, h2, hb⟩ hno
    have := hzero.2 ⟨hreset, hall⟩
    omega
  obtain ⟨t2, hmem, hnan⟩ := hfault
  have hcap2 : (reset realRobotPosW self).koBackupFbKinematics_.capacity ≠ 0 := by
    have : (reset realRobotPosW self).koBackupFbKinematics_ = self.koBackupFbKinematics_ := rfl
    rw [this]
    omega
  have hne := runAll_koBackupFbKinematics_ne_nil lib ts (reset realRobotPosW self) hcap2 hkeep
    (Or.inl (List.ne_nil_of_mem hmem))
  have hempty : (runAll lib ts (reset realRobotPosW self)).koBackupFbKinematics_.empty = false := by
    simp only [CircularBuffer.empty, List.isEmpty_eq_false]
    exact hne
  refine ⟨⟨t2, hmem, hnan, fun s => ?_⟩, hne, hempty, ?_⟩
  · rw [run_estimationState, hnan, selectEstimationState_of_nan]
  · rw [run_backInContract, if_pos hrec, hempty]
    rfl

/-- C27, instance: a buffer of capacity 3, empty at the reset; after a FaultDetected tick the next tick
is a Recovering tick and reads the last entry of a buffer that holds one entry. -/
theorem C27_back_on_nonempty_buffer_witness :
    (run Demo.lib (Demo.tick false 0)
        (runAll Demo.lib [Demo.tick true 0]
          (reset ⟨1, 0⟩
            ({ Demo.observer 5 0 with koBackupFbKinematics_ := ⟨3, []⟩ }
              : MCKineticsObserver ℚ)))).self.estimationState_ = EstimationState.invincibilityFrame
      ∧ (runAll Demo.lib [Demo.tick true 0]
          (reset ⟨1, 0⟩
            ({ Demo.observer 5 0 with koBackupFbKinematics_ := ⟨3, []⟩ }
              : MCKineticsObserver ℚ))).koBackupFbKinematics_.data.length = 1
      ∧ (run Demo.lib (Demo.tick false 0)
          (runAll Demo.lib [Demo.tick true 0]
            (reset ⟨1, 0⟩
              ({ Demo.observer 5 0 with koBackupFbKinematics_ := ⟨3, []⟩ }
                : MCKineticsObserver ℚ)))).backInContract = true :=
  have hrec : (run Demo.lib (Demo.tick false 0)
      (runAll Demo.lib [Demo.tick true 0]
        (reset ⟨1, 0⟩
          ({ Demo.observer 5 0 with koBackupFbKinematics_ := ⟨3, []⟩ }
            : MCKineticsObserver ℚ)))).self.estimationState_ = EstimationState.invincibilityFrame := by
    rw [run_estimationState]
    simp only [runAll, run_invincibilityIter, run_invincibilityFrame]
    rfl
  ⟨hrec,
   by
    simp only [runAll, run_koBackupFbKinematics]
    rfl,
   (C27_back_on_nonempty_buffer Demo.lib ⟨1, 0⟩
      ({ Demo.observer 5 0 with koBackupFbKinematics_ := ⟨3, []⟩ } : MCKineticsObserver ℚ)
      [Demo.tick true 0] (Demo.tick false 0) (by decide) rfl
      (fun t2 ht b => by
        simp only [List.mem_singleton] at ht
        subst ht
        exact ⟨rfl, fun h => h⟩)
      hrec).2.2.2⟩

/-! ### The measured wrench in the frame of the contact -/

/-- C25: `updateContactForceMeasurement` stores, for a measured wrench of force `f` and moment `m`,
the force `R * f` and the torque `R * m + p × (R * f)` when it is given the kinematics of the sensor in
the frame of the contact (rotation `R`, position `p`), and `(f, m)` when it is given none; for `R = I`
and `p = 0` both cases store the same vector; no other member of the contact is changed. -/
theorem C25_wrench_in_contact_frame (contact : KoContactWithSensor R) (measuredWrench : ForceVecd R)
    (k : Kinematics R) :
    (updateContactForceMeasurement contact measuredWrench (some k)).contactWrenchVector_.seg0
        = k.orientation.mulVec measuredWrench.force
      ∧ (updateContactForceMeasurement contact measuredWrench (some k)).contactWrenchVector_.seg3
        = k.orientation.mulVec measuredWrench.couple
          + ![k.position 1 * (k.orientation.mulVec measuredWrench.force) 2
                - k.position 2 * (k.orientation.mulVec measuredWrench.force) 1,
              k.position 2 * (k.orientation.mulVec measuredWrench.force) 0
                - k.position 0 * (k.orientation.mulVec measuredWrench.force) 2,
              k.position 0 * (k.orientation.mulVec measuredWrench.force) 1
                - k.position 1 * (k.orientation.mulVec measuredWrench.force) 0]
      ∧ (updateContactForceMeasurement contact measuredWrench none).contactWrenchVector_
        = ⟨measuredWrench.force, measuredWrench.couple⟩
      ∧ updateContactForceMeasurement contact measuredWrench
            (some { k with orientation := 1, position := 0 })
        = updateContactForceMeasurement contact measuredWrench none
      ∧ (∀ o : Option (Kinematics R),
          updateContactForceMeasurement contact measuredWrench o
            = { contact with
                contactWrenchVector_ :=
                  (updateContactForceMeasurement contact measuredWrench o).contactWrenchVector_ }) := by
  refine ⟨rfl, rfl, rfl, ?_, ?_⟩
  · simp only [updateContactForceMeasurement, Matrix.one_mulVec]
    have hc : cross (0 : Vector3 R) measuredWrench.force = 0 := by
      ext i
      fin_cases i <;> simp [cross]
    rw [hc, add_zero]
  · intro o
    cases o <;> rfl

/-! ### The range of the deformation angle -/

/-- C30: with the square root and the arc sine of the real numbers, for every input of
`getOdometryWorldContactRest` (a zero corrected torque included): the quantity `diffNorm` of line 941
is not negative, the test `diffNorm < -1.0` of line 944 is false, the argument of `asin` is
`min diffNorm 1` and lies in `[0, 1]`, and the deformation angle, from which the rest orientation is
built, lies in `[0, π / 2]`. -/
theorem C30_deformation_angle_range (lib : Lib ℝ) (self : MCKineticsObserver ℝ)
    (g : Kinematics ℝ → Kinematics ℝ) (c : KoContactWithSensor ℝ) (ref : Kinematics ℝ)
    (hsqrt : lib.sqrt = Real.sqrt) (hasin : lib.asin = Real.arcsin) :
    0 ≤ norm lib (flexRotDiff self (g c.fbContactKine_) c) / 2
      ∧ ¬ (norm lib (flexRotDiff self (g c.fbContactKine_) c) / 2 < -1)
      ∧ flexRotAngle lib self (g c.fbContactKine_) c
        = Real.arcsin (min (norm lib (flexRotDiff self (g c.fbContactKine_) c) / 2) 1)
      ∧ 0 ≤ min (norm lib (flexRotDiff self (g c.fbContactKine_) c) / 2) 1
      ∧ min (norm lib (flexRotDiff self (g c.fbContactKine_) c) / 2) 1 ≤ 1
      ∧ 0 ≤ flexRotAngle lib self (g c.fbContactKine_) c
      ∧ flexRotAngle lib self (g c.fbContactKine_) c ≤ Real.pi / 2
      ∧ (getOdometryWorldContactRest lib self g c ref).orientation
        = (lib.angleAxisToMatrix3 (flexRotAngle lib self (g c.fbContactKine_) c)
              (flexRotAxis lib self (g c.fbContactKine_) c)).transpose
            * (g c.fbContactKine_).orientation := by
  have hn : 0 ≤ norm lib (flexRotDiff self (g c.fbContactKine_) c) := by
    simp only [norm, hsqrt]
    exact Real.sqrt_nonneg _
  have hd : 0 ≤ norm lib (flexRotDiff self (g c.fbContactKine_) c) / 2 := by positivity
  have hmin : 0 ≤ min (norm lib (flexRotDiff self (g c.fbContactKine_) c) / 2) 1 :=
    le_min hd (by norm_num)
  have hangle : flexRotAngle lib self (g c.fbContactKine_) c
      = Real.arcsin (min (norm lib (flexRotDiff self (g c.fbContactKine_) c) / 2) 1) := by
    unfold flexRotAngle
    simp only []
    rw [clamp_eq, hasin, max_eq_right (le_trans (by norm_num) hmin)]
  refine ⟨hd, by linarith, hangle, hmin, min_le_right _ _, ?_, ?_,
    getOdometryWorldContactRest_orientation lib self g c ref⟩
  · rw [hangle]
    exact Real.arcsin_nonneg.2 hmin
  · rw [hangle]
    exact Real.arcsin_le_pi_div_two _

/-- C30, instance: `R = I`, `Kr = Dr = I`, measured torque `(1, 0, 0)`, zero angular velocity: the norm
is 2, `diffNorm` is 1 and the deformation angle is `π / 2`, the upper end of the interval. -/
theorem C30_deformation_angle_range_witness :
    flexRotAngle (Demo.mathLib Real.sqrt Real.arcsin Real.sin Real.cos)
        (Demo.odometryObserver OdometryType.Odometry6d 1 1 1 1)
        ((fun k : Kinematics ℝ => k)
          (Demo.odometryContact (0 : Vector3 ℝ) ![1, 0, 0] Kinematics.zeroKinematics).fbContactKine_)
        (Demo.odometryContact 0 ![1, 0, 0] Kinematics.zeroKinematics)
      = Real.pi / 2
      ∧ 0 ≤ flexRotAngle (Demo.mathLib Real.sqrt Real.arcsin Real.sin Real.cos)
          (Demo.odometryObserver OdometryType.Odometry6d 1 1 1 1)
          ((fun k : Kinematics ℝ => k)
            (Demo.odometryContact (0 : Vector3 ℝ) ![1, 0, 0] Kinematics.zeroKinematics).fbContactKine_)
          (Demo.odometryContact 0 ![1, 0, 0] Kinematics.zeroKinematics)
      ∧ flexRotAngle (Demo.mathLib Real.sqrt Real.arcsin Real.sin Real.cos)
          (Demo.odometryObserver OdometryType.Odometry6d 1 1 1 1)
          ((fun k : Kinematics ℝ => k)
            (Demo.odometryContact (0 : Vector3 ℝ) ![1, 0, 0] Kinematics.zeroKinematics).fbContactKine_)
          (Demo.odometryContact 0 ![1, 0, 0] Kinematics.zeroKinematics)
        ≤ Real.pi / 2 :=
  ⟨real_flexRotAngle,
    (C30_deformation_angle_range (Demo.mathLib Real.sqrt Real.arcsin Real.sin Real.cos)
      (Demo.odometryObserver OdometryType.Odometry6d 1 1 1 1) (fun k => k)
      (Demo.odometryContact 0 ![1, 0, 0] Kinematics.zeroKinematics) Kinematics.zeroKinematics
      rfl rfl).2.2.2.2.2.1,
    (C30_deformation_angle_range (Demo.mathLib Real.sqrt Real.arcsin Real.sin Real.cos)
      (Demo.odometryObserver OdometryType.Odometry6d 1 1 1 1) (fun k => k)
      (Demo.odometryContact 0 ![1, 0, 0] Kinematics.zeroKinematics) Kinematics.zeroKinematics
      rfl rfl).2.2.2.2.2.2.1⟩

/-! ### The calls made for a new and for a maintained contact -/

theorem getContactWorldKinematics_sensorEnabled (lib : Lib R) (d : ContactsDetection)
    (contact : KoContactWithSensor R) (currentRobot : Robot R) (fs : ForceSensor R)
    (w : Option (ForceVecd R)) :
    (getContactWorldKinematics lib d contact currentRobot fs w).2.sensorEnabled_ = contact.sensorEnabled_
      ∧ (getContactWorldKinematics lib d contact currentRobot fs w).2.id_ = contact.id_ := by
  unfold getContactWorldKinematics
  simp only []
  split
  · cases w <;> exact ⟨rfl, rfl⟩
  · cases w <;> exact ⟨rfl, rfl⟩

theorem setNewContact_calls (lib : Lib R) (self : MCKineticsObserver R)
    (g : Kinematics R → Kinematics R) (robot inputRobot : Robot R) (contact : KoContactWithSensor R)
    (initCovariance : Matrix12 R) :
    ∃ worldContactKineRef : Kinematics R,
      (setNewContact lib self g robot inputRobot contact initCovariance).2
        = [ObserverCall.addContact worldContactKineRef initCovariance self.contactProcessCovariance_
            contact.id_ self.linStiffness_ self.linDamping_ self.angStiffness_ self.angDamping_,
           if contact.sensorEnabled_ then
             ObserverCall.updateContactWithWrenchSensor
               (setNewContact lib self g robot inputRobot contact initCovariance).1.contactWrenchVector_
               self.contactSensorCovariance_ (fbContactKineOf lib self robot inputRobot contact)
               contact.id_
           else
             ObserverCall.updateContactWithNoSensor (fbContactKineOf lib self robot inputRobot contact)
               contact.id_] := by
  have h := getContactWorldKinematics_sensorEnabled lib self.contactsDetection contact inputRobot
    (robot.forceSensor contact.forceSensorName_)
    (some (lib.wrenchWithoutGravity (robot.forceSensor contact.forceSensorName_) inputRobot))
  unfold setNewContact
  simp only [h.1, h.2, fbContactKineOf]
  cases hs : contact.sensorEnabled_ with
  | true =>
    simp only [if_true]
    exact ⟨_, rfl⟩
  | false =>
    simp only [Bool.false_eq_true, if_false]
    exact ⟨_, rfl⟩

theorem updateContact_calls (lib : Lib R) (self : MCKineticsObserver R)
    (robot inputRobot : Robot R) (contact : KoContactWithSensor R) :
    (updateContact lib self robot inputRobot contact).2
      = [if contact.sensorEnabled_ then
           ObserverCall.updateContactWithWrenchSensor
             (updateContact lib self robot inputRobot contact).1.contactWrenchVector_
             self.contactSensorCovariance_ (fbContactKineOf lib self robot inputRobot contact)
             contact.id_
         else
           ObserverCall.updateContactWithNoSensor (fbContactKineOf lib self robot inputRobot contact)
             contact.id_] := by
  have h := getContactWorldKinematics_sensorEnabled lib self.contactsDetection contact inputRobot
    (robot.forceSensor contact.forceSensorName_)
    (some (lib.wrenchWithoutGravity (robot.forceSensor contact.forceSensorName_) inputRobot))
  unfold updateContact
  simp only [h.1, h.2, fbContactKineOf]
  cases contact.sensorEnabled_ with
  | true => simp
  | false => simp

theorem setNewContact_fbContactKine (lib : Lib R) (self : MCKineticsObserver R)
    (g : Kinematics R → Kinematics R) (robot inputRobot : Robot R) (contact : KoContactWithSensor R)
    (initCovariance : Matrix12 R) :
    (setNewContact lib self g robot inputRobot contact initCovariance).1.fbContactKine_
      = fbContactKineOf lib self robot inputRobot contact := by
  unfold setNewContact
  simp only [fbContactKineOf]
  split <;> rfl

theorem updateContact_fbContactKine (lib : Lib R) (self : MCKineticsObserver R)
    (robot inputRobot : Robot R) (contact : KoContactWithSensor R) :
    (updateContact lib self robot inputRobot contact).1.fbContactKine_
      = fbContactKineOf lib self robot inputRobot contact := by
  unfold updateContact
  simp only [fbContactKineOf]
  split <;> rfl

/-- C21: for every contact, `setNewContact` makes two calls to the estimator, `addContact` once and then
one update call, and `updateContact` makes one update call and no other; the update call is
`updateContactWithWrenchSensor` when `contact.sensorEnabled_` is true and `updateContactWithNoSensor`
when it is false; `addContact` and the update call receive the id of the contact, and the update call
receives the kinematics just computed by `getContactWorldKinematics` and stored in `fbContactKine_`. -/
theorem C21_one_update_call_per_contact (lib : Lib R) (self : MCKineticsObserver R)
    (g : Kinematics R → Kinematics R) (robot inputRobot : Robot R) (contact : KoContactWithSensor R)
    (initCovariance : Matrix12 R) :
    (∃ worldContactKineRef : Kinematics R,
        (setNewContact lib self g robot inputRobot contact initCovariance).2
          = [ObserverCall.addContact worldContactKineRef initCovariance self.contactProcessCovariance_
              contact.id_ self.linStiffness_ self.linDamping_ self.angStiffness_ self.angDamping_,
             if contact.sensorEnabled_ then
               ObserverCall.updateContactWithWrenchSensor
                 (setNewContact lib self g robot inputRobot contact initCovariance).1.contactWrenchVector_
                 self.contactSensorCovariance_
                 (setNewContact lib self g robot inputRobot contact initCovariance).1.fbContactKine_
                 contact.id_
             else
               ObserverCall.updateContactWithNoSensor
                 (setNewContact lib self g robot inputRobot contact initCovariance).1.fbContactKine_
                 contact.id_])
      ∧ ((setNewContact lib self g robot inputRobot contact initCovariance).2.filter
          isAddContact).length = 1
      ∧ ((setNewContact lib self g robot inputRobot contact initCovariance).2.filter
          isContactUpdate).length = 1
      ∧ (setNewContact lib self g robot inputRobot contact initCovariance).1.fbContactKine_
        = fbContactKineOf lib self robot inputRobot contact
      ∧ (updateContact lib self robot inputRobot contact).2
        = [if contact.sensorEnabled_ then
             ObserverCall.updateContactWithWrenchSensor
               (updateContact lib self robot inputRobot contact).1.contactWrenchVector_
               self.contactSensorCovariance_
               (updateContact lib self robot inputRobot contact).1.fbContactKine_ contact.id_
           else
             ObserverCall.updateContactWithNoSensor
               (updateContact lib self robot inputRobot contact).1.fbContactKine_ contact.id_]
      ∧ ((updateContact lib self robot inputRobot contact).2.filter isContactUpdate).length = 1
      ∧ (updateContact lib self robot inputRobot contact).1.fbContactKine_
        = fbContactKineOf lib self robot inputRobot contact := by
  obtain ⟨ref, hnew⟩ := setNewContact_calls lib self g robot inputRobot contact initCovariance
  have hupd := updateContact_calls lib self robot inputRobot contact
  have hk1 := setNewContact_fbContactKine lib self g robot inputRobot contact initCovariance
  have hk2 := updateContact_fbContactKine lib self robot inputRobot contact
  refine ⟨⟨ref, by rw [hk1]; exact hnew⟩, ?_, ?_, hk1, by rw [hk2]; exact hupd, ?_, hk2⟩
  · rw [hnew]
    cases contact.sensorEnabled_ <;> simp [isAddContact]
  · rw [hnew]
    cases contact.sensorEnabled_ <;> simp [isContactUpdate]
  · rw [hupd]
    cases contact.sensorEnabled_ <;> simp [isContactUpdate]

/-! ### The constructors of a contact -/

/-- C23: for every id, names and flag, and whatever the default-constructed base object holds:
`ContactWithSensor(id, sensorName)` has the id `id`, the name `sensorName` and the force sensor
`sensorName`; `ContactWithSensor(id, sensorName, surfaceName, attached)` has the id `id`, the name and
the surface `surfaceName`, the force sensor `sensorName` and `sensorAttachedToSurface_ = attached`; both
have `isSet_`, `wasAlreadySet_` and `sensorWasEnabled_` false and `sensorEnabled_` true. -/
theorem C23_constructors (raw : KoContactWithSensor R) (id : Int) (sensorName surfaceName : String)
    (attached : Bool) :
    ((ContactWithSensor.create raw id sensorName).id_ = id
        ∧ (ContactWithSensor.create raw id sensorName).name_ = sensorName
        ∧ (ContactWithSensor.create raw id sensorName).name_
          = (ContactWithSensor.create raw id sensorName).forceSensorName_
        ∧ (ContactWithSensor.create raw id sensorName).forceSensorName_ = sensorName
        ∧ (ContactWithSensor.create raw id sensorName).isSet_ = false
        ∧ (ContactWithSensor.create raw id sensorName).wasAlreadySet_ = false
        ∧ (ContactWithSensor.create raw id sensorName).sensorWasEnabled_ = false
        ∧ (ContactWithSensor.create raw id sensorName).sensorEnabled_ = true)
      ∧ ((ContactWithSensor.createWithSurface raw id sensorName surfaceName attached).id_ = id
        ∧ (ContactWithSensor.createWithSurface raw id sensorName surfaceName attached).name_
          = surfaceName
        ∧ (ContactWithSensor.createWithSurface raw id sensorName surfaceName attached).surface_
          = surfaceName
        ∧ (ContactWithSensor.createWithSurface raw id sensorName surfaceName attached).forceSensorName_
          = sensorName
        ∧ (ContactWithSensor.createWithSurface raw id sensorName surfaceName
            attached).sensorAttachedToSurface_ = attached
        ∧ (ContactWithSensor.createWithSurface raw id sensorName surfaceName attached).isSet_ = false
        ∧ (ContactWithSensor.createWithSurface raw id sensorName surfaceName attached).wasAlreadySet_
          = false
        ∧ (ContactWithSensor.createWithSurface raw id sensorName surfaceName
            attached).sensorWasEnabled_ = false
        ∧ (ContactWithSensor.createWithSurface raw id sensorName surfaceName attached).sensorEnabled_
          = true) :=
  ⟨⟨rfl, rfl, rfl, rfl, rfl, rfl, rfl, rfl⟩, ⟨rfl, rfl, rfl, rfl, rfl, rfl, rfl, rfl, rfl⟩⟩

/-! ### The sensors disabled at the initialisation -/

theorem findContact_disableFoundContactSensor (name other : String)
    (contacts : List (String × KoContactWithSensor R)) :
    findContact (disableFoundContactSensor name contacts) other
      = if other = name then
          (findContact contacts name).map (fun c => { c with sensorEnabled_ := false })
        else findContact contacts other := by
  induction contacts with
  | nil =>
    simp [disableFoundContactSensor, findContact]
  | cons e rest ih =>
    obtain ⟨key, contact⟩ := e
    by_cases hk : key = name
    · by_cases ho : other = name
      · simp [disableFoundContactSensor, findContact, hk, ho]
      · have hne : ¬ name = other := fun h => ho h.symm
        simp [disableFoundContactSensor, findContact, hk, ho, hne]
    · by_cases ho : other = name
      · subst ho
        simp only [disableFoundContactSensor, hk, if_false, findContact, ih, if_true]
      · simp only [disableFoundContactSensor, hk, if_false, findContact, ih, ho]

theorem disableContactSensors_missing (names : List String) :
    ∀ contacts : List (String × KoContactWithSensor R),
      (∃ name ∈ names, findContact contacts name = none) →
      ∃ e, disableContactSensors names contacts = Except.error e := by
  induction names with
  | nil =>
    intro contacts h
    obtain ⟨name, hmem, _⟩ := h
    simp at hmem
  | cons n rest ih =>
    intro contacts h
    cases hf : findContact contacts n with
    | none =>
      simp only [disableContactSensors, hf]
      exact ⟨_, rfl⟩
    | some c =>
      simp only [disableContactSensors, hf]
      apply ih
      obtain ⟨name, hmem, hnone⟩ := h
      rcases List.mem_cons.1 hmem with rfl | hrest
      · rw [hf] at hnone
        exact absurd hnone (by simp)
      · refine ⟨name, hrest, ?_⟩
        rw [findContact_disableFoundContactSensor]
        split
        · rename_i heq
          rw [← heq, hnone]
          rfl
        · exact hnone

theorem disableContactSensors_present (names : List String) :
    ∀ contacts : List (String × KoContactWithSensor R),
      (∀ name ∈ names, findContact contacts name ≠ none) →
      ∃ contacts2, disableContactSensors names contacts = Except.ok contacts2
        ∧ ∀ other, findContact contacts2 other
            = (findContact contacts other).map
                (fun c => if other ∈ names then { c with sensorEnabled_ := false } else c) := by
  induction names with
  | nil =>
    intro contacts _
    refine ⟨contacts, rfl, fun other => ?_⟩
    cases findContact contacts other <;> simp
  | cons n rest ih =>
    intro contacts h
    cases hf : findContact contacts n with
    | none => exact absurd hf (h n (List.mem_cons_self _ _))
    | some c =>
      have hrest : ∀ name ∈ rest, findContact (disableFoundContactSensor n contacts) name ≠ none := by
        intro name hmem
        rw [findContact_disableFoundContactSensor]
        split
        · rw [hf]
          simp
        · exact h name (List.mem_cons_of_mem _ hmem)
      obtain ⟨contacts2, hok, hfind⟩ := ih (disableFoundContactSensor n contacts) hrest
      refine ⟨contacts2, by simp only [disableContactSensors, hf, hok], fun other => ?_⟩
      rw [hfind, findContact_disableFoundContactSensor]
      by_cases ho : other = n
      · subst ho
        rw [if_pos rfl, hf]
        by_cases hm : other ∈ rest <;> simp [hm]
      · rw [if_neg ho]
        cases findContact contacts other with
        | none => rfl
        | some c2 =>
          by_cases hm : other ∈ rest <;> simp [hm, ho]

/-- Under the policies Surfaces and Sensors: a name of `contactSensorsDisabledInit` without contact in
the registry ends `configure` with an error; when every name has a contact, `configure` goes on and
every listed contact has `sensorEnabled_ = false`. -/
theorem configureContacts_surfaces_sensors (m : ContactsDetection)
    (initContacts : List (String × KoContactWithSensor R)) (names : List String)
    (self : MCKineticsObserver R)
    (hm : m = ContactsDetection.Surfaces ∨ m = ContactsDetection.Sensors) :
    ((∃ name ∈ names, findContact initContacts name = none) →
        ∃ e, configureContacts m initContacts names self = Except.error e)
      ∧ ((∀ name ∈ names, findContact initContacts name ≠ none) →
        ∃ self2, configureContacts m initContacts names self = Except.ok self2
          ∧ ∀ name ∈ names, ∃ c, findContact self2.contacts name = some c
              ∧ c.sensorEnabled_ = false) := by
  constructor
  · intro h
    obtain ⟨e, he⟩ := disableContactSensors_missing names initContacts h
    rcases hm with rfl | rfl
    · exact ⟨e, by simp [configureContacts, he]⟩
    · exact ⟨e, by simp [configureContacts, he]⟩
  · intro h
    obtain ⟨contacts2, hok, hfind⟩ := disableContactSensors_present names initContacts h
    have hall : ∀ name ∈ names, ∃ c, findContact contacts2 name = some c
        ∧ c.sensorEnabled_ = false := by
      intro name hmem
      rw [hfind]
      cases hf : findContact initContacts name with
      | none => exact absurd hf (h name hmem)
      | some c =>
        refine ⟨{ c with sensorEnabled_ := false }, ?_, rfl⟩
        simp [hmem]
    rcases hm with rfl | rfl
    · refine ⟨{ self with contactsDetection := ContactsDetection.Surfaces, contacts := contacts2 },
        ?_, hall⟩
      simp [configureContacts, hok]
    · refine ⟨{ self with contactsDetection := ContactsDetection.Sensors, contacts := contacts2 },
        ?_, hall⟩
      simp [configureContacts, hok]

/-- C22 at the policy Solver. The registry holds the one contact `LeftFoot`, with its sensor enabled.
With `contactSensorsDisabledInit = ["RightHandForceSensor"]`, a name without contact, `configure` ends
with an error under the policies Surfaces and Sensors and goes on under the policy Solver; with
`contactSensorsDisabledInit = ["LeftFoot"]` the policy Solver leaves `sensorEnabled_` of that contact
true, where the policy Sensors sets it to false. -/
theorem C22_solver_ignores_disabled_sensors :
    configureContacts ContactsDetection.Surfaces [("LeftFoot", Demo.contact 0 "LeftFoot" false)]
        ["RightHandForceSensor"] (Demo.observer 5 0)
      = Except.error
          "The force sensor RightHandForceSensor set as disabled on initialization does not exist."
      ∧ configureContacts ContactsDetection.Sensors [("LeftFoot", Demo.contact 0 "LeftFoot" false)]
          ["RightHandForceSensor"] (Demo.observer 5 0)
        = Except.error
            "The force sensor RightHandForceSensor set as disabled on initialization does not exist."
      ∧ configureContacts ContactsDetection.Solver [("LeftFoot", Demo.contact 0 "LeftFoot" false)]
          ["RightHandForceSensor"] (Demo.observer 5 0)
        = Except.ok
            { Demo.observer 5 0 with
              contactsDetection := ContactsDetection.Solver
              contacts := [("LeftFoot", Demo.contact 0 "LeftFoot" false)] }
      ∧ configureContacts ContactsDetection.Solver [("LeftFoot", Demo.contact 0 "LeftFoot" false)]
          ["LeftFoot"] (Demo.observer 5 0)
        = Except.ok
            { Demo.observer 5 0 with
              contactsDetection := ContactsDetection.Solver
              contacts := [("LeftFoot", Demo.contact 0 "LeftFoot" false)] }
      ∧ (Demo.contact 0 "LeftFoot" false).sensorEnabled_ = true
      ∧ configureContacts ContactsDetection.Sensors [("LeftFoot", Demo.contact 0 "LeftFoot" false)]
          ["LeftFoot"] (Demo.observer 5 0)
        = Except.ok
            { Demo.observer 5 0 with
              contactsDetection := ContactsDetection.Sensors
              contacts :=
                [("LeftFoot", { Demo.contact 0 "LeftFoot" false with sensorEnabled_ := false })] } := by
  refine ⟨?_, ?_, ?_, ?_, rfl, ?_⟩
  · simp [configureContacts, disableContactSensors, findContact]
  · simp [configureContacts, disableContactSensors, findContact]
  · simp [configureContacts]
  · simp [configureContacts]
  · simp [configureContacts, disableContactSensors, findContact, disableFoundContactSensor]

/-! ### The initial covariance of the new contacts -/

theorem setNewContact_initCovarianceArg (lib : Lib R) (self : MCKineticsObserver R)
    (g : Kinematics R → Kinematics R) (robot inputRobot : Robot R) (contact : KoContactWithSensor R)
    (initCovariance : Matrix12 R) :
    (setNewContact lib self g robot inputRobot contact initCovariance).2.filterMap initCovarianceArg
      = [initCovariance] := by
  obtain ⟨ref, h⟩ := setNewContact_calls lib self g robot inputRobot contact initCovariance
  rw [h]
  cases contact.sensorEnabled_ <;> simp [initCovarianceArg]

theorem updateContact_initCovarianceArg (lib : Lib R) (self : MCKineticsObserver R)
    (robot inputRobot : Robot R) (contact : KoContactWithSensor R) :
    (updateContact lib self robot inputRobot contact).2.filterMap initCovarianceArg = [] := by
  rw [updateContact_calls]
  cases contact.sensorEnabled_ <;> simp [initCovarianceArg]

theorem dispatchContactEvents_initCovarianceArg (lib : Lib R) (self : MCKineticsObserver R)
    (g : List (ObserverCall R) → Kinematics R → Kinematics R) (robot inputRobot : Robot R)
    (initCovariance : Matrix12 R) (events : List (ContactEvent R)) :
    ∀ calls : List (ObserverCall R),
      (dispatchContactEvents lib self g robot inputRobot initCovariance events calls).2.filterMap
          initCovarianceArg
        = calls.filterMap initCovarianceArg
          ++ List.replicate (newContactsOf events).length initCovariance := by
  induction events with
  | nil =>
    intro calls
    simp [dispatchContactEvents, newContactsOf]
  | cons event rest ih =>
    intro calls
    cases event with
    | onNewContact contact =>
      simp only [dispatchContactEvents, ih, List.filterMap_append, setNewContact_initCovarianceArg,
        newContactsOf, List.length_cons, List.replicate_succ]
      simp
    | onMaintainedContact contact =>
      simp only [dispatchContactEvents, ih, List.filterMap_append, updateContact_initCovarianceArg,
        newContactsOf]
      simp
    | onRemovedContact contact =>
      simp only [dispatchContactEvents, ih, List.filterMap_append, newContactsOf]
      simp [initCovarianceArg]

theorem updateContacts_initCovarianceArg (lib : Lib R) (self : MCKineticsObserver R)
    (g : List (ObserverCall R) → Kinematics R → Kinematics R) (robot inputRobot : Robot R)
    (n : Nat) (events : List (ContactEvent R)) :
    (updateContacts lib self g robot inputRobot n events).2.2.filterMap initCovarianceArg
      = List.replicate (newContactsOf events).length (selectInitCovariance n self).2 := by
  simp only [updateContacts, dispatchContactEvents_initCovarianceArg, List.filterMap_nil,
    List.nil_append]

theorem selectInitCovariance_not_flat (n : Nat) (self : MCKineticsObserver R)
    (h : self.odometryType_ ≠ OdometryType.Flat) :
    selectInitCovariance n self
      = (self, if n = 0 then self.contactInitCovarianceFirstContacts_
               else self.contactInitCovarianceNewContacts_) := by
  unfold selectInitCovariance
  by_cases hn : n = 0
  · simp [hn, h]
  · have hpos : n > 0 := Nat.pos_of_ne_zero hn
    simp [hn, hpos, h]

theorem selectInitCovariance_flat (n : Nat) (self : MCKineticsObserver R)
    (h : self.odometryType_ = OdometryType.Flat) :
    selectInitCovariance n self
      = if n = 0 then
          ({ self with
              contactInitCovarianceFirstContacts_flat_ :=
                assignEntry
                  (assignDiagonal self.contactInitCovarianceFirstContacts_flat_
                    self.contactInitCovarianceFirstContacts_) 2 2 0 },
            assignEntry
              (assignDiagonal self.contactInitCovarianceFirstContacts_flat_
                self.contactInitCovarianceFirstContacts_) 2 2 0)
        else
          ({ self with
              contactInitCovarianceNewContacts_flat_ :=
                assignEntry
                  (assignDiagonal self.contactInitCovarianceNewContacts_flat_
                    self.contactInitCovarianceNewContacts_) 2 2 0 },
            assignEntry
              (assignDiagonal self.contactInitCovarianceNewContacts_flat_
                self.contactInitCovarianceNewContacts_) 2 2 0) := by
  unfold selectInitCovariance
  by_cases hn : n = 0
  · simp [hn, h]
  · have hpos : n > 0 := Nat.pos_of_ne_zero hn
    simp [hn, hpos, h]

theorem assignEntry_assignDiagonal_eq (flat src : Matrix12 R)
    (hoff : ∀ i j, i ≠ j → flat i j = 0) :
    assignEntry (assignDiagonal flat src) 2 2 0
      = Matrix.diagonal (fun i => if i = 2 then 0 else src i i) := by
  ext i j
  simp only [assignEntry, assignDiagonal, Matrix.diagonal_apply]
  by_cases hij : i = j
  · subst hij
    by_cases h2 : i = 2
    · simp [h2]
    · simp [h2]
  · have hn : ¬ (i = 2 ∧ j = 2) := fun h => hij (h.1.trans h.2.symm)
    simp [hij, hn, hoff i j hij]

/-- C28: in one call of `updateContacts`, every `addContact` made for a new contact receives the same
initial covariance, the one chosen on entry from the number `n` of contacts set in the estimator: the
matrix of the first contacts when `n = 0`, the matrix of the new contacts otherwise (in the Flat mode,
the flat counterpart of that matrix, which the call has just written). -/
theorem C28_init_covariance_selected_once (lib : Lib R) (self : MCKineticsObserver R)
    (g : List (ObserverCall R) → Kinematics R → Kinematics R) (robot inputRobot : Robot R)
    (n : Nat) (events : List (ContactEvent R)) :
    (updateContacts lib self g robot inputRobot n events).2.2.filterMap initCovarianceArg
        = List.replicate (newContactsOf events).length (selectInitCovariance n self).2
      ∧ (self.odometryType_ ≠ OdometryType.Flat →
          (selectInitCovariance n self).2
            = if n = 0 then self.contactInitCovarianceFirstContacts_
              else self.contactInitCovarianceNewContacts_)
      ∧ (self.odometryType_ = OdometryType.Flat →
          (selectInitCovariance n self).2
            = if n = 0 then
                (updateContacts lib self g robot inputRobot n
                  events).1.contactInitCovarianceFirstContacts_flat_
              else
                (updateContacts lib self g robot inputRobot n
                  events).1.contactInitCovarianceNewContacts_flat_) := by
  refine ⟨updateContacts_initCovarianceArg lib self g robot inputRobot n events, ?_, ?_⟩
  · intro h
    rw [selectInitCovariance_not_flat n self h]
  · intro h
    simp only [updateContacts]
    rw [selectInitCovariance_flat n self h]
    by_cases hn : n = 0
    · simp [hn]
    · simp [hn]

/-- C28, instance: no contact is set in the estimator and two contacts are created in the same call,
after which a third one is maintained; both `addContact` receive the matrix of the first contacts. -/
theorem C28_init_covariance_selected_once_witness :
    (Demo.covarianceObserver OdometryType.Odometry6d).odometryType_ ≠ OdometryType.Flat
      ∧ (updateContacts Demo.lib (Demo.covarianceObserver OdometryType.Odometry6d)
          (Demo.tick false 0).getGlobalKinematicsOf (Demo.robot 1) (Demo.robot 0) 0
          [ContactEvent.onNewContact (Demo.contact 0 "LeftFoot" true),
            ContactEvent.onNewContact (Demo.contact 1 "RightFoot" true),
            ContactEvent.onMaintainedContact (Demo.contact 2 "LeftHand" true)]).2.2.filterMap
            initCovarianceArg
        = [(Demo.covarianceObserver OdometryType.Odometry6d).contactInitCovarianceFirstContacts_,
            (Demo.covarianceObserver OdometryType.Odometry6d).contactInitCovarianceFirstContacts_] :=
  ⟨by simp [Demo.covarianceObserver, configureContactInitCovariances],
   by
    rw [(C28_init_covariance_selected_once Demo.lib (Demo.covarianceObserver OdometryType.Odometry6d)
        (Demo.tick false 0).getGlobalKinematicsOf (Demo.robot 1) (Demo.robot 0) 0
        [ContactEvent.onNewContact (Demo.contact 0 "LeftFoot" true),
          ContactEvent.onNewContact (Demo.contact 1 "RightFoot" true),
          ContactEvent.onMaintainedContact (Demo.contact 2 "LeftHand" true)]).1,
      (C28_init_covariance_selected_once Demo.lib (Demo.covarianceObserver OdometryType.Odometry6d)
        (Demo.tick false 0).getGlobalKinematicsOf (Demo.robot 1) (Demo.robot 0) 0
        [ContactEvent.onNewContact (Demo.contact 0 "LeftFoot" true),
          ContactEvent.onNewContact (Demo.contact 1 "RightFoot" true),
          ContactEvent.onMaintainedContact (Demo.contact 2 "LeftHand" true)]).2.1
        (by simp [Demo.covarianceObserver, configureContactInitCovariances])]
    rfl⟩

/-- C29: let the off-diagonal entries of the two flat matrices be zero, as `configure` leaves them. In
the Flat mode every new contact of a call of `updateContacts` receives the diagonal matrix whose
diagonal is that of the matrix of the first contacts (no contact set in the estimator) or of the new
contacts (otherwise), but for the entry `(2, 2)`, which is `0`; the call leaves the two non-flat
matrices as they are and the off-diagonal entries of the flat ones zero. In the other modes the
non-flat matrix itself is passed and the observer is left as it is. -/
theorem C29_flat_init_covariance (lib : Lib R) (self : MCKineticsObserver R)
    (g : List (ObserverCall R) → Kinematics R → Kinematics R) (robot inputRobot : Robot R)
    (n : Nat) (events : List (ContactEvent R))
    (hoffFirst : ∀ i j, i ≠ j → self.contactInitCovarianceFirstContacts_flat_ i j = 0)
    (hoffNew : ∀ i j, i ≠ j → self.contactInitCovarianceNewContacts_flat_ i j = 0) :
    (self.odometryType_ = OdometryType.Flat →
        (updateContacts lib self g robot inputRobot n events).2.2.filterMap initCovarianceArg
            = List.replicate (newContactsOf events).length
                (Matrix.diagonal (fun i =>
                  if i = 2 then 0
                  else (if n = 0 then self.contactInitCovarianceFirstContacts_
                        else self.contactInitCovarianceNewContacts_) i i))
          ∧ (updateContacts lib self g robot inputRobot n events).1.contactInitCovarianceFirstContacts_
            = self.contactInitCovarianceFirstContacts_
          ∧ (updateContacts lib self g robot inputRobot n events).1.contactInitCovarianceNewContacts_
            = self.contactInitCovarianceNewContacts_
          ∧ (∀ i j, i ≠ j →
              (updateContacts lib self g robot inputRobot n
                events).1.contactInitCovarianceFirstContacts_flat_ i j = 0)
          ∧ (∀ i j, i ≠ j →
              (updateContacts lib self g robot inputRobot n
                events).1.contactInitCovarianceNewContacts_flat_ i j = 0))
      ∧ (self.odometryType_ ≠ OdometryType.Flat →
        (updateContacts lib self g robot inputRobot n events).2.2.filterMap initCovarianceArg
            = List.replicate (newContactsOf events).length
                (if n = 0 then self.contactInitCovarianceFirstContacts_
                 else self.contactInitCovarianceNewContacts_)
          ∧ (updateContacts lib self g robot inputRobot n events).1 = self) := by
  constructor
  · intro h
    rw [updateContacts_initCovarianceArg]
    simp only [updateContacts]
    rw [selectInitCovariance_flat n self h]
    by_cases hn : n = 0
    · simp only [hn, if_true]
      rw [assignEntry_assignDiagonal_eq _ _ hoffFirst]
      refine ⟨rfl, trivial, trivial, ?_, hoffNew⟩
      intro i j hij
      simp [Matrix.diagonal_apply, hij]
    · simp only [hn, if_false]
      rw [assignEntry_assignDiagonal_eq _ _ hoffNew]
      refine ⟨rfl, trivial, trivial, hoffFirst, ?_⟩
      intro i j hij
      simp [Matrix.diagonal_apply, hij]
  · intro h
    rw [updateContacts_initCovarianceArg]
    simp only [updateContacts]
    rw [selectInitCovariance_not_flat n self h]
    exact ⟨rfl, rfl⟩

theorem demo_flat_diagonal :
    (fun i : Fin 12 =>
        if i = 2 then (0 : ℚ)
        else (if (0 : Nat) = 0 then
                (Demo.covarianceObserver OdometryType.Flat).contactInitCovarianceFirstContacts_
              else (Demo.covarianceObserver OdometryType.Flat).contactInitCovarianceNewContacts_) i i)
      = ![1, 2, 0, 4, 5, 6, 7, 8, 9, 10, 11, 12] := by
  funext i
  fin_cases i <;> rfl

/-- C29, instance: in the Flat mode, after `configure` with the variances `(1, 2, 3)`, `(4, 5, 6)`,
`(7, 8, 9)`, `(10, 11, 12)` for the first contacts, the first contact created receives the diagonal
matrix of `1, 2, 0, 4, ..., 12`. -/
theorem C29_flat_init_covariance_witness :
    (Demo.covarianceObserver OdometryType.Flat).odometryType_ = OdometryType.Flat
      ∧ (∀ i j, i ≠ j →
          (Demo.covarianceObserver OdometryType.Flat).contactInitCovarianceFirstContacts_flat_ i j = 0)
      ∧ (updateContacts Demo.lib (Demo.covarianceObserver OdometryType.Flat)
          (Demo.tick false 0).getGlobalKinematicsOf (Demo.robot 1) (Demo.robot 0) 0
          [ContactEvent.onNewContact (Demo.contact 0 "LeftFoot" true)]).2.2.filterMap
            initCovarianceArg
        = [Matrix.diagonal ![1, 2, 0, 4, 5, 6, 7, 8, 9, 10, 11, 12]] :=
  ⟨rfl, fun _ _ _ => rfl,
   by
    rw [((C29_flat_init_covariance Demo.lib (Demo.covarianceObserver OdometryType.Flat)
        (Demo.tick false 0).getGlobalKinematicsOf (Demo.robot 1) (Demo.robot 0) 0
        [ContactEvent.onNewContact (Demo.contact 0 "LeftFoot" true)]
        (fun _ _ _ => rfl) (fun _ _ _ => rfl)).1 rfl).1, demo_flat_diagonal]
    rfl⟩

/-! ### The additional wrench given to the estimator -/

theorem foldl_add_filter {α : Type} (p : α → Bool) (f : α → Vector3 R × Vector3 R) (l : List α) :
    ∀ a : Vector3 R × Vector3 R,
      l.foldl (fun acc x => if p x then (acc.1 + (f x).1, acc.2 + (f x).2) else acc) a
        = a + ((l.filter p).map f).sum := by
  induction l with
  | nil => intro a; simp
  | cons x xs ih =>
    intro a
    simp only [List.foldl_cons, ih]
    by_cases hp : p x = true
    · simp only [hp, if_true, List.filter_cons, List.map_cons, List.sum_cons]
      rw [← add_assoc]
      rfl
    · simp only [hp, List.filter_cons]
      simp

theorem inputAdditionalWrench_eq_sum (lib : Lib R) (self : MCKineticsObserver R)
    (inputRobot measRobot : Robot R) :
    inputAdditionalWrench lib self inputRobot measRobot
      = ((self.contacts.filter (fun e => !e.2.isSet_ && e.2.sensorEnabled_)).map
            (fun e => worldWrenchOf lib inputRobot (measRobot.forceSensor e.2.forceSensorName_))).sum
        + ((measRobot.forceSensors.filter
              (fun fs => (findContact self.contacts fs.name).isNone)).map
            (worldWrenchOf lib inputRobot)).sum
        + (self.forceSensorsAsInput_.map
            (fun fsName => worldWrenchOf lib inputRobot (measRobot.forceSensor fsName))).sum := by
  have h1 := foldl_add_filter (fun e : String × KoContactWithSensor R => !e.2.isSet_ && e.2.sensorEnabled_)
    (fun e => worldWrenchOf lib inputRobot (measRobot.forceSensor e.2.forceSensorName_))
    self.contacts (0, 0)
  have h2 := foldl_add_filter (fun fs : ForceSensor R => (findContact self.contacts fs.name).isNone)
    (worldWrenchOf lib inputRobot) measRobot.forceSensors
  have h3 := foldl_add_filter (fun _ : String => true)
    (fun fsName => worldWrenchOf lib inputRobot (measRobot.forceSensor fsName))
    self.forceSensorsAsInput_
  simp only [worldWrenchOf, if_true, List.filter_true] at h1 h2 h3
  simp only [inputAdditionalWrench, addSensorsAsInputs, worldWrenchOf, h1, h2, h3]
  simp
  rfl
theorem findContact_mem (contacts : List (String × KoContactWithSensor R)) (name : String)
    (c : KoContactWithSensor R) (h : findContact contacts name = some c) : (name, c) ∈ contacts := by
  induction contacts with
  | nil => simp [findContact] at h
  | cons e rest ih =>
    obtain ⟨key, contact⟩ := e
    simp only [findContact] at h
    by_cases hk : key = name
    · rw [if_pos hk] at h
      cases h
      rw [hk]
      exact List.mem_cons_self _ _
    · rw [if_neg hk] at h
      exact List.mem_cons_of_mem _ (ih h)

theorem findContact_of_mem (contacts : List (String × KoContactWithSensor R))
    (hkeys : (contacts.map Prod.fst).Nodup) (name : String) (c : KoContactWithSensor R)
    (h : (name, c) ∈ contacts) : findContact contacts name = some c := by
  induction contacts with
  | nil => simp at h
  | cons e rest ih =>
    obtain ⟨key, contact⟩ := e
    simp only [List.map_cons, List.nodup_cons] at hkeys
    rcases List.mem_cons.1 h with heq | hrest
    · cases heq
      simp [findContact]
    · have hne : key ≠ name := by
        intro hk
        apply hkeys.1
        rw [hk]
        exact List.mem_map.2 ⟨(name, c), hrest, rfl⟩
      simp only [findContact, if_neg hne]
      exact ih hkeys.2 hrest

theorem sum_contacts_eq_sum_sensors (f : ForceSensor R → Vector3 R × Vector3 R)
    (contacts : List (String × KoContactWithSensor R)) (sensors : List (ForceSensor R))
    (forceSensor : String → ForceSensor R) (p : KoContactWithSensor R → Bool)
    (hkeys : (contacts.map Prod.fst).Nodup)
    (hname : ∀ e ∈ contacts, e.2.forceSensorName_ = e.1)
    (hsens : (sensors.map ForceSensor.name).Nodup)
    (hrobot : ∀ fs ∈ sensors, forceSensor fs.name = fs)
    (hsub : ∀ e ∈ contacts, ∃ fs ∈ sensors, fs.name = e.1) :
    ((contacts.filter (fun e => p e.2)).map (fun e => f (forceSensor e.2.forceSensorName_))).sum
      = ((sensors.filter
            (fun fs => match findContact contacts fs.name with
              | some c => p c
              | none => false)).map f).sum := by
  have hfs : ∀ e ∈ contacts, forceSensor e.2.forceSensorName_ ∈ sensors
      ∧ (forceSensor e.2.forceSensorName_).name = e.1 := by
    intro e he
    obtain ⟨fs, hmem, hfs⟩ := hsub e he
    rw [hname e he, ← hfs, hrobot fs hmem]
    exact ⟨hmem, rfl⟩
  have hperm : List.Perm
      ((contacts.filter (fun e => p e.2)).map (fun e => forceSensor e.2.forceSensorName_))
      (sensors.filter
        (fun fs => match findContact contacts fs.name with
          | some c => p c
          | none => false)) := by
    apply (List.perm_ext_iff_of_nodup _ _).2
    · intro fs
      simp only [List.mem_map, List.mem_filter]
      constructor
      · rintro ⟨e, ⟨he, hp⟩, rfl⟩
        refine ⟨(hfs e he).1, ?_⟩
        rw [(hfs e he).2, findContact_of_mem contacts hkeys e.1 e.2 he]
        exact hp
      · rintro ⟨hmem, hq⟩
        cases hf : findContact contacts fs.name with
        | none => rw [hf] at hq; exact absurd hq (by simp)
        | some c =>
          rw [hf] at hq
          have he := findContact_mem contacts fs.name c hf
          refine ⟨(fs.name, c), ⟨he, hq⟩, ?_⟩
          rw [hname _ he]
          exact hrobot fs hmem
    · apply List.Nodup.map_on _ ((List.Nodup.of_map _ hkeys).filter _)
      intro x hx y hy hxy
      have hx2 := (List.mem_filter.1 hx).1
      have hy2 := (List.mem_filter.1 hy).1
      have hk : x.1 = y.1 := by
        rw [← (hfs x hx2).2, ← (hfs y hy2).2, hxy]
      have h1 := findContact_of_mem contacts hkeys x.1 x.2 hx2
      have h2 := findContact_of_mem contacts hkeys y.1 y.2 hy2
      rw [hk, h2] at h1
      exact Prod.ext hk (Option.some.inj h1).symm
    · exact (List.Nodup.of_map _ hsens).filter _
  have hmap : (contacts.filter (fun e => p e.2)).map (fun e => f (forceSensor e.2.forceSensorName_))
      = ((contacts.filter (fun e => p e.2)).map (fun e => forceSensor e.2.forceSensorName_)).map f := by
    rw [List.map_map]
    rfl
  rw [hmap]
  exact (hperm.map f).sum_eq
theorem sum_filter_add_of_disjoint {α : Type} (f : α → Vector3 R × Vector3 R) (p q : α → Bool)
    (hd : ∀ x, ¬ (p x = true ∧ q x = true)) (l : List α) :
    ((l.filter p).map f).sum + ((l.filter q).map f).sum
      = ((l.filter (fun x => p x || q x)).map f).sum := by
  induction l with
  | nil => simp
  | cons x xs ih =>
    cases hp : p x with
    | true =>
      have hq : q x = false := by
        cases hq : q x with
        | false => rfl
        | true => exact absurd ⟨hp, hq⟩ (hd x)
      simp only [List.filter_cons, hp, hq, if_true, Bool.true_or, List.map_cons, List.sum_cons,
        Bool.false_eq_true, if_false]
      rw [add_assoc, ih]
    | false =>
      cases hq : q x with
      | true =>
        simp only [List.filter_cons, hp, hq, if_true, Bool.or_true, List.map_cons, List.sum_cons,
          Bool.false_eq_true, if_false]
        rw [add_left_comm, ih]
      | false =>
        simp only [List.filter_cons, hp, hq, Bool.or_self, Bool.false_eq_true, if_false]
        exact ih

/-- C24 (as amended): let every contact of the registry be stored under the name of its force sensor,
which is one of the force sensors of the robot, let the names of the contacts and of the sensors be
pairwise distinct, and let `forceSensorsAsInput_` be empty. Then the additional wrench passed to the
estimator is the sum of the gravity-free world wrenches of exactly the force sensors of the robot that
have no contact in the registry or whose contact is not set and has `sensorEnabled_` true, each counted
once; the sensor of a set contact and the sensor of a contact with `sensorEnabled_` false are not
counted. -/
theorem C24_additional_wrench (lib : Lib R) (self : MCKineticsObserver R)
    (inputRobot measRobot : Robot R)
    (hkeys : (self.contacts.map Prod.fst).Nodup)
    (hname : ∀ e ∈ self.contacts, e.2.forceSensorName_ = e.1)
    (hsens : (measRobot.forceSensors.map ForceSensor.name).Nodup)
    (hrobot : ∀ fs ∈ measRobot.forceSensors, measRobot.forceSensor fs.name = fs)
    (hsub : ∀ e ∈ self.contacts, ∃ fs ∈ measRobot.forceSensors, fs.name = e.1)
    (hinput : self.forceSensorsAsInput_ = []) :
    inputAdditionalWrench lib self inputRobot measRobot
        = ((measRobot.forceSensors.filter
              (fun fs => match findContact self.contacts fs.name with
                | none => true
                | some c => !c.isSet_ && c.sensorEnabled_)).map
            (worldWrenchOf lib inputRobot)).sum
      ∧ (measRobot.forceSensors.filter
            (fun fs => match findContact self.contacts fs.name with
              | none => true
              | some c => !c.isSet_ && c.sensorEnabled_)).Nodup := by
  refine ⟨?_, (List.Nodup.of_map _ hsens).filter _⟩
  rw [inputAdditionalWrench_eq_sum, hinput, List.map_nil, List.sum_nil, add_zero,
    sum_contacts_eq_sum_sensors (worldWrenchOf lib inputRobot) self.contacts measRobot.forceSensors
      measRobot.forceSensor (fun c => !c.isSet_ && c.sensorEnabled_) hkeys hname hsens hrobot hsub,
    sum_filter_add_of_disjoint]
  · congr 3
    funext fs
    cases findContact self.contacts fs.name <;> simp
  · intro fs
    cases findContact self.contacts fs.name <;> simp

/-- C24, instance: the registry holds the contact `LeftFoot`, set, and the contact `RightFoot`, not
set, its sensor enabled; the robot has these two force sensors: the additional wrench is the wrench of
the sensor `RightFoot`. -/
theorem C24_additional_wrench_witness :
    ((Demo.observer 5 0).contacts.map Prod.fst).Nodup
      ∧ (Demo.observer 5 0).forceSensorsAsInput_ = []
      ∧ inputAdditionalWrench Demo.lib (Demo.observer 5 0) (Demo.robot 2) (Demo.robot 1)
        = (![0, 0, 2], ![0, 1, 0]) :=
  ⟨by simp [Demo.observer], rfl,
   by
    rw [(C24_additional_wrench Demo.lib (Demo.observer 5 0) (Demo.robot 2) (Demo.robot 1)
      (by simp [Demo.observer])
      (by simp [Demo.observer, Demo.contact])
      (by simp [Demo.robot])
      (by simp [Demo.robot])
      (by simp [Demo.observer, Demo.robot])
      rfl).1]
    simp [Demo.robot, Demo.observer, Demo.contact, findContact, worldWrenchOf, Demo.lib]⟩

/-- C24, as stated, fails. The registry holds the contact `LeftFoot`, set, and the contact `RightFoot`,
not set, with `sensorEnabled_` false; the robot has these two force sensors and
`forceSensorsAsInput_` is empty. The sensor `RightFoot` is not the sensor of a set contact, so that the
claim has its wrench `((0, 0, 2), (0, 1, 0))` as the additional wrench; the code passes the zero
wrench. -/
theorem C24_counterexample :
    inputAdditionalWrench Demo.lib
        ({ Demo.observer 5 0 with
            contacts :=
              [("LeftFoot", Demo.contact 0 "LeftFoot" true),
                ("RightFoot", { Demo.contact 1 "RightFoot" false with sensorEnabled_ := false })] }
          : MCKineticsObserver ℚ)
        (Demo.robot 2) (Demo.robot 1)
      = (0, 0)
      ∧ wrenchOfSensorsWithoutSetContact Demo.lib
          ({ Demo.observer 5 0 with
              contacts :=
                [("LeftFoot", Demo.contact 0 "LeftFoot" true),
                  ("RightFoot", { Demo.contact 1 "RightFoot" false with sensorEnabled_ := false })] }
            : MCKineticsObserver ℚ)
          (Demo.robot 2) (Demo.robot 1)
        = (![0, 0, 2], ![0, 1, 0])
      ∧ inputAdditionalWrench Demo.lib
          ({ Demo.observer 5 0 with
              contacts :=
                [("LeftFoot", Demo.contact 0 "LeftFoot" true),
                  ("RightFoot", { Demo.contact 1 "RightFoot" false with sensorEnabled_ := false })] }
            : MCKineticsObserver ℚ)
          (Demo.robot 2) (Demo.robot 1)
        ≠ wrenchOfSensorsWithoutSetContact Demo.lib
            ({ Demo.observer 5 0 with
                contacts :=
                  [("LeftFoot", Demo.contact 0 "LeftFoot" true),
                    ("RightFoot", { Demo.contact 1 "RightFoot" false with sensorEnabled_ := false })] }
              : MCKineticsObserver ℚ)
            (Demo.robot 2) (Demo.robot 1) := by
  have h1 : inputAdditionalWrench Demo.lib
        ({ Demo.observer 5 0 with
            contacts :=
              [("LeftFoot", Demo.contact 0 "LeftFoot" true),
                ("RightFoot", { Demo.contact 1 "RightFoot" false with sensorEnabled_ := false })] }
          : MCKineticsObserver ℚ)
        (Demo.robot 2) (Demo.robot 1)
      = (0, 0) := by
    simp [inputAdditionalWrench, addSensorsAsInputs, Demo.observer, Demo.contact, Demo.robot,
      findContact]
  have h2 : wrenchOfSensorsWithoutSetContact Demo.lib
        ({ Demo.observer 5 0 with
            contacts :=
              [("LeftFoot", Demo.contact 0 "LeftFoot" true),
                ("RightFoot", { Demo.contact 1 "RightFoot" false with sensorEnabled_ := false })] }
          : MCKineticsObserver ℚ)
        (Demo.robot 2) (Demo.robot 1)
      = (![0, 0, 2], ![0, 1, 0]) := by
    simp [wrenchOfSensorsWithoutSetContact, worldWrenchOf, Demo.observer, Demo.contact, Demo.robot,
      Demo.lib]
  refine ⟨h1, h2, ?_⟩
  rw [h1, h2]
  intro h
  have h3 := congrFun (congrArg Prod.fst h) 2
  simp at h3

/-- The sensors of `forceSensorsAsInput_` that have no contact in the registry are added by the loop
over the force sensors of the robot (lines 758-766) and again by `addSensorsAsInputs` (line 768): with
the registry empty, the one force sensor `RightHand` and `forceSensorsAsInput_ = ["RightHand"]`, the
wrench passed is twice the wrench `((0, 0, 2), (0, 1, 0))` of that sensor. -/
theorem inputAdditionalWrench_input_sensor_twice :
    inputAdditionalWrench Demo.lib
        ({ Demo.observer 5 0 with contacts := [], forceSensorsAsInput_ := ["RightHand"] }
          : MCKineticsObserver ℚ)
        (Demo.robot 2)
        ({ Demo.robot 1 with forceSensors := [⟨"RightHand", "body", ⟨1, ![0, 0, 1]⟩⟩] } : Robot ℚ)
      = (![0, 0, 4], ![0, 2, 0]) := by
  simp [inputAdditionalWrench, addSensorsAsInputs, Demo.observer, Demo.robot, findContact, Demo.lib]
  norm_num

end MCKineticsObserver

end mc_state_observation
